import Mathlib

/-!
Verification of the GiiBiiAdvance Game Boy core against its specification.

This development gives a shallow embedding of the parts of the emulator core
that the checked claims are about:

* `source/gb_core/cpu.c` — the LR35902 decoder/executor (`GB_CPUExecute`),
  the EI-delay and halt-bug machinery, and the scheduling-window computation
  `GB_ClocksForNextEvent`;
* `source/gb_core/ppu.c` — the STAT-signal edge detector
  (`GB_PPUCheckStatSignal`);
* `source/gb_core/rom.c` — cartridge-load checks (`GB_CartridgeLoad`) and the
  battery-backed RTC reload logic (`GB_RTC_Load`).

Machine integers are modelled as `Nat` with explicit masking (`% 256`,
`% 0x10000`, ...) exactly where the C types wrap.  Code of the repository
that is *not* among the provided sources (memory dispatch in `memory.c`, the
interrupt dispatcher in `interrupts.c`, the DAA table in `daa_table.c`, the
register-bit constants of `interrupts.h`) is modelled from the specification;
every such definition carries a doc comment starting with
`Modelled from the spec:`.
-/

namespace GiiBii

/-! ### CPU register file and machine state (cpu.c) -/

/-- The 8-bit registers of the LR35902 register file (`_GB_CPU_.R8`).
`RF` is the flag register F; flag bits live in its high nibble
(Z = bit 7, N = bit 6, H = bit 5, C = bit 4). -/
inductive Reg8 where
  | RA | RF | RB | RC | RD | RE | RH | RL
  deriving Repr, DecidableEq

/-- CPU register file: eight 8-bit registers plus 16-bit SP and PC
(`_GB_CPU_` in cpu.h; the union views `R8`/`R16`/`F` are modelled by the
byte fields together with the accessor functions below). -/
structure GBCpu where
  a : Nat
  f : Nat
  b : Nat
  c : Nat
  d : Nat
  e : Nat
  h : Nat
  l : Nat
  sp : Nat
  pc : Nat

/-- Machine state visible to `GB_CPUExecute` and its callers in cpu.c.

`mem` abstracts the byte-addressed bus: `memory.c` (`GB_MemRead8` /
`GB_MemWrite8`) is not among the provided sources, so reads return the
stored byte and writes store a byte, with no MMIO side effects.
`dispatches` is an observer counting interrupt dispatches; it is written
only by the spec-modelled interrupt dispatcher and read by no definition. -/
structure GBState where
  cpu : GBCpu
  mem : Nat → Nat
  /-- `GameBoy.Memory.InterruptMasterEnable` -/
  ime : Nat
  /-- `GameBoy.Memory.interrupts_enable_count` (EI one-instruction delay) -/
  ieCount : Nat
  /-- `GameBoy.Memory.IO_Ports[IF_REG - 0xFF00]` -/
  ifReg : Nat
  /-- `GameBoy.Memory.HighRAM[IE_REG - 0xFF80]` -/
  ieReg : Nat
  /-- `GameBoy.Emulator.CPUHalt` (0 running, 1 HALT, 2 STOP) -/
  cpuHalt : Nat
  /-- `GameBoy.Emulator.halt_bug` -/
  haltBug : Nat
  /-- `gb_cpu_clock_counter` -/
  clock : Nat
  /-- `gb_break_cpu_loop` -/
  breakLoop : Bool
  /-- `gb_break_execution` -/
  breakExec : Bool
  /-- `GameBoy.Emulator.CGBEnabled` -/
  cgbEnabled : Bool
  /-- `GameBoy.Memory.IO_Ports[KEY1_REG - 0xFF00]` -/
  key1 : Nat
  /-- `GameBoy.Emulator.DoubleSpeed` -/
  doubleSpeed : Nat
  /-- `GameBoy.Emulator.cpu_change_speed_clocks` -/
  speedClocks : Nat
  /-- Observer: number of interrupts dispatched so far. -/
  dispatches : Nat

/-- `GB_MemRead8` abstracted: the bus returns one byte. -/
def memRead (s : GBState) (addr : Nat) : Nat :=
  s.mem (addr % 0x10000) % 256

/-- `GB_MemWrite8` abstracted: the bus stores one byte. -/
def memWrite (s : GBState) (addr v : Nat) : GBState :=
  { s with mem := fun x => if x = addr % 0x10000 then v % 256 else s.mem x }

/-- Read an 8-bit register (the `cpu->R8.X` lvalues of cpu.c). -/
def GBState.get8 (s : GBState) : Reg8 → Nat
  | .RA => s.cpu.a
  | .RF => s.cpu.f
  | .RB => s.cpu.b
  | .RC => s.cpu.c
  | .RD => s.cpu.d
  | .RE => s.cpu.e
  | .RH => s.cpu.h
  | .RL => s.cpu.l

/-- Write an 8-bit register; the stored value is a byte. -/
def GBState.set8 (s : GBState) (r : Reg8) (v : Nat) : GBState :=
  match r with
  | .RA => { s with cpu := { s.cpu with a := v % 256 } }
  | .RF => { s with cpu := { s.cpu with f := v % 256 } }
  | .RB => { s with cpu := { s.cpu with b := v % 256 } }
  | .RC => { s with cpu := { s.cpu with c := v % 256 } }
  | .RD => { s with cpu := { s.cpu with d := v % 256 } }
  | .RE => { s with cpu := { s.cpu with e := v % 256 } }
  | .RH => { s with cpu := { s.cpu with h := v % 256 } }
  | .RL => { s with cpu := { s.cpu with l := v % 256 } }

/-- The 16-bit register pairs of the union view `R16` (plus SP). -/
inductive Reg16 where
  | BC | DE | HL | SP
  deriving Repr, DecidableEq

/-- Read a 16-bit pair (`cpu->R16.XY`). -/
def GBState.get16 (s : GBState) : Reg16 → Nat
  | .BC => s.cpu.b * 256 + s.cpu.c
  | .DE => s.cpu.d * 256 + s.cpu.e
  | .HL => s.cpu.h * 256 + s.cpu.l
  | .SP => s.cpu.sp

/-- Write a 16-bit pair; the stored value is 16 bits wide. -/
def GBState.set16 (s : GBState) (r : Reg16) (v : Nat) : GBState :=
  let v := v % 0x10000
  match r with
  | .BC => { s with cpu := { s.cpu with b := v / 256, c := v % 256 } }
  | .DE => { s with cpu := { s.cpu with d := v / 256, e := v % 256 } }
  | .HL => { s with cpu := { s.cpu with h := v / 256, l := v % 256 } }
  | .SP => { s with cpu := { s.cpu with sp := v } }

/-- `GB_CPUClockCounterAdd` (cpu.c line 85). -/
def addClocks (n : Nat) (s : GBState) : GBState :=
  { s with clock := s.clock + n }

/-- `cpu->R16.PC++` on the 16-bit PC field. -/
def pcInc (s : GBState) : GBState :=
  { s with cpu := { s.cpu with pc := (s.cpu.pc + 1) % 0x10000 } }

/-- Set the PC (assignments to `cpu->R16.PC`; stored 16 bits wide). -/
def setPC (s : GBState) (v : Nat) : GBState :=
  { s with cpu := { s.cpu with pc := v % 0x10000 } }

/-- Set SP (assignments to `cpu->R16.SP`, including the `--`/`++` with
explicit `&= 0xFFFF` of cpu.c). -/
def setSP (s : GBState) (v : Nat) : GBState :=
  { s with cpu := { s.cpu with sp := v % 0x10000 } }

/-- Write the F register directly (assignments to `cpu->R8.F` and to the
low byte of `cpu->R16.AF`). -/
def setF (s : GBState) (v : Nat) : GBState :=
  { s with cpu := { s.cpu with f := v % 256 } }

/-! ### Flag-bit helpers

The C code manipulates F through three views of one union: the byte
`cpu->R8.F`, the 16-bit `cpu->R16.AF` (whose low byte is F), and the
bitfield `cpu->F.{Z,N,H,C}` with C = bit 4, H = bit 5, N = bit 6,
Z = bit 7.  An `AF &=`/`AF |=` with a flag-constant mask touches only the
F byte, and is modelled as such. -/

/-- `F_ZERO` (bit 7). -/
def F_ZERO : Nat := 0x80

/-- `F_SUBTRACT` (bit 6). -/
def F_SUBTRACT : Nat := 0x40

/-- `F_HALFCARRY` (bit 5). -/
def F_HALFCARRY : Nat := 0x20

/-- `F_CARRY` (bit 4). -/
def F_CARRY : Nat := 0x10

/-- Read of the bitfield `cpu->F.Z` (0 or 1). -/
def fZ (f : Nat) : Nat := (f >>> 7) &&& 1

/-- Read of the bitfield `cpu->F.N` (0 or 1). -/
def fN (f : Nat) : Nat := (f >>> 6) &&& 1

/-- Read of the bitfield `cpu->F.H` (0 or 1). -/
def fH (f : Nat) : Nat := (f >>> 5) &&& 1

/-- Read of the bitfield `cpu->F.C` (0 or 1). -/
def fC (f : Nat) : Nat := (f >>> 4) &&& 1

/-- Write of the bitfield `cpu->F.Z = b`. -/
def setZ (f : Nat) (b : Bool) : Nat :=
  if b then f ||| 0x80 else f &&& 0x7F

/-- Write of the bitfield `cpu->F.N = b`. -/
def setN (f : Nat) (b : Bool) : Nat :=
  if b then f ||| 0x40 else f &&& 0xBF

/-- Write of the bitfield `cpu->F.H = b`. -/
def setH (f : Nat) (b : Bool) : Nat :=
  if b then f ||| 0x20 else f &&& 0xDF

/-- Write of the bitfield `cpu->F.C = b`. -/
def setC (f : Nat) (b : Bool) : Nat :=
  if b then f ||| 0x10 else f &&& 0xEF

/-- Clear flag bits: `cpu->R16.AF &= ~mask` for a flag-constant `mask`
(only the F byte is affected; `0xFF - mask` is the byte complement). -/
def fAnd (s : GBState) (mask : Nat) : GBState :=
  setF s (s.cpu.f &&& (0xFF - mask))

/-- Set flag bits: `cpu->R16.AF |= mask` for a flag-constant `mask`. -/
def fOr (s : GBState) (mask : Nat) : GBState :=
  setF s (s.cpu.f ||| mask)

/-- Update F through one of the `cpu->F.X = cond` bitfield writes. -/
def fUpd (s : GBState) (g : Nat → Nat) : GBState :=
  setF s (g s.cpu.f)

/-- Sign-extension `(s8)` of a byte to 16 bits, as used by `JR`,
`ADD SP,nn` and `LD HL,SP+nn` (the C casts `(u16)(s16)(s8)m`). -/
def signExt16 (m : Nat) : Nat :=
  if 0x80 ≤ m % 256 then m % 256 + 0xFF00 else m % 256

/-! ### Opcode bodies (the macro-expanded opcode helpers of cpu.c) -/

/-- `gb_ld_r16_nnnn` (cpu.c line 262). -/
def gb_ld_r16_nnnn (hi lo : Reg8) (s : GBState) : GBState :=
  let s := addClocks 4 s
  let s := pcInc (s.set8 lo (memRead s s.cpu.pc))
  let s := addClocks 4 s
  let s := pcInc (s.set8 hi (memRead s s.cpu.pc))
  addClocks 4 s

/-- `gb_ld_r8_nn` (cpu.c line 272). -/
def gb_ld_r8_nn (r : Reg8) (s : GBState) : GBState :=
  let s := addClocks 4 s
  let s := pcInc (s.set8 r (memRead s s.cpu.pc))
  addClocks 4 s

/-- `gb_ld_ptr_r16_r8` (cpu.c line 280). -/
def gb_ld_ptr_r16_r8 (p : Reg16) (r : Reg8) (s : GBState) : GBState :=
  let s := addClocks 4 s
  let s := memWrite s (s.get16 p) (s.get8 r)
  addClocks 4 s

/-- `gb_ld_r8_ptr_r16` (cpu.c line 288). -/
def gb_ld_r8_ptr_r16 (r : Reg8) (p : Reg16) (s : GBState) : GBState :=
  let s := addClocks 4 s
  let s := s.set8 r (memRead s (s.get16 p))
  addClocks 4 s

/-- `gb_inc_r16` (cpu.c line 296). -/
def gb_inc_r16 (p : Reg16) (s : GBState) : GBState :=
  let s := s.set16 p ((s.get16 p + 1) % 0x10000)
  addClocks 8 s

/-- `gb_dec_r16` (cpu.c line 303). -/
def gb_dec_r16 (p : Reg16) (s : GBState) : GBState :=
  let s := s.set16 p ((s.get16 p + 0xFFFF) % 0x10000)
  addClocks 8 s

/-- `gb_inc_r8` (cpu.c line 310). -/
def gb_inc_r8 (r : Reg8) (s : GBState) : GBState :=
  let s := fAnd s F_SUBTRACT
  let s := fUpd s (fun f => setH f ((s.get8 r &&& 0xF) = 0xF))
  let s := s.set8 r (s.get8 r + 1)
  let s := fUpd s (fun f => setZ f (s.get8 r = 0))
  addClocks 4 s

/-- `gb_dec_r8` (cpu.c line 320). -/
def gb_dec_r8 (r : Reg8) (s : GBState) : GBState :=
  let s := fOr s F_SUBTRACT
  let s := fUpd s (fun f => setH f ((s.get8 r &&& 0xF) = 0x0))
  let s := s.set8 r (s.get8 r + 255)
  let s := fUpd s (fun f => setZ f (s.get8 r = 0))
  addClocks 4 s

/-- `gb_add_hl_r16` (cpu.c line 330). -/
def gb_add_hl_r16 (p : Reg16) (s : GBState) : GBState :=
  let s := fAnd s F_SUBTRACT
  let t := s.get16 .HL + s.get16 p
  let s := fUpd s (fun f => setC f (0xFFFF < t))
  let s := fUpd s (fun f =>
    setH f (0x0FFF < (s.get16 .HL &&& 0x0FFF) + (s.get16 p &&& 0x0FFF)))
  let s := s.set16 .HL (t &&& 0xFFFF)
  addClocks 8 s

/-- `gb_add_a_r8` (cpu.c line 341). -/
def gb_add_a_r8 (r : Reg8) (s : GBState) : GBState :=
  let s := fAnd s F_SUBTRACT
  let t := s.cpu.a
  let s := fUpd s (fun f => setH f (0xF < (t &&& 0xF) + (s.get8 r &&& 0xF)))
  let s := s.set8 .RA (s.cpu.a + s.get8 r)
  let s := fUpd s (fun f => setZ f (s.cpu.a = 0))
  let s := fUpd s (fun f => setC f (s.cpu.a < t))
  addClocks 4 s

/-- `gb_adc_a_r8` (cpu.c line 353). -/
def gb_adc_a_r8 (r : Reg8) (s : GBState) : GBState :=
  let s := fAnd s F_SUBTRACT
  let t := s.cpu.a + s.get8 r + fC s.cpu.f
  let s := fUpd s (fun f =>
    setH f (0xF < (s.cpu.a &&& 0xF) + (s.get8 r &&& 0xF) + fC f))
  let s := fUpd s (fun f => setC f (0xFF < t))
  let s := s.set8 .RA (t &&& 0xFF)
  let s := fUpd s (fun f => setZ f (t &&& 0xFF = 0))
  addClocks 4 s

/-- `gb_sub_a_r8` (cpu.c line 366); note the whole-byte write `F = F_SUBTRACT`. -/
def gb_sub_a_r8 (r : Reg8) (s : GBState) : GBState :=
  let s := setF s F_SUBTRACT
  let s := fUpd s (fun f => setH f ((s.cpu.a &&& 0xF) < (s.get8 r &&& 0xF)))
  let s := fUpd s (fun f => setC f (s.cpu.a < s.get8 r))
  let s := s.set8 .RA (s.cpu.a + 256 - s.get8 r)
  let s := fUpd s (fun f => setZ f (s.cpu.a = 0))
  addClocks 4 s

/-- `gb_sbc_a_r8` (cpu.c line 377); `temp` is the u32 `A - r - carry`,
modelled with a +2^32 offset so the borrow test `temp & ~0xFF` matches. -/
def gb_sbc_a_r8 (r : Reg8) (s : GBState) : GBState :=
  let t := (s.cpu.a + 0x100000000 - s.get8 r
            - (if s.cpu.f &&& F_CARRY ≠ 0 then 1 else 0)) % 0x100000000
  let s0 := s
  let s := setF s ((if t &&& 0xFFFFFF00 ≠ 0 then F_CARRY else 0)
                   ||| (if t &&& 0xFF ≠ 0 then 0 else F_ZERO) ||| F_SUBTRACT)
  let s := fUpd s (fun f =>
    setH f (((s0.cpu.a ^^^ s0.get8 r ^^^ t) &&& 0x10) ≠ 0))
  let s := s.set8 .RA t
  addClocks 4 s

/-- `gb_and_a_r8` (cpu.c line 388). -/
def gb_and_a_r8 (r : Reg8) (s : GBState) : GBState :=
  let s := fOr s F_HALFCARRY
  let s := fAnd s (F_SUBTRACT ||| F_CARRY)
  let s := s.set8 .RA (s.cpu.a &&& s.get8 r)
  let s := fUpd s (fun f => setZ f (s.cpu.a = 0))
  addClocks 4 s

/-- `gb_xor_a_r8` (cpu.c line 398). -/
def gb_xor_a_r8 (r : Reg8) (s : GBState) : GBState :=
  let s := fAnd s (F_SUBTRACT ||| F_CARRY ||| F_HALFCARRY)
  let s := s.set8 .RA (s.cpu.a ^^^ s.get8 r)
  let s := fUpd s (fun f => setZ f (s.cpu.a = 0))
  addClocks 4 s

/-- `gb_or_a_r8` (cpu.c line 407). -/
def gb_or_a_r8 (r : Reg8) (s : GBState) : GBState :=
  let s := fAnd s (F_SUBTRACT ||| F_CARRY ||| F_HALFCARRY)
  let s := s.set8 .RA (s.cpu.a ||| s.get8 r)
  let s := fUpd s (fun f => setZ f (s.cpu.a = 0))
  addClocks 4 s

/-- `gb_cp_a_r8` (cpu.c line 416). -/
def gb_cp_a_r8 (r : Reg8) (s : GBState) : GBState :=
  let s := fOr s F_SUBTRACT
  let s := fUpd s (fun f => setH f ((s.cpu.a &&& 0xF) < (s.get8 r &&& 0xF)))
  let s := fUpd s (fun f => setC f (s.cpu.a < s.get8 r))
  let s := fUpd s (fun f => setZ f (s.cpu.a = s.get8 r))
  addClocks 4 s

/-- `gb_rst_nnnn` (cpu.c line 426). -/
def gb_rst_nnnn (addr : Nat) (s : GBState) : GBState :=
  let s := addClocks 8 s
  let s := setSP s (s.cpu.sp + 0xFFFF)
  let s := memWrite s s.cpu.sp (s.cpu.pc / 256)
  let s := addClocks 4 s
  let s := setSP s (s.cpu.sp + 0xFFFF)
  let s := memWrite s s.cpu.sp (s.cpu.pc % 256)
  let s := setPC s addr
  addClocks 4 s

/-- `gb_push_r16` (cpu.c line 441). -/
def gb_push_r16 (hi lo : Reg8) (s : GBState) : GBState :=
  let s := addClocks 8 s
  let s := setSP s (s.cpu.sp + 0xFFFF)
  let s := memWrite s s.cpu.sp (s.get8 hi)
  let s := addClocks 4 s
  let s := setSP s (s.cpu.sp + 0xFFFF)
  let s := memWrite s s.cpu.sp (s.get8 lo)
  addClocks 4 s

/-- `gb_pop_r16` (cpu.c line 455). -/
def gb_pop_r16 (hi lo : Reg8) (s : GBState) : GBState :=
  let s := addClocks 4 s
  let s := setSP (s.set8 lo (memRead s s.cpu.sp)) (s.cpu.sp + 1)
  let s := addClocks 4 s
  let s := setSP (s.set8 hi (memRead s s.cpu.sp)) (s.cpu.sp + 1)
  addClocks 4 s

/-- `gb_call_cond_nnnn` (cpu.c line 467). -/
def gb_call_cond_nnnn (cond : Bool) (s : GBState) : GBState :=
  if cond then
    let s := addClocks 4 s
    let t := memRead s s.cpu.pc
    let s := pcInc s
    let s := addClocks 4 s
    let t := t ||| (memRead s s.cpu.pc <<< 8)
    let s := pcInc s
    let s := addClocks 8 s
    let s := setSP s (s.cpu.sp + 0xFFFF)
    let s := memWrite s s.cpu.sp (s.cpu.pc / 256)
    let s := addClocks 4 s
    let s := setSP s (s.cpu.sp + 0xFFFF)
    let s := memWrite s s.cpu.sp (s.cpu.pc % 256)
    let s := setPC s t
    addClocks 4 s
  else
    let s := setPC s (s.cpu.pc + 2)
    addClocks 12 s

/-- `gb_ret_cond` (cpu.c line 495). -/
def gb_ret_cond (cond : Bool) (s : GBState) : GBState :=
  if cond then
    let s := addClocks 4 s
    let t := memRead s s.cpu.sp
    let s := setSP s (s.cpu.sp + 1)
    let s := addClocks 4 s
    let t := t ||| (memRead s s.cpu.sp <<< 8)
    let s := setSP s (s.cpu.sp + 1)
    let s := addClocks 4 s
    let s := setPC s t
    addClocks 8 s
  else
    addClocks 8 s

/-- `gb_jp_cond_nnnn` (cpu.c line 516). -/
def gb_jp_cond_nnnn (cond : Bool) (s : GBState) : GBState :=
  if cond then
    let s := addClocks 4 s
    let t := memRead s s.cpu.pc
    let s := pcInc s
    let s := addClocks 4 s
    let t := t ||| (memRead s s.cpu.pc <<< 8)
    let s := pcInc s
    let s := addClocks 4 s
    let s := setPC s t
    addClocks 4 s
  else
    let s := setPC s (s.cpu.pc + 2)
    addClocks 12 s

/-- `gb_jr_cond_nn` (cpu.c line 537). -/
def gb_jr_cond_nn (cond : Bool) (s : GBState) : GBState :=
  if cond then
    let s := addClocks 4 s
    let t := memRead s s.cpu.pc
    let s := pcInc s
    let s := setPC s (s.cpu.pc + signExt16 t)
    addClocks 8 s
  else
    let s := pcInc s
    addClocks 8 s

/-- `gb_rlc_r8` (cpu.c line 554). -/
def gb_rlc_r8 (r : Reg8) (s : GBState) : GBState :=
  let s := fAnd s (F_SUBTRACT ||| F_HALFCARRY)
  let s := fUpd s (fun f => setC f ((s.get8 r &&& 0x80) ≠ 0))
  let s := s.set8 r ((s.get8 r <<< 1) ||| fC s.cpu.f)
  let s := fUpd s (fun f => setZ f (s.get8 r = 0))
  addClocks 4 s

/-- `gb_rrc_r8` (cpu.c line 564). -/
def gb_rrc_r8 (r : Reg8) (s : GBState) : GBState :=
  let s := fAnd s (F_SUBTRACT ||| F_HALFCARRY)
  let s := fUpd s (fun f => setC f ((s.get8 r &&& 0x01) ≠ 0))
  let s := s.set8 r ((s.get8 r >>> 1) ||| (fC s.cpu.f <<< 7))
  let s := fUpd s (fun f => setZ f (s.get8 r = 0))
  addClocks 4 s

/-- `gb_rl_r8` (cpu.c line 574). -/
def gb_rl_r8 (r : Reg8) (s : GBState) : GBState :=
  let s := fAnd s (F_SUBTRACT ||| F_HALFCARRY)
  let t := fC s.cpu.f
  let s := fUpd s (fun f => setC f ((s.get8 r &&& 0x80) ≠ 0))
  let s := s.set8 r ((s.get8 r <<< 1) ||| t)
  let s := fUpd s (fun f => setZ f (s.get8 r = 0))
  addClocks 4 s

/-- `gb_rr_r8` (cpu.c line 585). -/
def gb_rr_r8 (r : Reg8) (s : GBState) : GBState :=
  let s := fAnd s (F_SUBTRACT ||| F_HALFCARRY)
  let t := fC s.cpu.f
  let s := fUpd s (fun f => setC f ((s.get8 r &&& 0x01) ≠ 0))
  let s := s.set8 r ((s.get8 r >>> 1) ||| (t <<< 7))
  let s := fUpd s (fun f => setZ f (s.get8 r = 0))
  addClocks 4 s

/-- `gb_sla_r8` (cpu.c line 596). -/
def gb_sla_r8 (r : Reg8) (s : GBState) : GBState :=
  let s := fAnd s (F_SUBTRACT ||| F_HALFCARRY)
  let s := fUpd s (fun f => setC f ((s.get8 r &&& 0x80) ≠ 0))
  let s := s.set8 r (s.get8 r <<< 1)
  let s := fUpd s (fun f => setZ f (s.get8 r = 0))
  addClocks 4 s

/-- `gb_sra_r8` (cpu.c line 606). -/
def gb_sra_r8 (r : Reg8) (s : GBState) : GBState :=
  let s := fAnd s (F_SUBTRACT ||| F_HALFCARRY)
  let s := fUpd s (fun f => setC f ((s.get8 r &&& 0x01) ≠ 0))
  let s := s.set8 r ((s.get8 r &&& 0x80) ||| (s.get8 r >>> 1))
  let s := fUpd s (fun f => setZ f (s.get8 r = 0))
  addClocks 4 s

/-- `gb_swap_r8` (cpu.c line 616). -/
def gb_swap_r8 (r : Reg8) (s : GBState) : GBState :=
  let s := fAnd s (F_SUBTRACT ||| F_HALFCARRY ||| F_CARRY)
  let s := s.set8 r ((s.get8 r >>> 4) ||| (s.get8 r <<< 4))
  let s := fUpd s (fun f => setZ f (s.get8 r = 0))
  addClocks 4 s

/-- `gb_srl_r8` (cpu.c line 625). -/
def gb_srl_r8 (r : Reg8) (s : GBState) : GBState :=
  let s := fAnd s (F_SUBTRACT ||| F_HALFCARRY)
  let s := fUpd s (fun f => setC f ((s.get8 r &&& 0x01) ≠ 0))
  let s := s.set8 r (s.get8 r >>> 1)
  let s := fUpd s (fun f => setZ f (s.get8 r = 0))
  addClocks 4 s

/-- `gb_bit_n_r8` (cpu.c line 635). -/
def gb_bit_n_r8 (n : Nat) (r : Reg8) (s : GBState) : GBState :=
  let s := fAnd s F_SUBTRACT
  let s := fOr s F_HALFCARRY
  let s := fUpd s (fun f => setZ f ((s.get8 r &&& (1 <<< n)) = 0))
  addClocks 4 s

/-- `gb_bit_n_ptr_hl` (cpu.c line 644). -/
def gb_bit_n_ptr_hl (n : Nat) (s : GBState) : GBState :=
  let s := addClocks 4 s
  let s := fAnd s F_SUBTRACT
  let s := fOr s F_HALFCARRY
  let s := fUpd s (fun f => setZ f ((memRead s (s.get16 .HL) &&& (1 <<< n)) = 0))
  addClocks 4 s

/-- `gb_res_n_r8` (cpu.c line 654). -/
def gb_res_n_r8 (n : Nat) (r : Reg8) (s : GBState) : GBState :=
  let s := s.set8 r (s.get8 r &&& (0xFF - (1 <<< n) % 256))
  addClocks 4 s

/-- `gb_res_n_ptr_hl` (cpu.c line 661). -/
def gb_res_n_ptr_hl (n : Nat) (s : GBState) : GBState :=
  let s := addClocks 4 s
  let t := memRead s (s.get16 .HL)
  let s := addClocks 4 s
  let s := memWrite s (s.get16 .HL) (t &&& (0xFF - (1 <<< n) % 256))
  addClocks 4 s

/-- `gb_set_n_r8` (cpu.c line 671). -/
def gb_set_n_r8 (n : Nat) (r : Reg8) (s : GBState) : GBState :=
  let s := s.set8 r (s.get8 r ||| (1 <<< n))
  addClocks 4 s

/-- `gb_set_n_ptr_hl` (cpu.c line 678). -/
def gb_set_n_ptr_hl (n : Nat) (s : GBState) : GBState :=
  let s := addClocks 4 s
  let t := memRead s (s.get16 .HL)
  let s := addClocks 4 s
  let s := memWrite s (s.get16 .HL) (t ||| (1 <<< n))
  addClocks 4 s

/-- `gb_undefined_opcode` (cpu.c line 688): one sub-step, PC held on the
opcode, break to the debugger. -/
def gb_undefined_opcode (s : GBState) : GBState :=
  let s := addClocks 4 s
  let s := setPC s (s.cpu.pc + 0xFFFF)
  { s with breakExec := true }

/-! ### The DAA lookup table -/

/-- Modelled from the spec: the contents of `gb_daa_table` (`daa_table.c` is
not among the provided sources; cpu.c line 57 declares the array as
`extern const u8 gb_daa_table[256 * 8 * 2]`).  The DAA opcode indexes it with
`(A << 4) | (flags << 1) | k` where `flags` packs C (bit 0), H (bit 1) and
N (bit 2) of F, and `k` selects the adjusted accumulator (0) or the
post-adjust flag byte (1).  Spec section 4.1: on addition it adds 0x06/0x60
when a nibble exceeds 9 or H/C was set; on subtraction it subtracts the same;
the flag byte has Z from the result, N preserved, H cleared, C possibly set. -/
def gb_daa_table (idx : Nat) : Nat :=
  let a := idx / 16 % 256
  let cIn := idx / 2 % 2
  let hIn := idx / 4 % 2
  let nIn := idx / 8 % 2
  let highAdjust : Bool := if nIn = 0 then 0x99 < a ∨ cIn = 1 else cIn = 1
  let lowAdjust : Bool := if nIn = 0 then 9 < a % 16 ∨ hIn = 1 else hIn = 1
  let adjust := (if lowAdjust then 0x06 else 0) + (if highAdjust then 0x60 else 0)
  let res := if nIn = 0 then (a + adjust) % 256 else (a + 256 - adjust) % 256
  let cOut := if nIn = 0 then (if highAdjust then 1 else 0) else cIn
  if idx % 2 = 1 then
    (if res = 0 then F_ZERO else 0) ||| nIn * F_SUBTRACT ||| cOut * F_CARRY
  else res

/-- The declared element count of `gb_daa_table` (cpu.c line 57):
`u8 gb_daa_table[256 * 8 * 2]`, i.e. this many bytes. -/
def gb_daa_table_size : Nat := 256 * 8 * 2

/-! ### The opcode tables

The C switches over the opcode byte (cpu.c lines 741-2845 and the nested
CB switch at lines 1660-2532) are transcribed row by row of the opcode
matrix: one function per high nibble, dispatching on the low nibble, with
every case body translated from the corresponding `case` arm. -/

/-- Row 0x0_ of the CB-prefix opcode table (opcodes 0xCB 0x00-0x0F). -/
def gbExecCBrow0 (lo : Nat) (s : GBState) : GBState :=
  match lo with
  | 0x0 => gb_rlc_r8 .RB s
  | 0x1 => gb_rlc_r8 .RC s
  | 0x2 => gb_rlc_r8 .RD s
  | 0x3 => gb_rlc_r8 .RE s
  | 0x4 => gb_rlc_r8 .RH s
  | 0x5 => gb_rlc_r8 .RL s
  | 0x6 =>
    -- RLC [HL]
    let s := addClocks 4 s
    let t := memRead s (s.get16 .HL)
    let s := addClocks 4 s
    let s := fAnd s (F_SUBTRACT ||| F_HALFCARRY)
    let s := fUpd s (fun f => setC f ((t &&& 0x80) ≠ 0))
    let t := (t <<< 1) ||| fC s.cpu.f
    let s := fUpd s (fun f => setZ f (t = 0))
    let s := memWrite s (s.get16 .HL) t
    addClocks 4 s
  | 0x7 => gb_rlc_r8 .RA s
  | 0x8 => gb_rrc_r8 .RB s
  | 0x9 => gb_rrc_r8 .RC s
  | 0xA => gb_rrc_r8 .RD s
  | 0xB => gb_rrc_r8 .RE s
  | 0xC => gb_rrc_r8 .RH s
  | 0xD => gb_rrc_r8 .RL s
  | 0xE =>
    -- RRC [HL]
    let s := addClocks 4 s
    let t := memRead s (s.get16 .HL)
    let s := addClocks 4 s
    let s := fAnd s (F_SUBTRACT ||| F_HALFCARRY)
    let s := fUpd s (fun f => setC f ((t &&& 0x01) ≠ 0))
    let t := (t >>> 1) ||| (fC s.cpu.f <<< 7)
    let s := fUpd s (fun f => setZ f (t = 0))
    let s := memWrite s (s.get16 .HL) t
    addClocks 4 s
  | 0xF => gb_rrc_r8 .RA s
  | _ =>
    -- default: unreachable, `lo` is a nibble
    let s := addClocks 4 s
    { s with breakExec := true }

/-- Row 0x1_ of the CB-prefix opcode table (opcodes 0xCB 0x10-0x1F). -/
def gbExecCBrow1 (lo : Nat) (s : GBState) : GBState :=
  match lo with
  | 0x0 => gb_rl_r8 .RB s
  | 0x1 => gb_rl_r8 .RC s
  | 0x2 => gb_rl_r8 .RD s
  | 0x3 => gb_rl_r8 .RE s
  | 0x4 => gb_rl_r8 .RH s
  | 0x5 => gb_rl_r8 .RL s
  | 0x6 =>
    -- RL [HL]
    let s := addClocks 4 s
    let t2 := memRead s (s.get16 .HL)
    let s := addClocks 4 s
    let s := fAnd s (F_SUBTRACT ||| F_HALFCARRY)
    let t := fC s.cpu.f
    let s := fUpd s (fun f => setC f ((t2 &&& 0x80) ≠ 0))
    let t2 := ((t2 <<< 1) ||| t) &&& 0xFF
    let s := fUpd s (fun f => setZ f (t2 = 0))
    let s := memWrite s (s.get16 .HL) t2
    addClocks 4 s
  | 0x7 => gb_rl_r8 .RA s
  | 0x8 => gb_rr_r8 .RB s
  | 0x9 => gb_rr_r8 .RC s
  | 0xA => gb_rr_r8 .RD s
  | 0xB => gb_rr_r8 .RE s
  | 0xC => gb_rr_r8 .RH s
  | 0xD => gb_rr_r8 .RL s
  | 0xE =>
    -- RR [HL]
    let s := addClocks 4 s
    let t2 := memRead s (s.get16 .HL)
    let s := addClocks 4 s
    let s := fAnd s (F_SUBTRACT ||| F_HALFCARRY)
    let t := fC s.cpu.f
    let s := fUpd s (fun f => setC f ((t2 &&& 0x01) ≠ 0))
    let t2 := (t2 >>> 1) ||| (t <<< 7)
    let s := fUpd s (fun f => setZ f (t2 = 0))
    let s := memWrite s (s.get16 .HL) t2
    addClocks 4 s
  | 0xF => gb_rr_r8 .RA s
  | _ =>
    -- default: unreachable, `lo` is a nibble
    let s := addClocks 4 s
    { s with breakExec := true }

/-- Row 0x2_ of the CB-prefix opcode table (opcodes 0xCB 0x20-0x2F). -/
def gbExecCBrow2 (lo : Nat) (s : GBState) : GBState :=
  match lo with
  | 0x0 => gb_sla_r8 .RB s
  | 0x1 => gb_sla_r8 .RC s
  | 0x2 => gb_sla_r8 .RD s
  | 0x3 => gb_sla_r8 .RE s
  | 0x4 => gb_sla_r8 .RH s
  | 0x5 => gb_sla_r8 .RL s
  | 0x6 =>
    -- SLA [HL]
    let s := addClocks 4 s
    let t := memRead s (s.get16 .HL)
    let s := addClocks 4 s
    let s := fAnd s (F_SUBTRACT ||| F_HALFCARRY)
    let s := fUpd s (fun f => setC f ((t &&& 0x80) ≠ 0))
    let t := (t <<< 1) &&& 0xFF
    let s := fUpd s (fun f => setZ f (t = 0))
    let s := memWrite s (s.get16 .HL) t
    addClocks 4 s
  | 0x7 => gb_sla_r8 .RA s
  | 0x8 => gb_sra_r8 .RB s
  | 0x9 => gb_sra_r8 .RC s
  | 0xA => gb_sra_r8 .RD s
  | 0xB => gb_sra_r8 .RE s
  | 0xC => gb_sra_r8 .RH s
  | 0xD => gb_sra_r8 .RL s
  | 0xE =>
    -- SRA [HL]
    let s := addClocks 4 s
    let t := memRead s (s.get16 .HL)
    let s := addClocks 4 s
    let s := fAnd s (F_SUBTRACT ||| F_HALFCARRY)
    let s := fUpd s (fun f => setC f ((t &&& 0x01) ≠ 0))
    let t := (t &&& 0x80) ||| (t >>> 1)
    let s := fUpd s (fun f => setZ f (t = 0))
    let s := memWrite s (s.get16 .HL) t
    addClocks 4 s
  | 0xF => gb_sra_r8 .RA s
  | _ =>
    -- default: unreachable, `lo` is a nibble
    let s := addClocks 4 s
    { s with breakExec := true }

/-- Row 0x3_ of the CB-prefix opcode table (opcodes 0xCB 0x30-0x3F). -/
def gbExecCBrow3 (lo : Nat) (s : GBState) : GBState :=
  match lo with
  | 0x0 => gb_swap_r8 .RB s
  | 0x1 => gb_swap_r8 .RC s
  | 0x2 => gb_swap_r8 .RD s
  | 0x3 => gb_swap_r8 .RE s
  | 0x4 => gb_swap_r8 .RH s
  | 0x5 => gb_swap_r8 .RL s
  | 0x6 =>
    -- SWAP [HL]
    let s := addClocks 4 s
    let t := memRead s (s.get16 .HL)
    let s := addClocks 4 s
    let s := fAnd s (F_SUBTRACT ||| F_HALFCARRY ||| F_CARRY)
    let t := ((t >>> 4) ||| (t <<< 4)) &&& 0xFF
    let s := memWrite s (s.get16 .HL) t
    let s := fUpd s (fun f => setZ f (t = 0))
    addClocks 4 s
  | 0x7 => gb_swap_r8 .RA s
  | 0x8 => gb_srl_r8 .RB s
  | 0x9 => gb_srl_r8 .RC s
  | 0xA => gb_srl_r8 .RD s
  | 0xB => gb_srl_r8 .RE s
  | 0xC => gb_srl_r8 .RH s
  | 0xD => gb_srl_r8 .RL s
  | 0xE =>
    -- SRL [HL]
    let s := addClocks 4 s
    let t := memRead s (s.get16 .HL)
    let s := addClocks 4 s
    let s := fAnd s (F_SUBTRACT ||| F_HALFCARRY)
    let s := fUpd s (fun f => setC f ((t &&& 0x01) ≠ 0))
    let t := t >>> 1
    let s := fUpd s (fun f => setZ f (t = 0))
    let s := memWrite s (s.get16 .HL) t
    addClocks 4 s
  | 0xF => gb_srl_r8 .RA s
  | _ =>
    -- default: unreachable, `lo` is a nibble
    let s := addClocks 4 s
    { s with breakExec := true }

/-- Row 0x4_ of the CB-prefix opcode table (opcodes 0xCB 0x40-0x4F). -/
def gbExecCBrow4 (lo : Nat) (s : GBState) : GBState :=
  match lo with
  | 0x0 => gb_bit_n_r8 0 .RB s
  | 0x1 => gb_bit_n_r8 0 .RC s
  | 0x2 => gb_bit_n_r8 0 .RD s
  | 0x3 => gb_bit_n_r8 0 .RE s
  | 0x4 => gb_bit_n_r8 0 .RH s
  | 0x5 => gb_bit_n_r8 0 .RL s
  | 0x6 => gb_bit_n_ptr_hl 0 s
  | 0x7 => gb_bit_n_r8 0 .RA s
  | 0x8 => gb_bit_n_r8 1 .RB s
  | 0x9 => gb_bit_n_r8 1 .RC s
  | 0xA => gb_bit_n_r8 1 .RD s
  | 0xB => gb_bit_n_r8 1 .RE s
  | 0xC => gb_bit_n_r8 1 .RH s
  | 0xD => gb_bit_n_r8 1 .RL s
  | 0xE => gb_bit_n_ptr_hl 1 s
  | 0xF => gb_bit_n_r8 1 .RA s
  | _ =>
    -- default: unreachable, `lo` is a nibble
    let s := addClocks 4 s
    { s with breakExec := true }

/-- Row 0x5_ of the CB-prefix opcode table (opcodes 0xCB 0x50-0x5F). -/
def gbExecCBrow5 (lo : Nat) (s : GBState) : GBState :=
  match lo with
  | 0x0 => gb_bit_n_r8 2 .RB s
  | 0x1 => gb_bit_n_r8 2 .RC s
  | 0x2 => gb_bit_n_r8 2 .RD s
  | 0x3 => gb_bit_n_r8 2 .RE s
  | 0x4 => gb_bit_n_r8 2 .RH s
  | 0x5 => gb_bit_n_r8 2 .RL s
  | 0x6 => gb_bit_n_ptr_hl 2 s
  | 0x7 => gb_bit_n_r8 2 .RA s
  | 0x8 => gb_bit_n_r8 3 .RB s
  | 0x9 => gb_bit_n_r8 3 .RC s
  | 0xA => gb_bit_n_r8 3 .RD s
  | 0xB => gb_bit_n_r8 3 .RE s
  | 0xC => gb_bit_n_r8 3 .RH s
  | 0xD => gb_bit_n_r8 3 .RL s
  | 0xE => gb_bit_n_ptr_hl 3 s
  | 0xF => gb_bit_n_r8 3 .RA s
  | _ =>
    -- default: unreachable, `lo` is a nibble
    let s := addClocks 4 s
    { s with breakExec := true }

/-- Row 0x6_ of the CB-prefix opcode table (opcodes 0xCB 0x60-0x6F). -/
def gbExecCBrow6 (lo : Nat) (s : GBState) : GBState :=
  match lo with
  | 0x0 => gb_bit_n_r8 4 .RB s
  | 0x1 => gb_bit_n_r8 4 .RC s
  | 0x2 => gb_bit_n_r8 4 .RD s
  | 0x3 => gb_bit_n_r8 4 .RE s
  | 0x4 => gb_bit_n_r8 4 .RH s
  | 0x5 => gb_bit_n_r8 4 .RL s
  | 0x6 => gb_bit_n_ptr_hl 4 s
  | 0x7 => gb_bit_n_r8 4 .RA s
  | 0x8 => gb_bit_n_r8 5 .RB s
  | 0x9 => gb_bit_n_r8 5 .RC s
  | 0xA => gb_bit_n_r8 5 .RD s
  | 0xB => gb_bit_n_r8 5 .RE s
  | 0xC => gb_bit_n_r8 5 .RH s
  | 0xD => gb_bit_n_r8 5 .RL s
  | 0xE => gb_bit_n_ptr_hl 5 s
  | 0xF => gb_bit_n_r8 5 .RA s
  | _ =>
    -- default: unreachable, `lo` is a nibble
    let s := addClocks 4 s
    { s with breakExec := true }

/-- Row 0x7_ of the CB-prefix opcode table (opcodes 0xCB 0x70-0x7F). -/
def gbExecCBrow7 (lo : Nat) (s : GBState) : GBState :=
  match lo with
  | 0x0 => gb_bit_n_r8 6 .RB s
  | 0x1 => gb_bit_n_r8 6 .RC s
  | 0x2 => gb_bit_n_r8 6 .RD s
  | 0x3 => gb_bit_n_r8 6 .RE s
  | 0x4 => gb_bit_n_r8 6 .RH s
  | 0x5 => gb_bit_n_r8 6 .RL s
  | 0x6 => gb_bit_n_ptr_hl 6 s
  | 0x7 => gb_bit_n_r8 6 .RA s
  | 0x8 => gb_bit_n_r8 7 .RB s
  | 0x9 => gb_bit_n_r8 7 .RC s
  | 0xA => gb_bit_n_r8 7 .RD s
  | 0xB => gb_bit_n_r8 7 .RE s
  | 0xC => gb_bit_n_r8 7 .RH s
  | 0xD => gb_bit_n_r8 7 .RL s
  | 0xE => gb_bit_n_ptr_hl 7 s
  | 0xF => gb_bit_n_r8 7 .RA s
  | _ =>
    -- default: unreachable, `lo` is a nibble
    let s := addClocks 4 s
    { s with breakExec := true }

/-- Row 0x8_ of the CB-prefix opcode table (opcodes 0xCB 0x80-0x8F). -/
def gbExecCBrow8 (lo : Nat) (s : GBState) : GBState :=
  match lo with
  | 0x0 => gb_res_n_r8 0 .RB s
  | 0x1 => gb_res_n_r8 0 .RC s
  | 0x2 => gb_res_n_r8 0 .RD s
  | 0x3 => gb_res_n_r8 0 .RE s
  | 0x4 => gb_res_n_r8 0 .RH s
  | 0x5 => gb_res_n_r8 0 .RL s
  | 0x6 => gb_res_n_ptr_hl 0 s
  | 0x7 => gb_res_n_r8 0 .RA s
  | 0x8 => gb_res_n_r8 1 .RB s
  | 0x9 => gb_res_n_r8 1 .RC s
  | 0xA => gb_res_n_r8 1 .RD s
  | 0xB => gb_res_n_r8 1 .RE s
  | 0xC => gb_res_n_r8 1 .RH s
  | 0xD => gb_res_n_r8 1 .RL s
  | 0xE => gb_res_n_ptr_hl 1 s
  | 0xF => gb_res_n_r8 1 .RA s
  | _ =>
    -- default: unreachable, `lo` is a nibble
    let s := addClocks 4 s
    { s with breakExec := true }

/-- Row 0x9_ of the CB-prefix opcode table (opcodes 0xCB 0x90-0x9F). -/
def gbExecCBrow9 (lo : Nat) (s : GBState) : GBState :=
  match lo with
  | 0x0 => gb_res_n_r8 2 .RB s
  | 0x1 => gb_res_n_r8 2 .RC s
  | 0x2 => gb_res_n_r8 2 .RD s
  | 0x3 => gb_res_n_r8 2 .RE s
  | 0x4 => gb_res_n_r8 2 .RH s
  | 0x5 => gb_res_n_r8 2 .RL s
  | 0x6 => gb_res_n_ptr_hl 2 s
  | 0x7 => gb_res_n_r8 2 .RA s
  | 0x8 => gb_res_n_r8 3 .RB s
  | 0x9 => gb_res_n_r8 3 .RC s
  | 0xA => gb_res_n_r8 3 .RD s
  | 0xB => gb_res_n_r8 3 .RE s
  | 0xC => gb_res_n_r8 3 .RH s
  | 0xD => gb_res_n_r8 3 .RL s
  | 0xE => gb_res_n_ptr_hl 3 s
  | 0xF => gb_res_n_r8 3 .RA s
  | _ =>
    -- default: unreachable, `lo` is a nibble
    let s := addClocks 4 s
    { s with breakExec := true }

/-- Row 0xA_ of the CB-prefix opcode table (opcodes 0xCB 0xA0-0xAF). -/
def gbExecCBrow10 (lo : Nat) (s : GBState) : GBState :=
  match lo with
  | 0x0 => gb_res_n_r8 4 .RB s
  | 0x1 => gb_res_n_r8 4 .RC s
  | 0x2 => gb_res_n_r8 4 .RD s
  | 0x3 => gb_res_n_r8 4 .RE s
  | 0x4 => gb_res_n_r8 4 .RH s
  | 0x5 => gb_res_n_r8 4 .RL s
  | 0x6 => gb_res_n_ptr_hl 4 s
  | 0x7 => gb_res_n_r8 4 .RA s
  | 0x8 => gb_res_n_r8 5 .RB s
  | 0x9 => gb_res_n_r8 5 .RC s
  | 0xA => gb_res_n_r8 5 .RD s
  | 0xB => gb_res_n_r8 5 .RE s
  | 0xC => gb_res_n_r8 5 .RH s
  | 0xD => gb_res_n_r8 5 .RL s
  | 0xE => gb_res_n_ptr_hl 5 s
  | 0xF => gb_res_n_r8 5 .RA s
  | _ =>
    -- default: unreachable, `lo` is a nibble
    let s := addClocks 4 s
    { s with breakExec := true }

/-- Row 0xB_ of the CB-prefix opcode table (opcodes 0xCB 0xB0-0xBF). -/
def gbExecCBrow11 (lo : Nat) (s : GBState) : GBState :=
  match lo with
  | 0x0 => gb_res_n_r8 6 .RB s
  | 0x1 => gb_res_n_r8 6 .RC s
  | 0x2 => gb_res_n_r8 6 .RD s
  | 0x3 => gb_res_n_r8 6 .RE s
  | 0x4 => gb_res_n_r8 6 .RH s
  | 0x5 => gb_res_n_r8 6 .RL s
  | 0x6 => gb_res_n_ptr_hl 6 s
  | 0x7 => gb_res_n_r8 6 .RA s
  | 0x8 => gb_res_n_r8 7 .RB s
  | 0x9 => gb_res_n_r8 7 .RC s
  | 0xA => gb_res_n_r8 7 .RD s
  | 0xB => gb_res_n_r8 7 .RE s
  | 0xC => gb_res_n_r8 7 .RH s
  | 0xD => gb_res_n_r8 7 .RL s
  | 0xE => gb_res_n_ptr_hl 7 s
  | 0xF => gb_res_n_r8 7 .RA s
  | _ =>
    -- default: unreachable, `lo` is a nibble
    let s := addClocks 4 s
    { s with breakExec := true }

/-- Row 0xC_ of the CB-prefix opcode table (opcodes 0xCB 0xC0-0xCF). -/
def gbExecCBrow12 (lo : Nat) (s : GBState) : GBState :=
  match lo with
  | 0x0 => gb_set_n_r8 0 .RB s
  | 0x1 => gb_set_n_r8 0 .RC s
  | 0x2 => gb_set_n_r8 0 .RD s
  | 0x3 => gb_set_n_r8 0 .RE s
  | 0x4 => gb_set_n_r8 0 .RH s
  | 0x5 => gb_set_n_r8 0 .RL s
  | 0x6 => gb_set_n_ptr_hl 0 s
  | 0x7 => gb_set_n_r8 0 .RA s
  | 0x8 => gb_set_n_r8 1 .RB s
  | 0x9 => gb_set_n_r8 1 .RC s
  | 0xA => gb_set_n_r8 1 .RD s
  | 0xB => gb_set_n_r8 1 .RE s
  | 0xC => gb_set_n_r8 1 .RH s
  | 0xD => gb_set_n_r8 1 .RL s
  | 0xE => gb_set_n_ptr_hl 1 s
  | 0xF => gb_set_n_r8 1 .RA s
  | _ =>
    -- default: unreachable, `lo` is a nibble
    let s := addClocks 4 s
    { s with breakExec := true }

/-- Row 0xD_ of the CB-prefix opcode table (opcodes 0xCB 0xD0-0xDF). -/
def gbExecCBrow13 (lo : Nat) (s : GBState) : GBState :=
  match lo with
  | 0x0 => gb_set_n_r8 2 .RB s
  | 0x1 => gb_set_n_r8 2 .RC s
  | 0x2 => gb_set_n_r8 2 .RD s
  | 0x3 => gb_set_n_r8 2 .RE s
  | 0x4 => gb_set_n_r8 2 .RH s
  | 0x5 => gb_set_n_r8 2 .RL s
  | 0x6 => gb_set_n_ptr_hl 2 s
  | 0x7 => gb_set_n_r8 2 .RA s
  | 0x8 => gb_set_n_r8 3 .RB s
  | 0x9 => gb_set_n_r8 3 .RC s
  | 0xA => gb_set_n_r8 3 .RD s
  | 0xB => gb_set_n_r8 3 .RE s
  | 0xC => gb_set_n_r8 3 .RH s
  | 0xD => gb_set_n_r8 3 .RL s
  | 0xE => gb_set_n_ptr_hl 3 s
  | 0xF => gb_set_n_r8 3 .RA s
  | _ =>
    -- default: unreachable, `lo` is a nibble
    let s := addClocks 4 s
    { s with breakExec := true }

/-- Row 0xE_ of the CB-prefix opcode table (opcodes 0xCB 0xE0-0xEF). -/
def gbExecCBrow14 (lo : Nat) (s : GBState) : GBState :=
  match lo with
  | 0x0 => gb_set_n_r8 4 .RB s
  | 0x1 => gb_set_n_r8 4 .RC s
  | 0x2 => gb_set_n_r8 4 .RD s
  | 0x3 => gb_set_n_r8 4 .RE s
  | 0x4 => gb_set_n_r8 4 .RH s
  | 0x5 => gb_set_n_r8 4 .RL s
  | 0x6 => gb_set_n_ptr_hl 4 s
  | 0x7 => gb_set_n_r8 4 .RA s
  | 0x8 => gb_set_n_r8 5 .RB s
  | 0x9 => gb_set_n_r8 5 .RC s
  | 0xA => gb_set_n_r8 5 .RD s
  | 0xB => gb_set_n_r8 5 .RE s
  | 0xC => gb_set_n_r8 5 .RH s
  | 0xD => gb_set_n_r8 5 .RL s
  | 0xE => gb_set_n_ptr_hl 5 s
  | 0xF => gb_set_n_r8 5 .RA s
  | _ =>
    -- default: unreachable, `lo` is a nibble
    let s := addClocks 4 s
    { s with breakExec := true }

/-- Row 0xF_ of the CB-prefix opcode table (opcodes 0xCB 0xF0-0xFF). -/
def gbExecCBrow15 (lo : Nat) (s : GBState) : GBState :=
  match lo with
  | 0x0 => gb_set_n_r8 6 .RB s
  | 0x1 => gb_set_n_r8 6 .RC s
  | 0x2 => gb_set_n_r8 6 .RD s
  | 0x3 => gb_set_n_r8 6 .RE s
  | 0x4 => gb_set_n_r8 6 .RH s
  | 0x5 => gb_set_n_r8 6 .RL s
  | 0x6 => gb_set_n_ptr_hl 6 s
  | 0x7 => gb_set_n_r8 6 .RA s
  | 0x8 => gb_set_n_r8 7 .RB s
  | 0x9 => gb_set_n_r8 7 .RC s
  | 0xA => gb_set_n_r8 7 .RD s
  | 0xB => gb_set_n_r8 7 .RE s
  | 0xC => gb_set_n_r8 7 .RH s
  | 0xD => gb_set_n_r8 7 .RL s
  | 0xE => gb_set_n_ptr_hl 7 s
  | 0xF => gb_set_n_r8 7 .RA s
  | _ =>
    -- default: unreachable, `lo` is a nibble
    let s := addClocks 4 s
    { s with breakExec := true }

/-- The CB-prefix opcode dispatch (cpu.c lines 1660-2532); `op` is the byte
fetched after the 0xCB prefix, split into its two nibbles. -/
def gbExecCB (op : Nat) (s : GBState) : GBState :=
  match op >>> 4 with
  | 0x0 => gbExecCBrow0 (op &&& 0xF) s
  | 0x1 => gbExecCBrow1 (op &&& 0xF) s
  | 0x2 => gbExecCBrow2 (op &&& 0xF) s
  | 0x3 => gbExecCBrow3 (op &&& 0xF) s
  | 0x4 => gbExecCBrow4 (op &&& 0xF) s
  | 0x5 => gbExecCBrow5 (op &&& 0xF) s
  | 0x6 => gbExecCBrow6 (op &&& 0xF) s
  | 0x7 => gbExecCBrow7 (op &&& 0xF) s
  | 0x8 => gbExecCBrow8 (op &&& 0xF) s
  | 0x9 => gbExecCBrow9 (op &&& 0xF) s
  | 0xA => gbExecCBrow10 (op &&& 0xF) s
  | 0xB => gbExecCBrow11 (op &&& 0xF) s
  | 0xC => gbExecCBrow12 (op &&& 0xF) s
  | 0xD => gbExecCBrow13 (op &&& 0xF) s
  | 0xE => gbExecCBrow14 (op &&& 0xF) s
  | 0xF => gbExecCBrow15 (op &&& 0xF) s
  | _ =>
    -- default: unreachable, `op` is a byte
    let s := addClocks 4 s
    { s with breakExec := true }

/-- Row 0x0_ of the main opcode table (opcodes 0x00-0x0F). -/
def gbExecRow0 (lo : Nat) (s : GBState) : GBState :=
  match lo with
  | 0x0 => addClocks 4 s
  | 0x1 => gb_ld_r16_nnnn .RB .RC s
  | 0x2 => gb_ld_ptr_r16_r8 .BC .RA s
  | 0x3 => gb_inc_r16 .BC s
  | 0x4 => gb_inc_r8 .RB s
  | 0x5 => gb_dec_r8 .RB s
  | 0x6 => gb_ld_r8_nn .RB s
  | 0x7 =>
    -- RLCA
    let s := fAnd s (F_SUBTRACT ||| F_HALFCARRY ||| F_ZERO)
    let s := fUpd s (fun f => setC f ((s.cpu.a &&& 0x80) ≠ 0))
    let s := s.set8 .RA ((s.cpu.a <<< 1) ||| fC s.cpu.f)
    addClocks 4 s
  | 0x8 =>
    -- LD [nnnn],SP
    let s := addClocks 4 s
    let t := memRead s s.cpu.pc
    let s := pcInc s
    let s := addClocks 4 s
    let t := t ||| (memRead s s.cpu.pc <<< 8)
    let s := pcInc s
    let s := addClocks 4 s
    let s := memWrite s t (s.cpu.sp % 256)
    let s := addClocks 4 s
    let s := memWrite s (t + 1) (s.cpu.sp / 256)
    addClocks 4 s
  | 0x9 => gb_add_hl_r16 .BC s
  | 0xA => gb_ld_r8_ptr_r16 .RA .BC s
  | 0xB => gb_dec_r16 .BC s
  | 0xC => gb_inc_r8 .RC s
  | 0xD => gb_dec_r8 .RC s
  | 0xE => gb_ld_r8_nn .RC s
  | 0xF =>
    -- RRCA
    let s := fAnd s (F_SUBTRACT ||| F_HALFCARRY ||| F_ZERO)
    let s := fUpd s (fun f => setC f ((s.cpu.a &&& 0x01) ≠ 0))
    let s := s.set8 .RA ((s.cpu.a >>> 1) ||| (fC s.cpu.f <<< 7))
    addClocks 4 s
  | _ =>
    -- default: unreachable, `lo` is a nibble
    let s := addClocks 4 s
    { s with breakExec := true }

/-- Row 0x1_ of the main opcode table (opcodes 0x10-0x1F). -/
def gbExecRow1 (lo : Nat) (s : GBState) : GBState :=
  match lo with
  | 0x0 =>
    -- STOP (the byte after it is read; it only feeds a diagnostic print)
    let s := addClocks 4 s
    let s := pcInc s
    let s := addClocks 4 s
    let s :=
      if s.cgbEnabled = false then { s with cpuHalt := 2 }
      else if s.key1 &&& 1 ≠ 0 then
        let s := { s with speedClocks := 128 * 1024 - 84 }
        let s := { s with doubleSpeed := s.doubleSpeed ^^^ 1 }
        { s with key1 := s.doubleSpeed <<< 7 }
      else { s with cpuHalt := 2 }
    { s with breakLoop := true }
  | 0x1 => gb_ld_r16_nnnn .RD .RE s
  | 0x2 => gb_ld_ptr_r16_r8 .DE .RA s
  | 0x3 => gb_inc_r16 .DE s
  | 0x4 => gb_inc_r8 .RD s
  | 0x5 => gb_dec_r8 .RD s
  | 0x6 => gb_ld_r8_nn .RD s
  | 0x7 =>
    -- RLA
    let s := fAnd s (F_SUBTRACT ||| F_HALFCARRY ||| F_ZERO)
    let t := fC s.cpu.f
    let s := fUpd s (fun f => setC f ((s.cpu.a &&& 0x80) ≠ 0))
    let s := s.set8 .RA ((s.cpu.a <<< 1) ||| t)
    addClocks 4 s
  | 0x8 =>
    -- JR nn
    let s := addClocks 4 s
    let t := memRead s s.cpu.pc
    let s := pcInc s
    let s := addClocks 4 s
    let s := setPC s (s.cpu.pc + signExt16 t)
    addClocks 4 s
  | 0x9 => gb_add_hl_r16 .DE s
  | 0xA => gb_ld_r8_ptr_r16 .RA .DE s
  | 0xB => gb_dec_r16 .DE s
  | 0xC => gb_inc_r8 .RE s
  | 0xD => gb_dec_r8 .RE s
  | 0xE => gb_ld_r8_nn .RE s
  | 0xF =>
    -- RRA
    let s := fAnd s (F_SUBTRACT ||| F_HALFCARRY ||| F_ZERO)
    let t := fC s.cpu.f
    let s := fUpd s (fun f => setC f (s.cpu.a &&& 0x01 ≠ 0))
    let s := s.set8 .RA ((s.cpu.a >>> 1) ||| (t <<< 7))
    addClocks 4 s
  | _ =>
    -- default: unreachable, `lo` is a nibble
    let s := addClocks 4 s
    { s with breakExec := true }

/-- Row 0x2_ of the main opcode table (opcodes 0x20-0x2F). -/
def gbExecRow2 (lo : Nat) (s : GBState) : GBState :=
  match lo with
  | 0x0 => gb_jr_cond_nn (fZ s.cpu.f = 0) s
  | 0x1 => gb_ld_r16_nnnn .RH .RL s
  | 0x2 =>
    -- LD [HL+],A
    let s := addClocks 4 s
    let s := memWrite s (s.get16 .HL) s.cpu.a
    let s := s.set16 .HL ((s.get16 .HL + 1) % 0x10000)
    addClocks 4 s
  | 0x3 => gb_inc_r16 .HL s
  | 0x4 => gb_inc_r8 .RH s
  | 0x5 => gb_dec_r8 .RH s
  | 0x6 => gb_ld_r8_nn .RH s
  | 0x7 =>
    -- DAA
    let t := (s.cpu.a <<< 4) ||| (((s.cpu.f >>> 4) &&& 7) <<< 1)
    let s := s.set8 .RA (gb_daa_table t)
    let s := setF s (gb_daa_table (t + 1))
    addClocks 4 s
  | 0x8 => gb_jr_cond_nn (fZ s.cpu.f ≠ 0) s
  | 0x9 =>
    -- ADD HL,HL
    let s := fAnd s F_SUBTRACT
    let s := fUpd s (fun f => setC f ((s.get16 .HL &&& 0x8000) ≠ 0))
    let s := fUpd s (fun f => setH f ((s.get16 .HL &&& 0x0800) ≠ 0))
    let s := s.set16 .HL ((s.get16 .HL <<< 1) &&& 0xFFFF)
    addClocks 8 s
  | 0xA =>
    -- LD A,[HL+]
    let s := addClocks 4 s
    let s := s.set8 .RA (memRead s (s.get16 .HL))
    let s := s.set16 .HL ((s.get16 .HL + 1) % 0x10000)
    addClocks 4 s
  | 0xB => gb_dec_r16 .HL s
  | 0xC => gb_inc_r8 .RL s
  | 0xD => gb_dec_r8 .RL s
  | 0xE => gb_ld_r8_nn .RL s
  | 0xF =>
    -- CPL
    let s := fOr s (F_SUBTRACT ||| F_HALFCARRY)
    let s := s.set8 .RA (s.cpu.a ^^^ 0xFF)
    addClocks 4 s
  | _ =>
    -- default: unreachable, `lo` is a nibble
    let s := addClocks 4 s
    { s with breakExec := true }

/-- Row 0x3_ of the main opcode table (opcodes 0x30-0x3F). -/
def gbExecRow3 (lo : Nat) (s : GBState) : GBState :=
  match lo with
  | 0x0 => gb_jr_cond_nn (fC s.cpu.f = 0) s
  | 0x1 =>
    -- LD SP,nnnn (gb_ld_r16_nnnn applied to the SPH/SPL byte views)
    let s := addClocks 4 s
    let lo := memRead s s.cpu.pc
    let s := pcInc s
    let s := setSP s (s.cpu.sp / 256 * 256 + lo)
    let s := addClocks 4 s
    let hi := memRead s s.cpu.pc
    let s := pcInc s
    let s := setSP s (hi * 256 + s.cpu.sp % 256)
    addClocks 4 s
  | 0x2 =>
    -- LD [HL-],A
    let s := addClocks 4 s
    let s := memWrite s (s.get16 .HL) s.cpu.a
    let s := s.set16 .HL ((s.get16 .HL + 0xFFFF) % 0x10000)
    addClocks 4 s
  | 0x3 => gb_inc_r16 .SP s
  | 0x4 =>
    -- INC [HL]
    let s := addClocks 4 s
    let t := memRead s (s.get16 .HL)
    let s := addClocks 4 s
    let s := fAnd s F_SUBTRACT
    let s := fUpd s (fun f => setH f ((t &&& 0xF) = 0xF))
    let t := (t + 1) &&& 0xFF
    let s := fUpd s (fun f => setZ f (t = 0))
    let s := memWrite s (s.get16 .HL) t
    addClocks 4 s
  | 0x5 =>
    -- DEC [HL]
    let s := addClocks 4 s
    let t := memRead s (s.get16 .HL)
    let s := addClocks 4 s
    let s := fOr s F_SUBTRACT
    let s := fUpd s (fun f => setH f ((t &&& 0xF) = 0x0))
    let t := (t + 255) &&& 0xFF
    let s := fUpd s (fun f => setZ f (t = 0))
    let s := memWrite s (s.get16 .HL) t
    addClocks 4 s
  | 0x6 =>
    -- LD [HL],n
    let s := addClocks 4 s
    let t := memRead s s.cpu.pc
    let s := pcInc s
    let s := addClocks 4 s
    let s := memWrite s (s.get16 .HL) t
    addClocks 4 s
  | 0x7 =>
    -- SCF
    let s := fAnd s (F_SUBTRACT ||| F_HALFCARRY)
    let s := fOr s F_CARRY
    addClocks 4 s
  | 0x8 => gb_jr_cond_nn (fC s.cpu.f ≠ 0) s
  | 0x9 => gb_add_hl_r16 .SP s
  | 0xA =>
    -- LD A,[HL-]
    let s := addClocks 4 s
    let s := s.set8 .RA (memRead s (s.get16 .HL))
    let s := s.set16 .HL ((s.get16 .HL + 0xFFFF) % 0x10000)
    addClocks 4 s
  | 0xB => gb_dec_r16 .SP s
  | 0xC => gb_inc_r8 .RA s
  | 0xD => gb_dec_r8 .RA s
  | 0xE => gb_ld_r8_nn .RA s
  | 0xF =>
    -- CCF
    let s := fAnd s (F_SUBTRACT ||| F_HALFCARRY)
    let s := fUpd s (fun f => setC f (fC f = 0))
    addClocks 4 s
  | _ =>
    -- default: unreachable, `lo` is a nibble
    let s := addClocks 4 s
    { s with breakExec := true }

/-- Row 0x4_ of the main opcode table (opcodes 0x40-0x4F). -/
def gbExecRow4 (lo : Nat) (s : GBState) : GBState :=
  match lo with
  | 0x0 => addClocks 4 s
  | 0x1 =>
    let s := s.set8 .RB (s.get8 .RC)
    addClocks 4 s
  | 0x2 =>
    let s := s.set8 .RB (s.get8 .RD)
    addClocks 4 s
  | 0x3 =>
    let s := s.set8 .RB (s.get8 .RE)
    addClocks 4 s
  | 0x4 =>
    let s := s.set8 .RB (s.get8 .RH)
    addClocks 4 s
  | 0x5 =>
    let s := s.set8 .RB (s.get8 .RL)
    addClocks 4 s
  | 0x6 => gb_ld_r8_ptr_r16 .RB .HL s
  | 0x7 =>
    let s := s.set8 .RB (s.get8 .RA)
    addClocks 4 s
  | 0x8 =>
    let s := s.set8 .RC (s.get8 .RB)
    addClocks 4 s
  | 0x9 => addClocks 4 s
  | 0xA =>
    let s := s.set8 .RC (s.get8 .RD)
    addClocks 4 s
  | 0xB =>
    let s := s.set8 .RC (s.get8 .RE)
    addClocks 4 s
  | 0xC =>
    let s := s.set8 .RC (s.get8 .RH)
    addClocks 4 s
  | 0xD =>
    let s := s.set8 .RC (s.get8 .RL)
    addClocks 4 s
  | 0xE => gb_ld_r8_ptr_r16 .RC .HL s
  | 0xF =>
    let s := s.set8 .RC (s.get8 .RA)
    addClocks 4 s
  | _ =>
    -- default: unreachable, `lo` is a nibble
    let s := addClocks 4 s
    { s with breakExec := true }

/-- Row 0x5_ of the main opcode table (opcodes 0x50-0x5F). -/
def gbExecRow5 (lo : Nat) (s : GBState) : GBState :=
  match lo with
  | 0x0 =>
    let s := s.set8 .RD (s.get8 .RB)
    addClocks 4 s
  | 0x1 =>
    let s := s.set8 .RD (s.get8 .RC)
    addClocks 4 s
  | 0x2 => addClocks 4 s
  | 0x3 =>
    let s := s.set8 .RD (s.get8 .RE)
    addClocks 4 s
  | 0x4 =>
    let s := s.set8 .RD (s.get8 .RH)
    addClocks 4 s
  | 0x5 =>
    let s := s.set8 .RD (s.get8 .RL)
    addClocks 4 s
  | 0x6 => gb_ld_r8_ptr_r16 .RD .HL s
  | 0x7 =>
    let s := s.set8 .RD (s.get8 .RA)
    addClocks 4 s
  | 0x8 =>
    let s := s.set8 .RE (s.get8 .RB)
    addClocks 4 s
  | 0x9 =>
    let s := s.set8 .RE (s.get8 .RC)
    addClocks 4 s
  | 0xA =>
    let s := s.set8 .RE (s.get8 .RD)
    addClocks 4 s
  | 0xB => addClocks 4 s
  | 0xC =>
    let s := s.set8 .RE (s.get8 .RH)
    addClocks 4 s
  | 0xD =>
    let s := s.set8 .RE (s.get8 .RL)
    addClocks 4 s
  | 0xE => gb_ld_r8_ptr_r16 .RE .HL s
  | 0xF =>
    let s := s.set8 .RE (s.get8 .RA)
    addClocks 4 s
  | _ =>
    -- default: unreachable, `lo` is a nibble
    let s := addClocks 4 s
    { s with breakExec := true }

/-- Row 0x6_ of the main opcode table (opcodes 0x60-0x6F). -/
def gbExecRow6 (lo : Nat) (s : GBState) : GBState :=
  match lo with
  | 0x0 =>
    let s := s.set8 .RH (s.get8 .RB)
    addClocks 4 s
  | 0x1 =>
    let s := s.set8 .RH (s.get8 .RC)
    addClocks 4 s
  | 0x2 =>
    let s := s.set8 .RH (s.get8 .RD)
    addClocks 4 s
  | 0x3 =>
    let s := s.set8 .RH (s.get8 .RE)
    addClocks 4 s
  | 0x4 => addClocks 4 s
  | 0x5 =>
    let s := s.set8 .RH (s.get8 .RL)
    addClocks 4 s
  | 0x6 => gb_ld_r8_ptr_r16 .RH .HL s
  | 0x7 =>
    let s := s.set8 .RH (s.get8 .RA)
    addClocks 4 s
  | 0x8 =>
    let s := s.set8 .RL (s.get8 .RB)
    addClocks 4 s
  | 0x9 =>
    let s := s.set8 .RL (s.get8 .RC)
    addClocks 4 s
  | 0xA =>
    let s := s.set8 .RL (s.get8 .RD)
    addClocks 4 s
  | 0xB =>
    let s := s.set8 .RL (s.get8 .RE)
    addClocks 4 s
  | 0xC =>
    let s := s.set8 .RL (s.get8 .RH)
    addClocks 4 s
  | 0xD => addClocks 4 s
  | 0xE => gb_ld_r8_ptr_r16 .RL .HL s
  | 0xF =>
    let s := s.set8 .RL (s.get8 .RA)
    addClocks 4 s
  | _ =>
    -- default: unreachable, `lo` is a nibble
    let s := addClocks 4 s
    { s with breakExec := true }

/-- Row 0x7_ of the main opcode table (opcodes 0x70-0x7F). -/
def gbExecRow7 (lo : Nat) (s : GBState) : GBState :=
  match lo with
  | 0x0 => gb_ld_ptr_r16_r8 .HL .RB s
  | 0x1 => gb_ld_ptr_r16_r8 .HL .RC s
  | 0x2 => gb_ld_ptr_r16_r8 .HL .RD s
  | 0x3 => gb_ld_ptr_r16_r8 .HL .RE s
  | 0x4 => gb_ld_ptr_r16_r8 .HL .RH s
  | 0x5 => gb_ld_ptr_r16_r8 .HL .RL s
  | 0x6 =>
    -- HALT
    let s := addClocks 4 s
    let s :=
      if s.ime = 1 then { s with cpuHalt := 1 }
      else if (s.ifReg &&& s.ieReg &&& 0x1F) ≠ 0 then
        -- The halt bug happens even in GBC, not only DMG
        { s with haltBug := 1 }
      else { s with cpuHalt := 1 }
    { s with breakLoop := true }
  | 0x7 => gb_ld_ptr_r16_r8 .HL .RA s
  | 0x8 =>
    let s := s.set8 .RA (s.get8 .RB)
    addClocks 4 s
  | 0x9 =>
    let s := s.set8 .RA (s.get8 .RC)
    addClocks 4 s
  | 0xA =>
    let s := s.set8 .RA (s.get8 .RD)
    addClocks 4 s
  | 0xB =>
    let s := s.set8 .RA (s.get8 .RE)
    addClocks 4 s
  | 0xC =>
    let s := s.set8 .RA (s.get8 .RH)
    addClocks 4 s
  | 0xD =>
    let s := s.set8 .RA (s.get8 .RL)
    addClocks 4 s
  | 0xE => gb_ld_r8_ptr_r16 .RA .HL s
  | 0xF => addClocks 4 s
  | _ =>
    -- default: unreachable, `lo` is a nibble
    let s := addClocks 4 s
    { s with breakExec := true }

/-- Row 0x8_ of the main opcode table (opcodes 0x80-0x8F). -/
def gbExecRow8 (lo : Nat) (s : GBState) : GBState :=
  match lo with
  | 0x0 => gb_add_a_r8 .RB s
  | 0x1 => gb_add_a_r8 .RC s
  | 0x2 => gb_add_a_r8 .RD s
  | 0x3 => gb_add_a_r8 .RE s
  | 0x4 => gb_add_a_r8 .RH s
  | 0x5 => gb_add_a_r8 .RL s
  | 0x6 =>
    -- ADD A,[HL]
    let s := addClocks 4 s
    let s := fAnd s F_SUBTRACT
    let t := s.cpu.a
    let t2 := memRead s (s.get16 .HL)
    let s := fUpd s (fun f => setH f (0xF < (t &&& 0xF) + (t2 &&& 0xF)))
    let s := s.set8 .RA (s.cpu.a + t2)
    let s := fUpd s (fun f => setZ f (s.cpu.a = 0))
    let s := fUpd s (fun f => setC f (s.cpu.a < t))
    addClocks 4 s
  | 0x7 =>
    -- ADD A,A
    let s := fAnd s F_SUBTRACT
    let s := fUpd s (fun f => setH f ((s.cpu.a &&& 0x08) ≠ 0))
    let s := fUpd s (fun f => setC f ((s.cpu.a &&& 0x80) ≠ 0))
    let s := s.set8 .RA (s.cpu.a + s.cpu.a)
    let s := fUpd s (fun f => setZ f (s.cpu.a = 0))
    addClocks 4 s
  | 0x8 => gb_adc_a_r8 .RB s
  | 0x9 => gb_adc_a_r8 .RC s
  | 0xA => gb_adc_a_r8 .RD s
  | 0xB => gb_adc_a_r8 .RE s
  | 0xC => gb_adc_a_r8 .RH s
  | 0xD => gb_adc_a_r8 .RL s
  | 0xE =>
    -- ADC A,[HL]
    let s := addClocks 4 s
    let s := fAnd s F_SUBTRACT
    let t := memRead s (s.get16 .HL)
    let t2 := s.cpu.a + t + fC s.cpu.f
    let s := fUpd s (fun f => setH f (0xF < (s.cpu.a &&& 0xF) + (t &&& 0xF) + fC f))
    let s := fUpd s (fun f => setC f (0xFF < t2))
    let s := s.set8 .RA (t2 &&& 0xFF)
    let s := fUpd s (fun f => setZ f (t2 &&& 0xFF = 0))
    addClocks 4 s
  | 0xF =>
    -- ADC A,A
    let s := fAnd s F_SUBTRACT
    let t := (s.cpu.a <<< 1) + fC s.cpu.f
    let s := fUpd s (fun f => setH f ((s.cpu.a &&& 0x08) ≠ 0))
    let s := fUpd s (fun f => setC f (0xFF < t))
    let s := s.set8 .RA (t &&& 0xFF)
    let s := fUpd s (fun f => setZ f (t &&& 0xFF = 0))
    addClocks 4 s
  | _ =>
    -- default: unreachable, `lo` is a nibble
    let s := addClocks 4 s
    { s with breakExec := true }

/-- Row 0x9_ of the main opcode table (opcodes 0x90-0x9F). -/
def gbExecRow9 (lo : Nat) (s : GBState) : GBState :=
  match lo with
  | 0x0 => gb_sub_a_r8 .RB s
  | 0x1 => gb_sub_a_r8 .RC s
  | 0x2 => gb_sub_a_r8 .RD s
  | 0x3 => gb_sub_a_r8 .RE s
  | 0x4 => gb_sub_a_r8 .RH s
  | 0x5 => gb_sub_a_r8 .RL s
  | 0x6 =>
    -- SUB A,[HL]
    let s := addClocks 4 s
    let t := memRead s (s.get16 .HL)
    let s := setF s F_SUBTRACT
    let s := fUpd s (fun f => setH f ((s.cpu.a &&& 0xF) < (t &&& 0xF)))
    let s := fUpd s (fun f => setC f (s.cpu.a < t))
    let s := s.set8 .RA (s.cpu.a + 256 - t)
    let s := fUpd s (fun f => setZ f (s.cpu.a = 0))
    addClocks 4 s
  | 0x7 =>
    -- SUB A,A
    let s := setF s (F_SUBTRACT ||| F_ZERO)
    let s := s.set8 .RA 0
    addClocks 4 s
  | 0x8 => gb_sbc_a_r8 .RB s
  | 0x9 => gb_sbc_a_r8 .RC s
  | 0xA => gb_sbc_a_r8 .RD s
  | 0xB => gb_sbc_a_r8 .RE s
  | 0xC => gb_sbc_a_r8 .RH s
  | 0xD => gb_sbc_a_r8 .RL s
  | 0xE =>
    -- SBC A,[HL]
    let s := addClocks 4 s
    let t2 := memRead s (s.get16 .HL)
    let t := (s.cpu.a + 0x100000000 - t2
              - (if s.cpu.f &&& F_CARRY ≠ 0 then 1 else 0)) % 0x100000000
    let a0 := s.cpu.a
    let s := setF s ((if t &&& 0xFFFFFF00 ≠ 0 then F_CARRY else 0)
                     ||| (if t &&& 0xFF ≠ 0 then 0 else F_ZERO) ||| F_SUBTRACT)
    let s := fUpd s (fun f => setH f (((a0 ^^^ t2 ^^^ t) &&& 0x10) ≠ 0))
    let s := s.set8 .RA t
    addClocks 4 s
  | 0xF =>
    -- SBC A,A (whole-AF write)
    let s :=
      if s.cpu.f &&& F_CARRY ≠ 0 then
        setF (s.set8 .RA 0xFF) (F_CARRY ||| F_HALFCARRY ||| F_SUBTRACT)
      else setF (s.set8 .RA 0x00) (F_ZERO ||| F_SUBTRACT)
    addClocks 4 s
  | _ =>
    -- default: unreachable, `lo` is a nibble
    let s := addClocks 4 s
    { s with breakExec := true }

/-- Row 0xA_ of the main opcode table (opcodes 0xA0-0xAF). -/
def gbExecRow10 (lo : Nat) (s : GBState) : GBState :=
  match lo with
  | 0x0 => gb_and_a_r8 .RB s
  | 0x1 => gb_and_a_r8 .RC s
  | 0x2 => gb_and_a_r8 .RD s
  | 0x3 => gb_and_a_r8 .RE s
  | 0x4 => gb_and_a_r8 .RH s
  | 0x5 => gb_and_a_r8 .RL s
  | 0x6 =>
    -- AND A,[HL]
    let s := addClocks 4 s
    let s := fOr s F_HALFCARRY
    let s := fAnd s (F_SUBTRACT ||| F_CARRY)
    let s := s.set8 .RA (s.cpu.a &&& memRead s (s.get16 .HL))
    let s := fUpd s (fun f => setZ f (s.cpu.a = 0))
    addClocks 4 s
  | 0x7 =>
    -- AND A,A
    let s := fOr s F_HALFCARRY
    let s := fAnd s (F_SUBTRACT ||| F_CARRY)
    let s := fUpd s (fun f => setZ f (s.cpu.a = 0))
    addClocks 4 s
  | 0x8 => gb_xor_a_r8 .RB s
  | 0x9 => gb_xor_a_r8 .RC s
  | 0xA => gb_xor_a_r8 .RD s
  | 0xB => gb_xor_a_r8 .RE s
  | 0xC => gb_xor_a_r8 .RH s
  | 0xD => gb_xor_a_r8 .RL s
  | 0xE =>
    -- XOR A,[HL]
    let s := addClocks 4 s
    let s := fAnd s (F_SUBTRACT ||| F_CARRY ||| F_HALFCARRY)
    let s := s.set8 .RA (s.cpu.a ^^^ memRead s (s.get16 .HL))
    let s := fUpd s (fun f => setZ f (s.cpu.a = 0))
    addClocks 4 s
  | 0xF =>
    -- XOR A,A (whole-AF write `AF = F_ZERO`)
    let s := setF (s.set8 .RA 0) F_ZERO
    addClocks 4 s
  | _ =>
    -- default: unreachable, `lo` is a nibble
    let s := addClocks 4 s
    { s with breakExec := true }

/-- Row 0xB_ of the main opcode table (opcodes 0xB0-0xBF). -/
def gbExecRow11 (lo : Nat) (s : GBState) : GBState :=
  match lo with
  | 0x0 => gb_or_a_r8 .RB s
  | 0x1 => gb_or_a_r8 .RC s
  | 0x2 => gb_or_a_r8 .RD s
  | 0x3 => gb_or_a_r8 .RE s
  | 0x4 => gb_or_a_r8 .RH s
  | 0x5 => gb_or_a_r8 .RL s
  | 0x6 =>
    -- OR A,[HL]
    let s := addClocks 4 s
    let s := fAnd s (F_SUBTRACT ||| F_CARRY ||| F_HALFCARRY)
    let s := s.set8 .RA (s.cpu.a ||| memRead s (s.get16 .HL))
    let s := fUpd s (fun f => setZ f (s.cpu.a = 0))
    addClocks 4 s
  | 0x7 =>
    -- OR A,A
    let s := fAnd s (F_SUBTRACT ||| F_CARRY ||| F_HALFCARRY)
    let s := fUpd s (fun f => setZ f (s.cpu.a = 0))
    addClocks 4 s
  | 0x8 => gb_cp_a_r8 .RB s
  | 0x9 => gb_cp_a_r8 .RC s
  | 0xA => gb_cp_a_r8 .RD s
  | 0xB => gb_cp_a_r8 .RE s
  | 0xC => gb_cp_a_r8 .RH s
  | 0xD => gb_cp_a_r8 .RL s
  | 0xE =>
    -- CP A,[HL]
    let s := addClocks 4 s
    let s := fOr s F_SUBTRACT
    let t := memRead s (s.get16 .HL)
    let s := fUpd s (fun f => setH f ((s.cpu.a &&& 0xF) < (t &&& 0xF)))
    let s := fUpd s (fun f => setC f (s.cpu.a < t))
    let s := fUpd s (fun f => setZ f (s.cpu.a = t))
    addClocks 4 s
  | 0xF =>
    -- CP A,A
    let s := fOr s (F_SUBTRACT ||| F_ZERO)
    let s := fAnd s (F_HALFCARRY ||| F_CARRY)
    addClocks 4 s
  | _ =>
    -- default: unreachable, `lo` is a nibble
    let s := addClocks 4 s
    { s with breakExec := true }

/-- Row 0xC_ of the main opcode table (opcodes 0xC0-0xCF). -/
def gbExecRow12 (lo : Nat) (s : GBState) : GBState :=
  match lo with
  | 0x0 => gb_ret_cond (fZ s.cpu.f = 0) s
  | 0x1 => gb_pop_r16 .RB .RC s
  | 0x2 => gb_jp_cond_nnnn (fZ s.cpu.f = 0) s
  | 0x3 =>
    -- JP nnnn
    let s := addClocks 4 s
    let t := memRead s s.cpu.pc
    let s := pcInc s
    let s := addClocks 4 s
    let t := t ||| (memRead s s.cpu.pc <<< 8)
    let s := pcInc s
    let s := addClocks 4 s
    let s := setPC s t
    addClocks 4 s
  | 0x4 => gb_call_cond_nnnn (fZ s.cpu.f = 0) s
  | 0x5 => gb_push_r16 .RB .RC s
  | 0x6 =>
    -- ADD A,nn
    let s := addClocks 4 s
    let s := fAnd s F_SUBTRACT
    let t := s.cpu.a
    let t2 := memRead s s.cpu.pc
    let s := pcInc s
    let s := fUpd s (fun f => setH f (0xF < (t &&& 0xF) + (t2 &&& 0xF)))
    let s := s.set8 .RA (s.cpu.a + t2)
    let s := fUpd s (fun f => setZ f (s.cpu.a = 0))
    let s := fUpd s (fun f => setC f (s.cpu.a < t))
    addClocks 4 s
  | 0x7 => gb_rst_nnnn 0x0000 s
  | 0x8 => gb_ret_cond (fZ s.cpu.f ≠ 0) s
  | 0x9 =>
    -- RET
    let s := addClocks 4 s
    let t := memRead s s.cpu.sp
    let s := setSP s (s.cpu.sp + 1)
    let s := addClocks 4 s
    let t := t ||| (memRead s s.cpu.sp <<< 8)
    let s := setSP s (s.cpu.sp + 1)
    let s := addClocks 4 s
    let s := setPC s t
    addClocks 4 s
  | 0xA => gb_jp_cond_nnnn (fZ s.cpu.f ≠ 0) s
  | 0xB =>
    -- CB prefix: fetch the second opcode byte, dispatch to the inner table
    let s := addClocks 4 s
    let op2 := memRead s s.cpu.pc
    let s := pcInc s
    gbExecCB op2 s
  | 0xC => gb_call_cond_nnnn (fZ s.cpu.f ≠ 0) s
  | 0xD =>
    -- CALL nnnn
    let s := addClocks 4 s
    let t := memRead s s.cpu.pc
    let s := pcInc s
    let s := addClocks 4 s
    let t := t ||| (memRead s s.cpu.pc <<< 8)
    let s := pcInc s
    let s := addClocks 8 s
    let s := setSP s (s.cpu.sp + 0xFFFF)
    let s := memWrite s s.cpu.sp (s.cpu.pc / 256)
    let s := addClocks 4 s
    let s := setSP s (s.cpu.sp + 0xFFFF)
    let s := memWrite s s.cpu.sp (s.cpu.pc % 256)
    let s := setPC s t
    addClocks 4 s
  | 0xE =>
    -- ADC A,nn
    let s := addClocks 4 s
    let s := fAnd s F_SUBTRACT
    let t := memRead s s.cpu.pc
    let s := pcInc s
    let t2 := s.cpu.a + t + fC s.cpu.f
    let s := fUpd s (fun f => setH f (0xF < (s.cpu.a &&& 0xF) + (t &&& 0xF) + fC f))
    let s := fUpd s (fun f => setC f (0xFF < t2))
    let s := s.set8 .RA (t2 &&& 0xFF)
    let s := fUpd s (fun f => setZ f (s.cpu.a = 0))
    addClocks 4 s
  | 0xF => gb_rst_nnnn 0x0008 s
  | _ =>
    -- default: unreachable, `lo` is a nibble
    let s := addClocks 4 s
    { s with breakExec := true }

/-- Row 0xD_ of the main opcode table (opcodes 0xD0-0xDF). -/
def gbExecRow13 (lo : Nat) (s : GBState) : GBState :=
  match lo with
  | 0x0 => gb_ret_cond (fC s.cpu.f = 0) s
  | 0x1 => gb_pop_r16 .RD .RE s
  | 0x2 => gb_jp_cond_nnnn (fC s.cpu.f = 0) s
  | 0x3 => gb_undefined_opcode s
  | 0x4 => gb_call_cond_nnnn (fC s.cpu.f = 0) s
  | 0x5 => gb_push_r16 .RD .RE s
  | 0x6 =>
    -- SUB A,nn
    let s := addClocks 4 s
    let t := memRead s s.cpu.pc
    let s := pcInc s
    let s := fOr s F_SUBTRACT
    let s := fUpd s (fun f => setH f ((s.cpu.a &&& 0xF) < (t &&& 0xF)))
    let s := fUpd s (fun f => setC f (s.cpu.a < t))
    let s := s.set8 .RA (s.cpu.a + 256 - t)
    let s := fUpd s (fun f => setZ f (s.cpu.a = 0))
    addClocks 4 s
  | 0x7 => gb_rst_nnnn 0x0010 s
  | 0x8 => gb_ret_cond (fC s.cpu.f ≠ 0) s
  | 0x9 =>
    -- RETI
    let s := addClocks 4 s
    let t := memRead s s.cpu.sp
    let s := setSP s (s.cpu.sp + 1)
    let s := addClocks 4 s
    let t := t ||| (memRead s s.cpu.sp <<< 8)
    let s := setSP s (s.cpu.sp + 1)
    let s := addClocks 4 s
    let s := setPC s t
    let s := { s with ime := 1 }
    let s := addClocks 4 s
    { s with breakLoop := true }
  | 0xA => gb_jp_cond_nnnn (fC s.cpu.f ≠ 0) s
  | 0xB => gb_undefined_opcode s
  | 0xC => gb_call_cond_nnnn (fC s.cpu.f ≠ 0) s
  | 0xD => gb_undefined_opcode s
  | 0xE =>
    -- SBC A,nn
    let s := addClocks 4 s
    let t2 := memRead s s.cpu.pc
    let s := pcInc s
    let t := (s.cpu.a + 0x100000000 - t2
              - (if s.cpu.f &&& F_CARRY ≠ 0 then 1 else 0)) % 0x100000000
    let a0 := s.cpu.a
    let s := setF s ((if t &&& 0xFFFFFF00 ≠ 0 then F_CARRY else 0)
                     ||| (if t &&& 0xFF ≠ 0 then 0 else F_ZERO) ||| F_SUBTRACT)
    let s := fUpd s (fun f => setH f (((a0 ^^^ t2 ^^^ t) &&& 0x10) ≠ 0))
    let s := s.set8 .RA t
    addClocks 4 s
  | 0xF => gb_rst_nnnn 0x0018 s
  | _ =>
    -- default: unreachable, `lo` is a nibble
    let s := addClocks 4 s
    { s with breakExec := true }

/-- Row 0xE_ of the main opcode table (opcodes 0xE0-0xEF). -/
def gbExecRow14 (lo : Nat) (s : GBState) : GBState :=
  match lo with
  | 0x0 =>
    -- LD [0xFF00+nn],A
    let s := addClocks 4 s
    let t := 0xFF00 + memRead s s.cpu.pc
    let s := pcInc s
    let s := addClocks 4 s
    let s := memWrite s t s.cpu.a
    addClocks 4 s
  | 0x1 => gb_pop_r16 .RH .RL s
  | 0x2 =>
    -- LD [0xFF00+C],A
    let s := addClocks 4 s
    let s := memWrite s (0xFF00 + s.cpu.c) s.cpu.a
    addClocks 4 s
  | 0x3 => gb_undefined_opcode s
  | 0x4 => gb_undefined_opcode s
  | 0x5 => gb_push_r16 .RH .RL s
  | 0x6 =>
    -- AND A,nn
    let s := addClocks 4 s
    let s := fAnd s (F_SUBTRACT ||| F_CARRY)
    let s := fOr s F_HALFCARRY
    let s := s.set8 .RA (s.cpu.a &&& memRead s s.cpu.pc)
    let s := pcInc s
    let s := fUpd s (fun f => setZ f (s.cpu.a = 0))
    addClocks 4 s
  | 0x7 => gb_rst_nnnn 0x0020 s
  | 0x8 =>
    -- ADD SP,nn (sign-expanded immediate)
    let s := addClocks 4 s
    let t := signExt16 (memRead s s.cpu.pc)
    let s := pcInc s
    let s := setF s 0
    let s := fUpd s (fun f => setC f (0xFF < (s.cpu.sp &&& 0xFF) + (t &&& 0xFF)))
    let s := fUpd s (fun f => setH f (0xF < (s.cpu.sp &&& 0xF) + (t &&& 0xF)))
    let s := setSP s (s.cpu.sp + t)
    addClocks 12 s
  | 0x9 =>
    -- JP HL
    let s := setPC s (s.get16 .HL)
    addClocks 4 s
  | 0xA =>
    -- LD [nnnn],A
    let s := addClocks 4 s
    let t := memRead s s.cpu.pc
    let s := pcInc s
    let s := addClocks 4 s
    let t := t ||| (memRead s s.cpu.pc <<< 8)
    let s := pcInc s
    let s := addClocks 4 s
    let s := memWrite s t s.cpu.a
    addClocks 4 s
  | 0xB => gb_undefined_opcode s
  | 0xC => gb_undefined_opcode s
  | 0xD => gb_undefined_opcode s
  | 0xE =>
    -- XOR A,nn
    let s := addClocks 4 s
    let s := fAnd s (F_SUBTRACT ||| F_CARRY ||| F_HALFCARRY)
    let s := s.set8 .RA (s.cpu.a ^^^ memRead s s.cpu.pc)
    let s := pcInc s
    let s := fUpd s (fun f => setZ f (s.cpu.a = 0))
    addClocks 4 s
  | 0xF => gb_rst_nnnn 0x0028 s
  | _ =>
    -- default: unreachable, `lo` is a nibble
    let s := addClocks 4 s
    { s with breakExec := true }

/-- Row 0xF_ of the main opcode table (opcodes 0xF0-0xFF). -/
def gbExecRow15 (lo : Nat) (s : GBState) : GBState :=
  match lo with
  | 0x0 =>
    -- LD A,[0xFF00+nn]
    let s := addClocks 4 s
    let t := 0xFF00 + memRead s s.cpu.pc
    let s := pcInc s
    let s := addClocks 4 s
    let s := s.set8 .RA (memRead s t)
    addClocks 4 s
  | 0x1 =>
    -- POP AF; lower 4 bits of F are always 0
    let s := gb_pop_r16 .RA .RF s
    setF s (s.cpu.f &&& 0xF0)
  | 0x2 =>
    -- LD A,[0xFF00+C]
    let s := addClocks 4 s
    let s := s.set8 .RA (memRead s (0xFF00 + s.cpu.c))
    addClocks 4 s
  | 0x3 =>
    -- DI
    let s := { s with ime := 0, ieCount := 0 }
    addClocks 4 s
  | 0x4 => gb_undefined_opcode s
  | 0x5 => gb_push_r16 .RA .RF s
  | 0x6 =>
    -- OR A,nn
    let s := addClocks 4 s
    let s := fAnd s (F_SUBTRACT ||| F_CARRY ||| F_HALFCARRY)
    let s := s.set8 .RA (s.cpu.a ||| memRead s s.cpu.pc)
    let s := pcInc s
    let s := fUpd s (fun f => setZ f (s.cpu.a = 0))
    addClocks 4 s
  | 0x7 => gb_rst_nnnn 0x0030 s
  | 0x8 =>
    -- LD HL,SP+nn (sign-expanded immediate; HL takes the low 16 bits)
    let s := addClocks 4 s
    let t := signExt16 (memRead s s.cpu.pc)
    let s := pcInc s
    let s := s.set16 .HL (s.cpu.sp + t)
    let s := setF s 0
    let s := fUpd s (fun f => setC f (0xFF < (s.cpu.sp &&& 0xFF) + (t &&& 0xFF)))
    let s := fUpd s (fun f => setH f (0xF < (s.cpu.sp &&& 0xF) + (t &&& 0xF)))
    addClocks 8 s
  | 0x9 =>
    -- LD SP,HL
    let s := setSP s (s.get16 .HL)
    addClocks 8 s
  | 0xA =>
    -- LD A,[nnnn]
    let s := addClocks 4 s
    let t := memRead s s.cpu.pc
    let s := pcInc s
    let s := addClocks 4 s
    let t := t ||| (memRead s s.cpu.pc <<< 8)
    let s := pcInc s
    let s := addClocks 4 s
    let s := s.set8 .RA (memRead s t)
    addClocks 4 s
  | 0xB =>
    -- EI (takes effect after one more instruction)
    let s := { s with ieCount := 1 }
    addClocks 4 s
  | 0xC => gb_undefined_opcode s
  | 0xD => gb_undefined_opcode s
  | 0xE =>
    -- CP A,nn
    let s := addClocks 4 s
    let s := fOr s F_SUBTRACT
    let t := memRead s s.cpu.pc
    let s := pcInc s
    let t2 := s.cpu.a
    let s := fUpd s (fun f => setH f ((t2 &&& 0xF) < (t &&& 0xF)))
    let s := fUpd s (fun f => setC f (t2 < t))
    let s := fUpd s (fun f => setZ f (t2 = t))
    addClocks 4 s
  | 0xF => gb_rst_nnnn 0x0038 s
  | _ =>
    -- default: unreachable, `lo` is a nibble
    let s := addClocks 4 s
    { s with breakExec := true }

/-- The main opcode dispatch of `GB_CPUExecute` (cpu.c lines 741-2845); `op`
is the fetched opcode byte, split into its two nibbles. -/
def gbExecOpcode (op : Nat) (s : GBState) : GBState :=
  match op >>> 4 with
  | 0x0 => gbExecRow0 (op &&& 0xF) s
  | 0x1 => gbExecRow1 (op &&& 0xF) s
  | 0x2 => gbExecRow2 (op &&& 0xF) s
  | 0x3 => gbExecRow3 (op &&& 0xF) s
  | 0x4 => gbExecRow4 (op &&& 0xF) s
  | 0x5 => gbExecRow5 (op &&& 0xF) s
  | 0x6 => gbExecRow6 (op &&& 0xF) s
  | 0x7 => gbExecRow7 (op &&& 0xF) s
  | 0x8 => gbExecRow8 (op &&& 0xF) s
  | 0x9 => gbExecRow9 (op &&& 0xF) s
  | 0xA => gbExecRow10 (op &&& 0xF) s
  | 0xB => gbExecRow11 (op &&& 0xF) s
  | 0xC => gbExecRow12 (op &&& 0xF) s
  | 0xD => gbExecRow13 (op &&& 0xF) s
  | 0xE => gbExecRow14 (op &&& 0xF) s
  | 0xF => gbExecRow15 (op &&& 0xF) s
  | _ =>
    -- default: unreachable, `op` is a byte
    let s := addClocks 4 s
    { s with breakExec := true }

/-- The fetch-execute loop body of `GB_CPUExecute` (cpu.c lines 714-2861),
with explicit fuel.  The C loop runs `while (clock < finish)`; every opcode
adds at least 4 clocks, so `fuel ≥ clocks` iterations never exhaust first.
The debugger-breakpoint check of line 716 models the no-breakpoints
configuration. -/
def gbCpuLoop (fuel finish : Nat) (s : GBState) : GBState :=
  match fuel with
  | 0 => s
  | fuel + 1 =>
    if s.clock < finish then
      -- EI interrupt enable delay: turn IME on, but break only after the
      -- instruction fetched below (cpu.c lines 723-729)
      let s :=
        if s.ieCount ≠ 0 then { s with ieCount := 0, ime := 1, breakLoop := true }
        else s
      let op := memRead s s.cpu.pc
      let s := pcInc s
      -- halt bug: one-shot PC non-increment on this fetch (lines 734-739)
      let s :=
        if s.haltBug ≠ 0 then
          { s with haltBug := 0,
                   cpu := { s.cpu with pc := (s.cpu.pc + 0xFFFF) % 0x10000 } }
        else s
      let s := gbExecOpcode op s
      if s.breakLoop then { s with breakLoop := false }
      else if s.breakExec then s
      else gbCpuLoop fuel finish s
    else s

/-- `GB_CPUExecute` (cpu.c line 704): run opcodes until the clock counter
reaches `start + clocks` or a break happens; return the final state and the
number of clocks actually executed. -/
def GB_CPUExecute (clocks : Nat) (s : GBState) : GBState × Nat :=
  let s2 := gbCpuLoop (clocks + 1) (s.clock + clocks) s
  (s2, s2.clock - s.clock)

/-- Modelled from the spec: `GB_InterruptsExecute` (interrupts.c is not among
the provided sources; only its caller `GB_RunFor` in cpu.c is).  Spec
sections 4.1 and 4.6: when IME=1 and `IF & IE & 0x1F` is nonzero, dispatch
the lowest-numbered pending vector at a cost of 20 clocks — push PC, load PC
with one of 0x40/0x48/0x50/0x58/0x60, clear that IF bit, clear IME; a halted
CPU resumes.  If IME=0 but IF&IE has a set bit, HALT exits without dispatch.
The `dispatches` observer counts dispatches; the return value is the clock
cost (0 when nothing was dispatched). -/
def GB_InterruptsExecute (s : GBState) : GBState × Nat :=
  let pending := s.ifReg &&& s.ieReg &&& 0x1F
  if s.ime = 1 ∧ pending ≠ 0 then
    let bit :=
      if pending &&& 1 ≠ 0 then 0
      else if pending &&& 2 ≠ 0 then 1
      else if pending &&& 4 ≠ 0 then 2
      else if pending &&& 8 ≠ 0 then 3
      else 4
    let s := { s with cpuHalt := 0 }
    let s := setSP s (s.cpu.sp + 0xFFFF)
    let s := memWrite s s.cpu.sp (s.cpu.pc / 256)
    let s := setSP s (s.cpu.sp + 0xFFFF)
    let s := memWrite s s.cpu.sp (s.cpu.pc % 256)
    let s := setPC s (0x40 + 8 * bit)
    let s := { s with ifReg := s.ifReg &&& (0xFF - (1 <<< bit)), ime := 0,
                      dispatches := s.dispatches + 1 }
    (addClocks 20 s, 20)
  else if s.cpuHalt = 1 ∧ pending ≠ 0 then ({ s with cpuHalt := 0 }, 0)
  else (s, 0)

/-- One scheduling-window step of the `GB_RunFor` inner loop (cpu.c lines
2886-2938), with no DMA active (`GB_DMAExecute` returning 0; dma.c is not
among the provided sources): if a speed switch is in progress, consume the
window halted; otherwise try interrupt dispatch; otherwise run the CPU for
the window, or merely consume it when halted/stopped. -/
def gbRunWindow (window : Nat) (s : GBState) : GBState :=
  if s.speedClocks ≠ 0 then
    if window ≥ s.speedClocks then
      { s with speedClocks := 0, cpuHalt := 0, clock := s.clock + s.speedClocks }
    else { s with speedClocks := s.speedClocks - window, clock := s.clock + window }
  else
    let s1i := GB_InterruptsExecute s
    if s1i.2 = 0 then
      if s1i.1.cpuHalt = 0 then (GB_CPUExecute window s1i.1).1
      else addClocks window s1i.1
    else s1i.1

/-- The AF power-on values assigned by `GB_CPUInit` (cpu.c lines 160-238)
across hardware types, GBC-support and boot-ROM variants. -/
def gbInitialAF : List Nat :=
  [0x01B0, 0xFFB0, 0x0100, 0xFF00, 0x1180, 0x1100, 0x0000]


/-! ### Concrete scenario states -/

/-- A baseline machine state for the concrete claim scenarios: registers
cleared, SP = 0xFFFE, PC = 0x0100, clock 0, machine idle and running, with
the given IF and IE bytes and memory contents. -/
def baseState (ifv iev : Nat) (mem : Nat → Nat) : GBState :=
  { cpu := { a := 0, f := 0, b := 0, c := 0, d := 0, e := 0, h := 0, l := 0,
             sp := 0xFFFE, pc := 0x0100 },
    mem := mem, ime := 0, ieCount := 0, ifReg := ifv, ieReg := iev,
    cpuHalt := 0, haltBug := 0, clock := 0, breakLoop := false,
    breakExec := false, cgbEnabled := false, key1 := 0, doubleSpeed := 0,
    speedClocks := 0, dispatches := 0 }

/-- Memory for the EI-delay scenario: EI (0xFB) at 0x0100, DI (0xF3) at
0x0101. -/
def eiDiMem : Nat → Nat := fun a =>
  if a = 0x0100 then 0xFB else if a = 0x0101 then 0xF3 else 0

/-- The EI-delay scenario state (claim C1): IME=0, IF=0x01, IE=0x01. -/
def eiDiState : GBState := baseState 1 1 eiDiMem

/-- Memory for the EI-delay contrast scenario: EI then NOP, so that the
dispatch happens on the fetch after the instruction following EI. -/
def eiNopMem : Nat → Nat := fun a =>
  if a = 0x0100 then 0xFB else if a = 0x0101 then 0x00 else 0

/-- The EI-then-NOP scenario state with the same pending V-Blank interrupt. -/
def eiNopState : GBState := baseState 1 1 eiNopMem

/-- Memory for the halt-bug scenario: HALT (0x76) at 0x0100, INC A (0x3C)
at 0x0101. -/
def haltIncMem : Nat → Nat := fun a =>
  if a = 0x0100 then 0x76 else if a = 0x0101 then 0x3C else 0

/-- The halt-bug scenario state (claim C2): IME=0, IF=0x01, IE=0x01, A=0,
HALT at 0x0100, INC A at 0x0101. -/
def haltBugState : GBState := baseState 1 1 haltIncMem

/-- The halt-bug scenario after the HALT opcode executes (one 4-clock
scheduling window). -/
def haltBugAfterHalt : GBState := gbRunWindow 4 haltBugState

/-- One fetch-execute step after HALT (one more 4-clock window, the
granularity of `GB_RunForInstruction`). -/
def haltBugFetch1 : GBState := gbRunWindow 4 haltBugAfterHalt

/-- A second fetch-execute step after HALT. -/
def haltBugFetch2 : GBState := gbRunWindow 4 haltBugFetch1

/-- A state for the POP AF witness: POP AF (0xF1) at 0x0100 and a stack at
0xC000 whose flag byte has all bits set. -/
def popAFState : GBState :=
  let mem : Nat → Nat := fun a =>
    if a = 0x0100 then 0xF1 else if a = 0xC000 then 0xFF
    else if a = 0xC001 then 0x12 else 0
  let s := baseState 0 0 mem
  { s with cpu := { s.cpu with sp := 0xC000 } }

/-- A state for the DAA witness (spec scenario 1, after ADD A,B with
A=0x45, B=0x38): A=0x7D, all flags clear, DAA (0x27) at 0x0100. -/
def daaState : GBState :=
  let s := baseState 0 0 (fun a => if a = 0x0100 then 0x27 else 0)
  { s with cpu := { s.cpu with a := 0x7D } }

/-! ### Scheduling window (cpu.c) -/

/-- `GB_ClocksForNextEvent` (cpu.c lines 97-118), as a function of the
subsystem distances it polls (the subsystem implementations are external to
cpu.c): the running minimum over timer, PPU, serial, DMA and sound — sound is
polled twice in the source, which cannot change the minimum — followed by the
alignment `(clocks_to_next_event | 4) & ~3`; `| 4` sets bit 2 and `& ~3`
clears bits 0 and 1, the latter written here as `/ 4 * 4`. -/
def GB_ClocksForNextEvent (timer ppu serial dma sound : Nat) : Nat :=
  let c := timer
  let c := min c ppu
  let c := min c serial
  let c := min c dma
  let c := min c sound
  let c := min c sound
  ((c ||| 4) / 4) * 4

/-- The alignment as the claim words it: the least multiple of 4 greater
than or equal to `m`. -/
def roundUpMult4 (m : Nat) : Nat := (m + 3) / 4 * 4

/-! ### STAT signal (ppu.c) -/

/-- The state read and written by `GB_PPUCheckStatSignal` (ppu.c line 231). -/
structure PPUState where
  /-- `GameBoy.Emulator.lcd_on` -/
  lcd_on : Nat
  /-- `GameBoy.Emulator.stat_signal`: the remembered combined signal -/
  stat_signal : Nat
  /-- `GameBoy.Emulator.ScreenMode` -/
  screenmode : Nat
  /-- `IO_Ports[STAT_REG - 0xFF00]` -/
  stat : Nat
  /-- `IO_Ports[LY_REG - 0xFF00]` -/
  ly : Nat
  /-- `IO_Ports[LYC_REG - 0xFF00]` -/
  lyc : Nat
  /-- `IO_Ports[IF_REG - 0xFF00]` -/
  ifReg : Nat

/-- Modelled from the spec: `IENABLE_HBL` (interrupts.h is not among the
provided sources).  Spec section 4.2: STAT bits 3-6 are the interrupt source
enables in the order mode 0, mode 1, mode 2, LYC; so the mode-0 (H-Blank)
enable is bit 3. -/
def IENABLE_HBL : Nat := 1 <<< 3

/-- Modelled from the spec: `IENABLE_VBL`, the mode-1 (V-Blank) source
enable, STAT bit 4. -/
def IENABLE_VBL : Nat := 1 <<< 4

/-- Modelled from the spec: `IENABLE_OAM`, the mode-2 (OAM) source enable,
STAT bit 5. -/
def IENABLE_OAM : Nat := 1 <<< 5

/-- Modelled from the spec: `IENABLE_LY_COMPARE`, the LYC=LY source enable,
STAT bit 6. -/
def IENABLE_LY_COMPARE : Nat := 1 <<< 6

/-- Modelled from the spec: `GB_InterruptsSetFlag(I_STAT)` raises the LCD
STAT interrupt, IF bit 1 (spec section 4.1). -/
def interruptsSetStat (i : Nat) : Nat := i ||| (1 <<< 1)

/-- `GB_PPUCheckStatSignal` (ppu.c lines 231-266). -/
def GB_PPUCheckStatSignal (s : PPUState) : PPUState :=
  if s.lcd_on = 0 then { s with stat_signal := 0 }
  else
    let anyConditionMet :=
      (s.ly % 256 = s.lyc % 256 ∧ s.stat &&& IENABLE_LY_COMPARE ≠ 0)
      ∨ (s.screenmode = 0 ∧ s.stat &&& IENABLE_HBL ≠ 0)
      ∨ (s.screenmode = 2 ∧ s.stat &&& IENABLE_OAM ≠ 0)
      ∨ (s.screenmode = 1 ∧ s.stat &&& (IENABLE_VBL ||| IENABLE_OAM) ≠ 0)
    if anyConditionMet then
      if s.stat_signal = 0 then
        { s with ifReg := interruptsSetStat s.ifReg, stat_signal := 1 }
      else { s with stat_signal := 1 }
    else { s with stat_signal := 0 }

/-- The combined STAT signal as the claim words it: the OR of LYC enable and
LY=LYC; mode-0 enable and mode=0; mode-2 enable and mode=2; and, during mode
1, mode-1 enable or mode-2 enable. -/
def statSignalSpec (s : PPUState) : Prop :=
  (s.stat &&& IENABLE_LY_COMPARE ≠ 0 ∧ s.ly % 256 = s.lyc % 256)
  ∨ (s.stat &&& IENABLE_HBL ≠ 0 ∧ s.screenmode = 0)
  ∨ (s.stat &&& IENABLE_OAM ≠ 0 ∧ s.screenmode = 2)
  ∨ (s.screenmode = 1 ∧ (s.stat &&& IENABLE_VBL ≠ 0 ∨ s.stat &&& IENABLE_OAM ≠ 0))

instance (s : PPUState) : Decidable (statSignalSpec s) := by
  unfold statSignalSpec
  infer_instance

/-- A concrete PPU state for the STAT-signal witness: LCD on, remembered
signal 0, mode 0 with the mode-0 (H-Blank) source enabled, LY ≠ LYC, IF
empty. -/
def statScenario : PPUState :=
  { lcd_on := 1, stat_signal := 0, screenmode := 0, stat := IENABLE_HBL,
    ly := 10, lyc := 20, ifReg := 0 }

/-! ### Cartridge load (rom.c) -/

/-- The memory-controller kinds that `GB_CartridgeLoad` assigns (rom.c lines
400-510). -/
inductive MemController where
  | NONE | MBC1 | MBC2 | MBC3 | MBC5 | MBC6 | MBC7 | MMM01 | RUMBLE | CAMERA
  | HUC1
  deriving Repr, DecidableEq

/-- The cartridge-type switch of `GB_CartridgeLoad` (rom.c lines 401-510):
controller, battery flag, timer flag per supported type byte; `none` for the
`default:` arm, which fails the load. -/
def gbCartType (t : Nat) : Option (MemController × Bool × Bool) :=
  match t with
  | 0x00 => some (.NONE, false, false)
  | 0x01 => some (.MBC1, false, false)
  | 0x02 => some (.MBC1, false, false)
  | 0x03 => some (.MBC1, true, false)
  | 0x05 => some (.MBC2, false, false)
  | 0x06 => some (.MBC2, true, false)
  | 0x08 => some (.NONE, false, false)
  | 0x09 => some (.NONE, false, false)
  | 0x0B => some (.MMM01, false, false)
  | 0x0C => some (.MMM01, false, false)
  | 0x0D => some (.MMM01, true, false)
  | 0x0F => some (.MBC3, true, true)
  | 0x10 => some (.MBC3, true, true)
  | 0x11 => some (.MBC3, false, false)
  | 0x12 => some (.MBC3, false, false)
  | 0x13 => some (.MBC3, true, false)
  | 0x19 => some (.MBC5, false, false)
  | 0x1A => some (.MBC5, false, false)
  | 0x1B => some (.MBC5, true, false)
  | 0x1C => some (.RUMBLE, false, false)
  | 0x1D => some (.RUMBLE, false, false)
  | 0x1E => some (.RUMBLE, true, false)
  | 0x20 => some (.MBC6, true, false)
  | 0x22 => some (.MBC7, true, false)
  | 0xFC => some (.CAMERA, true, false)
  | 0xFF => some (.HUC1, true, false)
  | _ => none

/-- The RAM-size switch (rom.c lines 515-539): bank count per header byte;
`none` for the unknown-size arm, which fails the load. -/
def gbRamBanks (r : Nat) : Option Nat :=
  match r with
  | 0x00 => some 0
  | 0x01 => some 1
  | 0x02 => some 1
  | 0x03 => some 4
  | 0x04 => some 16
  | 0x05 => some 8
  | _ => none

/-- The ROM-size switch (rom.c lines 558-591): bank count per header byte;
`none` for the unknown-size arm, which fails the load. -/
def gbRomBanks (r : Nat) : Option Nat :=
  match r with
  | 0x00 => some 2
  | 0x01 => some 4
  | 0x02 => some 8
  | 0x03 => some 16
  | 0x04 => some 32
  | 0x05 => some 64
  | 0x06 => some 128
  | 0x07 => some 256
  | 0x08 => some 512
  | _ => none

/-- One step of the header-checksum accumulation (rom.c line 622): the u32
`sum = sum - pointer[count] - 1`. -/
def gbHeaderSumStep (sum b : Nat) : Nat :=
  (sum + 0x100000000 - b % 256 - 1) % 0x100000000

/-- The header checksum computed by rom.c lines 619-624: fold the step over
bytes 0x134..=0x14C, then `sum &= 0xFF`. -/
def gbHeaderChecksum (rom : Nat → Nat) : Nat :=
  (((List.range 0x19).map (fun k => 0x134 + k)).foldl
      (fun sum c => gbHeaderSumStep sum (rom c)) 0) &&& 0xFF

/-- The sum of the header bytes 0x134..=0x14C. -/
def gbHeaderByteSum (rom : Nat → Nat) : Nat :=
  (((List.range 0x19).map (fun k => rom (0x134 + k) % 256))).sum

/-- The checksum formula as the claim words it:
`(-(Σ bytes[0x134..=0x14C])) - 0x19`, modulo 256. -/
def gbHeaderChecksumSpec (rom : Nat → Nat) : Nat :=
  (((-(gbHeaderByteSum rom : Int)) - 0x19) % 256).toNat

/-- The outcome of `GB_CartridgeLoad`: the return value (`ok`) plus the
diagnostics the claims are about.  `sizeWarned` records the file-size
mismatch report of rom.c line 601 and `checksumWarned` the header-checksum
mismatch report of line 631; on an early `return 0` the later fields keep
these defaults, mirroring statements that never execute. -/
structure CartLoadResult where
  ok : Bool := false
  hasBattery : Bool := false
  hasTimer : Bool := false
  ramBanks : Nat := 0
  romBanks : Nat := 0
  sizeWarned : Bool := false
  checksumWarned : Bool := false
  deriving Repr, DecidableEq

/-- `GB_CartridgeLoad` (rom.c lines 130-688) reduced to its load-relevant
control flow over the header bytes and the file size.  Title parsing, the
licensee and destination prints, hardware-mode selection (always valid under
the auto configuration), boot-ROM probing, the global checksum and the
Nintendo-logo comparison only produce diagnostics in the source and are
omitted here; none of those paths returns from the function. -/
def GB_CartridgeLoad (rom : Nat → Nat) (rom_size : Nat) : CartLoadResult :=
  match gbCartType (rom 0x147 % 256) with
  | none => {}
  | some (mc, bat, timer) =>
    match gbRamBanks (rom 0x149 % 256) with
    | none => {}
    | some ram0 =>
      let ram := if mc = .MBC2 then 1
                 else if mc = .MBC7 then 1
                 else if mc = .CAMERA ∧ ram0 < 1 then 1
                 else ram0
      match gbRomBanks (rom 0x148 % 256) with
      | none => {}
      | some banks =>
        if rom_size < banks * 16 * 1024 then
          { hasBattery := bat, hasTimer := timer, ramBanks := ram,
            romBanks := banks, sizeWarned := true }
        else
          { ok := true, hasBattery := bat, hasTimer := timer, ramBanks := ram,
            romBanks := banks,
            sizeWarned := rom_size != banks * 16 * 1024,
            checksumWarned := rom 0x14D % 256 != gbHeaderChecksum rom }

/-- Pointwise update of one ROM byte (for stating that a byte does not
influence an outcome). -/
def updByte (rom : Nat → Nat) (addr v : Nat) : Nat → Nat :=
  fun x => if x = addr then v else rom x

/-! ### RTC save reload (rom.c) -/

/-- One RTC register view (`_EMULATOR_TIMER_`): seconds, minutes, hours, the
9-bit day counter, the halt flag and the day-carry flag. -/
structure RTCRegs where
  sec : Nat
  min : Nat
  hour : Nat
  days : Nat
  halt : Nat
  carry : Nat
  deriving Repr, DecidableEq

/-- The decoded fields of the 40-byte RTC block of a save file as read by
`GB_RTC_Load` (rom.c lines 825-869): five little-endian u32 words for the
live view, five for the latched view, then the two timestamp words. -/
structure RTCFile where
  sec : Nat
  min : Nat
  hour : Nat
  daysLow : Nat
  daysHi : Nat
  lsec : Nat
  lmin : Nat
  lhour : Nat
  ldaysLow : Nat
  ldaysHi : Nat
  timestampLow : Nat
  timestampHi : Nat
  deriving Repr, DecidableEq

/-- Decoding of one five-word view (rom.c lines 825-839): the day counter is
rebuilt from `days_low` and bit 0 of `days_hi`; halt and carry come from
bits 6 and 7 of `days_hi`. -/
def rtcDecode (sec mn hour daysLow daysHi : Nat) : RTCRegs :=
  { sec := sec % 0x100000000, min := mn % 0x100000000,
    hour := hour % 0x100000000,
    days := (daysLow &&& 0xFF) ||| ((daysHi &&& 0x01) <<< 8),
    halt := (daysHi &&& (1 <<< 6)) >>> 6,
    carry := (daysHi &&& (1 <<< 7)) >>> 7 }

/-- The elapsed-time advance of `GB_RTC_Load` (rom.c lines 880-908), applied
to the live view when the halt flag is clear.  The fields are C `int`s; they
are modelled as unbounded naturals.  The source's `while (days > 511)` loop
runs at most once because `days & 511 ≤ 511`, so it is written as a
conditional. -/
def rtcAdvance (t : RTCRegs) (delta : Nat) : RTCRegs :=
  let sec := t.sec + delta % 60
  let p := if 59 < sec then (sec - 60, delta + 60) else (sec, delta)
  let sec := p.1
  let delta := p.2
  let mn := t.min + delta / 60 % 60
  let p := if 59 < mn then (mn - 60, delta + 3600) else (mn, delta)
  let mn := p.1
  let delta := p.2
  let hour := t.hour + delta / 3600 % 24
  let p := if 23 < hour then (hour - 24, delta + 3600 * 24) else (hour, delta)
  let hour := p.1
  let delta := p.2
  let days := t.days + delta / (3600 * 24)
  let q := if 511 < days then (days &&& 511, 1) else (days, t.carry)
  { t with sec := sec, min := mn, hour := hour, days := q.1, carry := q.2 }

/-- `GB_RTC_Load` (rom.c lines 810-911) on a successfully read RTC block:
decode both views; if the live halt flag is set, return immediately;
otherwise advance the live view by `current_time - old_time`, a u64
subtraction.  Returns the pair (live `Timer`, `LatchedTime`). -/
def GB_RTC_Load (fdata : RTCFile) (current_time : Nat) : RTCRegs × RTCRegs :=
  let timer := rtcDecode fdata.sec fdata.min fdata.hour fdata.daysLow
      fdata.daysHi
  let latched := rtcDecode fdata.lsec fdata.lmin fdata.lhour fdata.ldaysLow
      fdata.ldaysHi
  let oldTime := (fdata.timestampLow % 0x100000000)
                 ||| ((fdata.timestampHi % 0x100000000) <<< 32)
  if timer.halt = 1 then (timer, latched)
  else
    let delta := (current_time % 0x10000000000000000 + 0x10000000000000000
                  - oldTime) % 0x10000000000000000
    (rtcAdvance timer delta, latched)


/-- An all-zero ROM image: every header byte is 0 (cartridge type 0 = no
controller, ROM size code 0 = 2 banks, RAM size code 0 = none). -/
def romZero : Nat → Nat := fun _ => 0

/-- An RTC save block holding time (0,0,0,0), halt=0, carry=0 in both views
and timestamp 0. -/
def rtcFileT0 : RTCFile :=
  { sec := 0, min := 0, hour := 0, daysLow := 0, daysHi := 0,
    lsec := 0, lmin := 0, lhour := 0, ldaysLow := 0, ldaysHi := 0,
    timestampLow := 0, timestampHi := 0 }

/-- An RTC save block whose live day counter is 511 (days_low 0xFF and day
bit 8 set). -/
def rtcFileD511 : RTCFile :=
  { rtcFileT0 with daysLow := 0xFF, daysHi := 0x01 }

/-- An RTC save block with the live halt flag (bit 6 of days_hi) set and
nonzero live time fields. -/
def rtcFileHalt : RTCFile :=
  { rtcFileT0 with sec := 5, min := 6, hour := 7, daysHi := 0x40 }

/-! ## Generic arithmetic lemmas -/

theorem mod256_mod16 (x : Nat) : x % 256 % 16 = x % 16 :=
  Nat.mod_mod_of_dvd x (by norm_num)

theorem land_mod16 (a b : Nat) : (a &&& b) % 16 = (a % 16) &&& (b % 16) := by
  apply Nat.eq_of_testBit_eq
  intro i
  rw [show (16 : Nat) = 2 ^ 4 from rfl]
  simp only [Nat.testBit_mod_two_pow, Nat.testBit_land]
  by_cases h : i < 4 <;> simp [h]

theorem lor_mod16 (a b : Nat) : (a ||| b) % 16 = (a % 16) ||| (b % 16) := by
  apply Nat.eq_of_testBit_eq
  intro i
  rw [show (16 : Nat) = 2 ^ 4 from rfl]
  simp only [Nat.testBit_mod_two_pow, Nat.testBit_lor]
  by_cases h : i < 4 <;> simp [h]

theorem lor_mod2 (a b : Nat) : (a ||| b) % 2 = (a % 2) ||| (b % 2) := by
  apply Nat.eq_of_testBit_eq
  intro i
  rw [show (2 : Nat) = 2 ^ 1 from rfl]
  simp only [Nat.testBit_mod_two_pow, Nat.testBit_lor]
  by_cases h : i < 1 <;> simp [h]

theorem ite_mod16 (c : Prop) [Decidable c] (a b : Nat) :
    (if c then a else b) % 16 = if c then a % 16 else b % 16 :=
  apply_ite (· % 16) c a b

theorem ite_cpu_f (c : Prop) [Decidable c] (s1 s2 : GBState) :
    ((if c then s1 else s2)).cpu.f = if c then s1.cpu.f else s2.cpu.f :=
  apply_ite (fun t => t.cpu.f) c s1 s2

theorem land15_mod16 (x : Nat) : x % 16 &&& 15 = x % 16 := by
  rw [show (15 : Nat) = 2 ^ 4 - 1 from rfl, Nat.and_pow_two_sub_one_eq_mod]
  simp

theorem shl_mod2 (x k : Nat) : (x <<< (k + 1)) % 2 = 0 := by
  rw [Nat.shiftLeft_eq]
  simp [Nat.pow_succ, ← Nat.mul_assoc]

/-! ## The F-low-nibble invariant, per flag writer -/

theorem setZ_mod16 (f : Nat) (b : Bool) : setZ f b % 16 = f % 16 := by
  unfold setZ
  rcases b with _ | _
  · simp [land_mod16, land15_mod16]
  · simp [lor_mod16]

theorem setN_mod16 (f : Nat) (b : Bool) : setN f b % 16 = f % 16 := by
  unfold setN
  rcases b with _ | _
  · simp [land_mod16, land15_mod16]
  · simp [lor_mod16]

theorem setH_mod16 (f : Nat) (b : Bool) : setH f b % 16 = f % 16 := by
  unfold setH
  rcases b with _ | _
  · simp [land_mod16, land15_mod16]
  · simp [lor_mod16]

theorem setC_mod16 (f : Nat) (b : Bool) : setC f b % 16 = f % 16 := by
  unfold setC
  rcases b with _ | _
  · simp [land_mod16, land15_mod16]
  · simp [lor_mod16]

theorem shlor_even (a x : Nat) : ((a <<< 4) ||| (x <<< 1)) % 2 = 0 := by
  rw [lor_mod2]
  rw [show (4 : Nat) = 3 + 1 from rfl, show (1 : Nat) = 0 + 1 from rfl]
  rw [shl_mod2, shl_mod2]
  rfl

/-- The flag bytes of the DAA table (odd indices) have a zero low nibble:
they are built from the Z, N and C bits only. -/
theorem daa_f16 (i : Nat) (h : i % 2 = 0) : gb_daa_table (i + 1) % 16 = 0 := by
  have h2 : (i + 1) % 2 = 1 := by omega
  simp only [gb_daa_table]
  rw [if_pos h2]
  rw [lor_mod16, lor_mod16, ite_mod16]
  simp only [F_ZERO, F_SUBTRACT, F_CARRY]
  have e1 : (i + 1) / 8 % 2 * 64 % 16 = 0 := by omega
  have e2 : forall z : Nat, z * 16 % 16 = 0 := fun z => Nat.mul_mod_left z 16
  simp [ite_mod16, e1, e2]

/-! ### Projections of F through the state combinators

These let the row proofs track only the F register through an opcode body
instead of normalising the whole state record. -/

theorem memWrite_f (s : GBState) (a v : Nat) : (memWrite s a v).cpu.f = s.cpu.f := rfl

theorem addClocks_f (n : Nat) (s : GBState) : (addClocks n s).cpu.f = s.cpu.f := rfl

theorem pcInc_f (s : GBState) : (pcInc s).cpu.f = s.cpu.f := rfl

theorem setPC_f (s : GBState) (v : Nat) : (setPC s v).cpu.f = s.cpu.f := rfl

theorem setSP_f (s : GBState) (v : Nat) : (setSP s v).cpu.f = s.cpu.f := rfl

theorem setF_f (s : GBState) (v : Nat) : (setF s v).cpu.f = v % 256 := rfl

theorem set16_f (s : GBState) (r : Reg16) (v : Nat) :
    (s.set16 r v).cpu.f = s.cpu.f := by
  cases r <;> rfl

theorem set8A_f (s : GBState) (v : Nat) : (s.set8 .RA v).cpu.f = s.cpu.f := rfl

theorem set8B_f (s : GBState) (v : Nat) : (s.set8 .RB v).cpu.f = s.cpu.f := rfl

theorem set8C_f (s : GBState) (v : Nat) : (s.set8 .RC v).cpu.f = s.cpu.f := rfl

theorem set8D_f (s : GBState) (v : Nat) : (s.set8 .RD v).cpu.f = s.cpu.f := rfl

theorem set8E_f (s : GBState) (v : Nat) : (s.set8 .RE v).cpu.f = s.cpu.f := rfl

theorem set8H_f (s : GBState) (v : Nat) : (s.set8 .RH v).cpu.f = s.cpu.f := rfl

theorem set8L_f (s : GBState) (v : Nat) : (s.set8 .RL v).cpu.f = s.cpu.f := rfl

theorem set8F_f (s : GBState) (v : Nat) : (s.set8 .RF v).cpu.f = v % 256 := rfl

theorem fAnd_f (s : GBState) (m : Nat) :
    (fAnd s m).cpu.f = (s.cpu.f &&& (0xFF - m)) % 256 := rfl

theorem fOr_f (s : GBState) (m : Nat) :
    (fOr s m).cpu.f = (s.cpu.f ||| m) % 256 := rfl

theorem fUpd_f (s : GBState) (g : Nat → Nat) :
    (fUpd s g).cpu.f = g s.cpu.f % 256 := rfl

theorem gb_rst_f (a : Nat) (s : GBState) : (gb_rst_nnnn a s).cpu.f = s.cpu.f := by
  simp only [gb_rst_nnnn, memWrite_f, addClocks_f, setSP_f, setPC_f]

theorem gb_push_f (hi lo : Reg8) (s : GBState) :
    (gb_push_r16 hi lo s).cpu.f = s.cpu.f := by
  simp only [gb_push_r16, memWrite_f, addClocks_f, setSP_f]

theorem gb_popBC_f (s : GBState) : (gb_pop_r16 .RB .RC s).cpu.f = s.cpu.f := by
  simp only [gb_pop_r16, addClocks_f, setSP_f, set8B_f, set8C_f]

theorem gb_popDE_f (s : GBState) : (gb_pop_r16 .RD .RE s).cpu.f = s.cpu.f := by
  simp only [gb_pop_r16, addClocks_f, setSP_f, set8D_f, set8E_f]

theorem gb_popHL_f (s : GBState) : (gb_pop_r16 .RH .RL s).cpu.f = s.cpu.f := by
  simp only [gb_pop_r16, addClocks_f, setSP_f, set8H_f, set8L_f]

theorem gb_call_cond_f (c : Bool) (s : GBState) :
    (gb_call_cond_nnnn c s).cpu.f = s.cpu.f := by
  cases c <;>
    simp [gb_call_cond_nnnn, memWrite_f, addClocks_f, pcInc_f, setPC_f, setSP_f]

theorem gb_ret_cond_f (c : Bool) (s : GBState) :
    (gb_ret_cond c s).cpu.f = s.cpu.f := by
  cases c <;>
    simp [gb_ret_cond, addClocks_f, setPC_f, setSP_f]

theorem gb_jp_cond_f (c : Bool) (s : GBState) :
    (gb_jp_cond_nnnn c s).cpu.f = s.cpu.f := by
  cases c <;>
    simp [gb_jp_cond_nnnn, addClocks_f, pcInc_f, setPC_f]

theorem gb_jr_cond_f (c : Bool) (s : GBState) :
    (gb_jr_cond_nn c s).cpu.f = s.cpu.f := by
  cases c <;>
    simp [gb_jr_cond_nn, addClocks_f, pcInc_f, setPC_f]

theorem gb_undefined_f (s : GBState) :
    (gb_undefined_opcode s).cpu.f = s.cpu.f := by
  simp only [gb_undefined_opcode, addClocks_f, setPC_f]

/-! ## The F-low-nibble invariant, per opcode row -/

set_option maxHeartbeats 1000000 in
theorem gbExecCBrow0_f16 (lo : Nat) (s : GBState) (hs : s.cpu.f % 16 = 0) :
    (gbExecCBrow0 lo s).cpu.f % 16 = 0 := by
  unfold gbExecCBrow0
  split
  all_goals
    simp only [gb_ld_r16_nnnn, gb_ld_r8_nn, gb_ld_ptr_r16_r8, gb_ld_r8_ptr_r16,
      gb_inc_r16, gb_dec_r16, gb_inc_r8, gb_dec_r8, gb_add_hl_r16, gb_add_a_r8,
      gb_adc_a_r8, gb_sub_a_r8, gb_sbc_a_r8, gb_and_a_r8, gb_xor_a_r8,
      gb_or_a_r8, gb_cp_a_r8, gb_rst_nnnn, gb_push_r16, gb_pop_r16,
      gb_call_cond_nnnn, gb_ret_cond, gb_jp_cond_nnnn, gb_jr_cond_nn,
      gb_rlc_r8, gb_rrc_r8, gb_rl_r8, gb_rr_r8, gb_sla_r8, gb_sra_r8,
      gb_swap_r8, gb_srl_r8, gb_bit_n_r8, gb_bit_n_ptr_hl, gb_res_n_r8,
      gb_res_n_ptr_hl, gb_set_n_r8, gb_set_n_ptr_hl, gb_undefined_opcode,
      addClocks, memWrite, memRead, pcInc, setPC, setSP, setF, fAnd, fOr, fUpd,
      GBState.set8, GBState.get8, GBState.set16, GBState.get16]
  all_goals
    first
    | simp [mod256_mod16, setZ_mod16, setN_mod16, setH_mod16, setC_mod16,
        lor_mod16, land_mod16, land15_mod16, ite_mod16, ite_cpu_f, daa_f16,
        shlor_even, F_ZERO, F_SUBTRACT, F_HALFCARRY, F_CARRY, hs]

set_option maxHeartbeats 1000000 in
theorem gbExecCBrow1_f16 (lo : Nat) (s : GBState) (hs : s.cpu.f % 16 = 0) :
    (gbExecCBrow1 lo s).cpu.f % 16 = 0 := by
  unfold gbExecCBrow1
  split
  all_goals
    simp only [gb_ld_r16_nnnn, gb_ld_r8_nn, gb_ld_ptr_r16_r8, gb_ld_r8_ptr_r16,
      gb_inc_r16, gb_dec_r16, gb_inc_r8, gb_dec_r8, gb_add_hl_r16, gb_add_a_r8,
      gb_adc_a_r8, gb_sub_a_r8, gb_sbc_a_r8, gb_and_a_r8, gb_xor_a_r8,
      gb_or_a_r8, gb_cp_a_r8, gb_rst_nnnn, gb_push_r16, gb_pop_r16,
      gb_call_cond_nnnn, gb_ret_cond, gb_jp_cond_nnnn, gb_jr_cond_nn,
      gb_rlc_r8, gb_rrc_r8, gb_rl_r8, gb_rr_r8, gb_sla_r8, gb_sra_r8,
      gb_swap_r8, gb_srl_r8, gb_bit_n_r8, gb_bit_n_ptr_hl, gb_res_n_r8,
      gb_res_n_ptr_hl, gb_set_n_r8, gb_set_n_ptr_hl, gb_undefined_opcode,
      addClocks, memWrite, memRead, pcInc, setPC, setSP, setF, fAnd, fOr, fUpd,
      GBState.set8, GBState.get8, GBState.set16, GBState.get16]
  all_goals
    first
    | simp [mod256_mod16, setZ_mod16, setN_mod16, setH_mod16, setC_mod16,
        lor_mod16, land_mod16, land15_mod16, ite_mod16, ite_cpu_f, daa_f16,
        shlor_even, F_ZERO, F_SUBTRACT, F_HALFCARRY, F_CARRY, hs]

set_option maxHeartbeats 1000000 in
theorem gbExecCBrow2_f16 (lo : Nat) (s : GBState) (hs : s.cpu.f % 16 = 0) :
    (gbExecCBrow2 lo s).cpu.f % 16 = 0 := by
  unfold gbExecCBrow2
  split
  all_goals
    simp only [gb_ld_r16_nnnn, gb_ld_r8_nn, gb_ld_ptr_r16_r8, gb_ld_r8_ptr_r16,
      gb_inc_r16, gb_dec_r16, gb_inc_r8, gb_dec_r8, gb_add_hl_r16, gb_add_a_r8,
      gb_adc_a_r8, gb_sub_a_r8, gb_sbc_a_r8, gb_and_a_r8, gb_xor_a_r8,
      gb_or_a_r8, gb_cp_a_r8, gb_rst_nnnn, gb_push_r16, gb_pop_r16,
      gb_call_cond_nnnn, gb_ret_cond, gb_jp_cond_nnnn, gb_jr_cond_nn,
      gb_rlc_r8, gb_rrc_r8, gb_rl_r8, gb_rr_r8, gb_sla_r8, gb_sra_r8,
      gb_swap_r8, gb_srl_r8, gb_bit_n_r8, gb_bit_n_ptr_hl, gb_res_n_r8,
      gb_res_n_ptr_hl, gb_set_n_r8, gb_set_n_ptr_hl, gb_undefined_opcode,
      addClocks, memWrite, memRead, pcInc, setPC, setSP, setF, fAnd, fOr, fUpd,
      GBState.set8, GBState.get8, GBState.set16, GBState.get16]
  all_goals
    first
    | simp [mod256_mod16, setZ_mod16, setN_mod16, setH_mod16, setC_mod16,
        lor_mod16, land_mod16, land15_mod16, ite_mod16, ite_cpu_f, daa_f16,
        shlor_even, F_ZERO, F_SUBTRACT, F_HALFCARRY, F_CARRY, hs]

set_option maxHeartbeats 1000000 in
theorem gbExecCBrow3_f16 (lo : Nat) (s : GBState) (hs : s.cpu.f % 16 = 0) :
    (gbExecCBrow3 lo s).cpu.f % 16 = 0 := by
  unfold gbExecCBrow3
  split
  all_goals
    simp only [gb_ld_r16_nnnn, gb_ld_r8_nn, gb_ld_ptr_r16_r8, gb_ld_r8_ptr_r16,
      gb_inc_r16, gb_dec_r16, gb_inc_r8, gb_dec_r8, gb_add_hl_r16, gb_add_a_r8,
      gb_adc_a_r8, gb_sub_a_r8, gb_sbc_a_r8, gb_and_a_r8, gb_xor_a_r8,
      gb_or_a_r8, gb_cp_a_r8, gb_rst_nnnn, gb_push_r16, gb_pop_r16,
      gb_call_cond_nnnn, gb_ret_cond, gb_jp_cond_nnnn, gb_jr_cond_nn,
      gb_rlc_r8, gb_rrc_r8, gb_rl_r8, gb_rr_r8, gb_sla_r8, gb_sra_r8,
      gb_swap_r8, gb_srl_r8, gb_bit_n_r8, gb_bit_n_ptr_hl, gb_res_n_r8,
      gb_res_n_ptr_hl, gb_set_n_r8, gb_set_n_ptr_hl, gb_undefined_opcode,
      addClocks, memWrite, memRead, pcInc, setPC, setSP, setF, fAnd, fOr, fUpd,
      GBState.set8, GBState.get8, GBState.set16, GBState.get16]
  all_goals
    first
    | simp [mod256_mod16, setZ_mod16, setN_mod16, setH_mod16, setC_mod16,
        lor_mod16, land_mod16, land15_mod16, ite_mod16, ite_cpu_f, daa_f16,
        shlor_even, F_ZERO, F_SUBTRACT, F_HALFCARRY, F_CARRY, hs]

set_option maxHeartbeats 1000000 in
theorem gbExecCBrow4_f16 (lo : Nat) (s : GBState) (hs : s.cpu.f % 16 = 0) :
    (gbExecCBrow4 lo s).cpu.f % 16 = 0 := by
  unfold gbExecCBrow4
  split
  all_goals
    simp only [gb_ld_r16_nnnn, gb_ld_r8_nn, gb_ld_ptr_r16_r8, gb_ld_r8_ptr_r16,
      gb_inc_r16, gb_dec_r16, gb_inc_r8, gb_dec_r8, gb_add_hl_r16, gb_add_a_r8,
      gb_adc_a_r8, gb_sub_a_r8, gb_sbc_a_r8, gb_and_a_r8, gb_xor_a_r8,
      gb_or_a_r8, gb_cp_a_r8, gb_rst_nnnn, gb_push_r16, gb_pop_r16,
      gb_call_cond_nnnn, gb_ret_cond, gb_jp_cond_nnnn, gb_jr_cond_nn,
      gb_rlc_r8, gb_rrc_r8, gb_rl_r8, gb_rr_r8, gb_sla_r8, gb_sra_r8,
      gb_swap_r8, gb_srl_r8, gb_bit_n_r8, gb_bit_n_ptr_hl, gb_res_n_r8,
      gb_res_n_ptr_hl, gb_set_n_r8, gb_set_n_ptr_hl, gb_undefined_opcode,
      addClocks, memWrite, memRead, pcInc, setPC, setSP, setF, fAnd, fOr, fUpd,
      GBState.set8, GBState.get8, GBState.set16, GBState.get16]
  all_goals
    first
    | simp [mod256_mod16, setZ_mod16, setN_mod16, setH_mod16, setC_mod16,
        lor_mod16, land_mod16, land15_mod16, ite_mod16, ite_cpu_f, daa_f16,
        shlor_even, F_ZERO, F_SUBTRACT, F_HALFCARRY, F_CARRY, hs]

set_option maxHeartbeats 1000000 in
theorem gbExecCBrow5_f16 (lo : Nat) (s : GBState) (hs : s.cpu.f % 16 = 0) :
    (gbExecCBrow5 lo s).cpu.f % 16 = 0 := by
  unfold gbExecCBrow5
  split
  all_goals
    simp only [gb_ld_r16_nnnn, gb_ld_r8_nn, gb_ld_ptr_r16_r8, gb_ld_r8_ptr_r16,
      gb_inc_r16, gb_dec_r16, gb_inc_r8, gb_dec_r8, gb_add_hl_r16, gb_add_a_r8,
      gb_adc_a_r8, gb_sub_a_r8, gb_sbc_a_r8, gb_and_a_r8, gb_xor_a_r8,
      gb_or_a_r8, gb_cp_a_r8, gb_rst_nnnn, gb_push_r16, gb_pop_r16,
      gb_call_cond_nnnn, gb_ret_cond, gb_jp_cond_nnnn, gb_jr_cond_nn,
      gb_rlc_r8, gb_rrc_r8, gb_rl_r8, gb_rr_r8, gb_sla_r8, gb_sra_r8,
      gb_swap_r8, gb_srl_r8, gb_bit_n_r8, gb_bit_n_ptr_hl, gb_res_n_r8,
      gb_res_n_ptr_hl, gb_set_n_r8, gb_set_n_ptr_hl, gb_undefined_opcode,
      addClocks, memWrite, memRead, pcInc, setPC, setSP, setF, fAnd, fOr, fUpd,
      GBState.set8, GBState.get8, GBState.set16, GBState.get16]
  all_goals
    first
    | simp [mod256_mod16, setZ_mod16, setN_mod16, setH_mod16, setC_mod16,
        lor_mod16, land_mod16, land15_mod16, ite_mod16, ite_cpu_f, daa_f16,
        shlor_even, F_ZERO, F_SUBTRACT, F_HALFCARRY, F_CARRY, hs]

set_option maxHeartbeats 1000000 in
theorem gbExecCBrow6_f16 (lo : Nat) (s : GBState) (hs : s.cpu.f % 16 = 0) :
    (gbExecCBrow6 lo s).cpu.f % 16 = 0 := by
  unfold gbExecCBrow6
  split
  all_goals
    simp only [gb_ld_r16_nnnn, gb_ld_r8_nn, gb_ld_ptr_r16_r8, gb_ld_r8_ptr_r16,
      gb_inc_r16, gb_dec_r16, gb_inc_r8, gb_dec_r8, gb_add_hl_r16, gb_add_a_r8,
      gb_adc_a_r8, gb_sub_a_r8, gb_sbc_a_r8, gb_and_a_r8, gb_xor_a_r8,
      gb_or_a_r8, gb_cp_a_r8, gb_rst_nnnn, gb_push_r16, gb_pop_r16,
      gb_call_cond_nnnn, gb_ret_cond, gb_jp_cond_nnnn, gb_jr_cond_nn,
      gb_rlc_r8, gb_rrc_r8, gb_rl_r8, gb_rr_r8, gb_sla_r8, gb_sra_r8,
      gb_swap_r8, gb_srl_r8, gb_bit_n_r8, gb_bit_n_ptr_hl, gb_res_n_r8,
      gb_res_n_ptr_hl, gb_set_n_r8, gb_set_n_ptr_hl, gb_undefined_opcode,
      addClocks, memWrite, memRead, pcInc, setPC, setSP, setF, fAnd, fOr, fUpd,
      GBState.set8, GBState.get8, GBState.set16, GBState.get16]
  all_goals
    first
    | simp [mod256_mod16, setZ_mod16, setN_mod16, setH_mod16, setC_mod16,
        lor_mod16, land_mod16, land15_mod16, ite_mod16, ite_cpu_f, daa_f16,
        shlor_even, F_ZERO, F_SUBTRACT, F_HALFCARRY, F_CARRY, hs]

set_option maxHeartbeats 1000000 in
theorem gbExecCBrow7_f16 (lo : Nat) (s : GBState) (hs : s.cpu.f % 16 = 0) :
    (gbExecCBrow7 lo s).cpu.f % 16 = 0 := by
  unfold gbExecCBrow7
  split
  all_goals
    simp only [gb_ld_r16_nnnn, gb_ld_r8_nn, gb_ld_ptr_r16_r8, gb_ld_r8_ptr_r16,
      gb_inc_r16, gb_dec_r16, gb_inc_r8, gb_dec_r8, gb_add_hl_r16, gb_add_a_r8,
      gb_adc_a_r8, gb_sub_a_r8, gb_sbc_a_r8, gb_and_a_r8, gb_xor_a_r8,
      gb_or_a_r8, gb_cp_a_r8, gb_rst_nnnn, gb_push_r16, gb_pop_r16,
      gb_call_cond_nnnn, gb_ret_cond, gb_jp_cond_nnnn, gb_jr_cond_nn,
      gb_rlc_r8, gb_rrc_r8, gb_rl_r8, gb_rr_r8, gb_sla_r8, gb_sra_r8,
      gb_swap_r8, gb_srl_r8, gb_bit_n_r8, gb_bit_n_ptr_hl, gb_res_n_r8,
      gb_res_n_ptr_hl, gb_set_n_r8, gb_set_n_ptr_hl, gb_undefined_opcode,
      addClocks, memWrite, memRead, pcInc, setPC, setSP, setF, fAnd, fOr, fUpd,
      GBState.set8, GBState.get8, GBState.set16, GBState.get16]
  all_goals
    first
    | simp [mod256_mod16, setZ_mod16, setN_mod16, setH_mod16, setC_mod16,
        lor_mod16, land_mod16, land15_mod16, ite_mod16, ite_cpu_f, daa_f16,
        shlor_even, F_ZERO, F_SUBTRACT, F_HALFCARRY, F_CARRY, hs]

set_option maxHeartbeats 1000000 in
theorem gbExecCBrow8_f16 (lo : Nat) (s : GBState) (hs : s.cpu.f % 16 = 0) :
    (gbExecCBrow8 lo s).cpu.f % 16 = 0 := by
  unfold gbExecCBrow8
  split
  all_goals
    simp only [gb_ld_r16_nnnn, gb_ld_r8_nn, gb_ld_ptr_r16_r8, gb_ld_r8_ptr_r16,
      gb_inc_r16, gb_dec_r16, gb_inc_r8, gb_dec_r8, gb_add_hl_r16, gb_add_a_r8,
      gb_adc_a_r8, gb_sub_a_r8, gb_sbc_a_r8, gb_and_a_r8, gb_xor_a_r8,
      gb_or_a_r8, gb_cp_a_r8, gb_rst_nnnn, gb_push_r16, gb_pop_r16,
      gb_call_cond_nnnn, gb_ret_cond, gb_jp_cond_nnnn, gb_jr_cond_nn,
      gb_rlc_r8, gb_rrc_r8, gb_rl_r8, gb_rr_r8, gb_sla_r8, gb_sra_r8,
      gb_swap_r8, gb_srl_r8, gb_bit_n_r8, gb_bit_n_ptr_hl, gb_res_n_r8,
      gb_res_n_ptr_hl, gb_set_n_r8, gb_set_n_ptr_hl, gb_undefined_opcode,
      addClocks, memWrite, memRead, pcInc, setPC, setSP, setF, fAnd, fOr, fUpd,
      GBState.set8, GBState.get8, GBState.set16, GBState.get16]
  all_goals
    first
    | simp [mod256_mod16, setZ_mod16, setN_mod16, setH_mod16, setC_mod16,
        lor_mod16, land_mod16, land15_mod16, ite_mod16, ite_cpu_f, daa_f16,
        shlor_even, F_ZERO, F_SUBTRACT, F_HALFCARRY, F_CARRY, hs]

set_option maxHeartbeats 1000000 in
theorem gbExecCBrow9_f16 (lo : Nat) (s : GBState) (hs : s.cpu.f % 16 = 0) :
    (gbExecCBrow9 lo s).cpu.f % 16 = 0 := by
  unfold gbExecCBrow9
  split
  all_goals
    simp only [gb_ld_r16_nnnn, gb_ld_r8_nn, gb_ld_ptr_r16_r8, gb_ld_r8_ptr_r16,
      gb_inc_r16, gb_dec_r16, gb_inc_r8, gb_dec_r8, gb_add_hl_r16, gb_add_a_r8,
      gb_adc_a_r8, gb_sub_a_r8, gb_sbc_a_r8, gb_and_a_r8, gb_xor_a_r8,
      gb_or_a_r8, gb_cp_a_r8, gb_rst_nnnn, gb_push_r16, gb_pop_r16,
      gb_call_cond_nnnn, gb_ret_cond, gb_jp_cond_nnnn, gb_jr_cond_nn,
      gb_rlc_r8, gb_rrc_r8, gb_rl_r8, gb_rr_r8, gb_sla_r8, gb_sra_r8,
      gb_swap_r8, gb_srl_r8, gb_bit_n_r8, gb_bit_n_ptr_hl, gb_res_n_r8,
      gb_res_n_ptr_hl, gb_set_n_r8, gb_set_n_ptr_hl, gb_undefined_opcode,
      addClocks, memWrite, memRead, pcInc, setPC, setSP, setF, fAnd, fOr, fUpd,
      GBState.set8, GBState.get8, GBState.set16, GBState.get16]
  all_goals
    first
    | simp [mod256_mod16, setZ_mod16, setN_mod16, setH_mod16, setC_mod16,
        lor_mod16, land_mod16, land15_mod16, ite_mod16, ite_cpu_f, daa_f16,
        shlor_even, F_ZERO, F_SUBTRACT, F_HALFCARRY, F_CARRY, hs]

set_option maxHeartbeats 1000000 in
theorem gbExecCBrow10_f16 (lo : Nat) (s : GBState) (hs : s.cpu.f % 16 = 0) :
    (gbExecCBrow10 lo s).cpu.f % 16 = 0 := by
  unfold gbExecCBrow10
  split
  all_goals
    simp only [gb_ld_r16_nnnn, gb_ld_r8_nn, gb_ld_ptr_r16_r8, gb_ld_r8_ptr_r16,
      gb_inc_r16, gb_dec_r16, gb_inc_r8, gb_dec_r8, gb_add_hl_r16, gb_add_a_r8,
      gb_adc_a_r8, gb_sub_a_r8, gb_sbc_a_r8, gb_and_a_r8, gb_xor_a_r8,
      gb_or_a_r8, gb_cp_a_r8, gb_rst_nnnn, gb_push_r16, gb_pop_r16,
      gb_call_cond_nnnn, gb_ret_cond, gb_jp_cond_nnnn, gb_jr_cond_nn,
      gb_rlc_r8, gb_rrc_r8, gb_rl_r8, gb_rr_r8, gb_sla_r8, gb_sra_r8,
      gb_swap_r8, gb_srl_r8, gb_bit_n_r8, gb_bit_n_ptr_hl, gb_res_n_r8,
      gb_res_n_ptr_hl, gb_set_n_r8, gb_set_n_ptr_hl, gb_undefined_opcode,
      addClocks, memWrite, memRead, pcInc, setPC, setSP, setF, fAnd, fOr, fUpd,
      GBState.set8, GBState.get8, GBState.set16, GBState.get16]
  all_goals
    first
    | simp [mod256_mod16, setZ_mod16, setN_mod16, setH_mod16, setC_mod16,
        lor_mod16, land_mod16, land15_mod16, ite_mod16, ite_cpu_f, daa_f16,
        shlor_even, F_ZERO, F_SUBTRACT, F_HALFCARRY, F_CARRY, hs]

set_option maxHeartbeats 1000000 in
theorem gbExecCBrow11_f16 (lo : Nat) (s : GBState) (hs : s.cpu.f % 16 = 0) :
    (gbExecCBrow11 lo s).cpu.f % 16 = 0 := by
  unfold gbExecCBrow11
  split
  all_goals
    simp only [gb_ld_r16_nnnn, gb_ld_r8_nn, gb_ld_ptr_r16_r8, gb_ld_r8_ptr_r16,
      gb_inc_r16, gb_dec_r16, gb_inc_r8, gb_dec_r8, gb_add_hl_r16, gb_add_a_r8,
      gb_adc_a_r8, gb_sub_a_r8, gb_sbc_a_r8, gb_and_a_r8, gb_xor_a_r8,
      gb_or_a_r8, gb_cp_a_r8, gb_rst_nnnn, gb_push_r16, gb_pop_r16,
      gb_call_cond_nnnn, gb_ret_cond, gb_jp_cond_nnnn, gb_jr_cond_nn,
      gb_rlc_r8, gb_rrc_r8, gb_rl_r8, gb_rr_r8, gb_sla_r8, gb_sra_r8,
      gb_swap_r8, gb_srl_r8, gb_bit_n_r8, gb_bit_n_ptr_hl, gb_res_n_r8,
      gb_res_n_ptr_hl, gb_set_n_r8, gb_set_n_ptr_hl, gb_undefined_opcode,
      addClocks, memWrite, memRead, pcInc, setPC, setSP, setF, fAnd, fOr, fUpd,
      GBState.set8, GBState.get8, GBState.set16, GBState.get16]
  all_goals
    first
    | simp [mod256_mod16, setZ_mod16, setN_mod16, setH_mod16, setC_mod16,
        lor_mod16, land_mod16, land15_mod16, ite_mod16, ite_cpu_f, daa_f16,
        shlor_even, F_ZERO, F_SUBTRACT, F_HALFCARRY, F_CARRY, hs]

set_option maxHeartbeats 1000000 in
theorem gbExecCBrow12_f16 (lo : Nat) (s : GBState) (hs : s.cpu.f % 16 = 0) :
    (gbExecCBrow12 lo s).cpu.f % 16 = 0 := by
  unfold gbExecCBrow12
  split
  all_goals
    simp only [gb_ld_r16_nnnn, gb_ld_r8_nn, gb_ld_ptr_r16_r8, gb_ld_r8_ptr_r16,
      gb_inc_r16, gb_dec_r16, gb_inc_r8, gb_dec_r8, gb_add_hl_r16, gb_add_a_r8,
      gb_adc_a_r8, gb_sub_a_r8, gb_sbc_a_r8, gb_and_a_r8, gb_xor_a_r8,
      gb_or_a_r8, gb_cp_a_r8, gb_rst_nnnn, gb_push_r16, gb_pop_r16,
      gb_call_cond_nnnn, gb_ret_cond, gb_jp_cond_nnnn, gb_jr_cond_nn,
      gb_rlc_r8, gb_rrc_r8, gb_rl_r8, gb_rr_r8, gb_sla_r8, gb_sra_r8,
      gb_swap_r8, gb_srl_r8, gb_bit_n_r8, gb_bit_n_ptr_hl, gb_res_n_r8,
      gb_res_n_ptr_hl, gb_set_n_r8, gb_set_n_ptr_hl, gb_undefined_opcode,
      addClocks, memWrite, memRead, pcInc, setPC, setSP, setF, fAnd, fOr, fUpd,
      GBState.set8, GBState.get8, GBState.set16, GBState.get16]
  all_goals
    first
    | simp [mod256_mod16, setZ_mod16, setN_mod16, setH_mod16, setC_mod16,
        lor_mod16, land_mod16, land15_mod16, ite_mod16, ite_cpu_f, daa_f16,
        shlor_even, F_ZERO, F_SUBTRACT, F_HALFCARRY, F_CARRY, hs]

set_option maxHeartbeats 1000000 in
theorem gbExecCBrow13_f16 (lo : Nat) (s : GBState) (hs : s.cpu.f % 16 = 0) :
    (gbExecCBrow13 lo s).cpu.f % 16 = 0 := by
  unfold gbExecCBrow13
  split
  all_goals
    simp only [gb_ld_r16_nnnn, gb_ld_r8_nn, gb_ld_ptr_r16_r8, gb_ld_r8_ptr_r16,
      gb_inc_r16, gb_dec_r16, gb_inc_r8, gb_dec_r8, gb_add_hl_r16, gb_add_a_r8,
      gb_adc_a_r8, gb_sub_a_r8, gb_sbc_a_r8, gb_and_a_r8, gb_xor_a_r8,
      gb_or_a_r8, gb_cp_a_r8, gb_rst_nnnn, gb_push_r16, gb_pop_r16,
      gb_call_cond_nnnn, gb_ret_cond, gb_jp_cond_nnnn, gb_jr_cond_nn,
      gb_rlc_r8, gb_rrc_r8, gb_rl_r8, gb_rr_r8, gb_sla_r8, gb_sra_r8,
      gb_swap_r8, gb_srl_r8, gb_bit_n_r8, gb_bit_n_ptr_hl, gb_res_n_r8,
      gb_res_n_ptr_hl, gb_set_n_r8, gb_set_n_ptr_hl, gb_undefined_opcode,
      addClocks, memWrite, memRead, pcInc, setPC, setSP, setF, fAnd, fOr, fUpd,
      GBState.set8, GBState.get8, GBState.set16, GBState.get16]
  all_goals
    first
    | simp [mod256_mod16, setZ_mod16, setN_mod16, setH_mod16, setC_mod16,
        lor_mod16, land_mod16, land15_mod16, ite_mod16, ite_cpu_f, daa_f16,
        shlor_even, F_ZERO, F_SUBTRACT, F_HALFCARRY, F_CARRY, hs]

set_option maxHeartbeats 1000000 in
theorem gbExecCBrow14_f16 (lo : Nat) (s : GBState) (hs : s.cpu.f % 16 = 0) :
    (gbExecCBrow14 lo s).cpu.f % 16 = 0 := by
  unfold gbExecCBrow14
  split
  all_goals
    simp only [gb_ld_r16_nnnn, gb_ld_r8_nn, gb_ld_ptr_r16_r8, gb_ld_r8_ptr_r16,
      gb_inc_r16, gb_dec_r16, gb_inc_r8, gb_dec_r8, gb_add_hl_r16, gb_add_a_r8,
      gb_adc_a_r8, gb_sub_a_r8, gb_sbc_a_r8, gb_and_a_r8, gb_xor_a_r8,
      gb_or_a_r8, gb_cp_a_r8, gb_rst_nnnn, gb_push_r16, gb_pop_r16,
      gb_call_cond_nnnn, gb_ret_cond, gb_jp_cond_nnnn, gb_jr_cond_nn,
      gb_rlc_r8, gb_rrc_r8, gb_rl_r8, gb_rr_r8, gb_sla_r8, gb_sra_r8,
      gb_swap_r8, gb_srl_r8, gb_bit_n_r8, gb_bit_n_ptr_hl, gb_res_n_r8,
      gb_res_n_ptr_hl, gb_set_n_r8, gb_set_n_ptr_hl, gb_undefined_opcode,
      addClocks, memWrite, memRead, pcInc, setPC, setSP, setF, fAnd, fOr, fUpd,
      GBState.set8, GBState.get8, GBState.set16, GBState.get16]
  all_goals
    first
    | simp [mod256_mod16, setZ_mod16, setN_mod16, setH_mod16, setC_mod16,
        lor_mod16, land_mod16, land15_mod16, ite_mod16, ite_cpu_f, daa_f16,
        shlor_even, F_ZERO, F_SUBTRACT, F_HALFCARRY, F_CARRY, hs]

set_option maxHeartbeats 1000000 in
theorem gbExecCBrow15_f16 (lo : Nat) (s : GBState) (hs : s.cpu.f % 16 = 0) :
    (gbExecCBrow15 lo s).cpu.f % 16 = 0 := by
  unfold gbExecCBrow15
  split
  all_goals
    simp only [gb_ld_r16_nnnn, gb_ld_r8_nn, gb_ld_ptr_r16_r8, gb_ld_r8_ptr_r16,
      gb_inc_r16, gb_dec_r16, gb_inc_r8, gb_dec_r8, gb_add_hl_r16, gb_add_a_r8,
      gb_adc_a_r8, gb_sub_a_r8, gb_sbc_a_r8, gb_and_a_r8, gb_xor_a_r8,
      gb_or_a_r8, gb_cp_a_r8, gb_rst_nnnn, gb_push_r16, gb_pop_r16,
      gb_call_cond_nnnn, gb_ret_cond, gb_jp_cond_nnnn, gb_jr_cond_nn,
      gb_rlc_r8, gb_rrc_r8, gb_rl_r8, gb_rr_r8, gb_sla_r8, gb_sra_r8,
      gb_swap_r8, gb_srl_r8, gb_bit_n_r8, gb_bit_n_ptr_hl, gb_res_n_r8,
      gb_res_n_ptr_hl, gb_set_n_r8, gb_set_n_ptr_hl, gb_undefined_opcode,
      addClocks, memWrite, memRead, pcInc, setPC, setSP, setF, fAnd, fOr, fUpd,
      GBState.set8, GBState.get8, GBState.set16, GBState.get16]
  all_goals
    first
    | simp [mod256_mod16, setZ_mod16, setN_mod16, setH_mod16, setC_mod16,
        lor_mod16, land_mod16, land15_mod16, ite_mod16, ite_cpu_f, daa_f16,
        shlor_even, F_ZERO, F_SUBTRACT, F_HALFCARRY, F_CARRY, hs]

set_option maxHeartbeats 1000000 in
/-- Every CB-prefixed opcode preserves a zero low nibble of F. -/
theorem execCB_f16 (op : Nat) (s : GBState) (hs : s.cpu.f % 16 = 0) :
    (gbExecCB op s).cpu.f % 16 = 0 := by
  unfold gbExecCB
  split
  · exact gbExecCBrow0_f16 _ _ hs
  · exact gbExecCBrow1_f16 _ _ hs
  · exact gbExecCBrow2_f16 _ _ hs
  · exact gbExecCBrow3_f16 _ _ hs
  · exact gbExecCBrow4_f16 _ _ hs
  · exact gbExecCBrow5_f16 _ _ hs
  · exact gbExecCBrow6_f16 _ _ hs
  · exact gbExecCBrow7_f16 _ _ hs
  · exact gbExecCBrow8_f16 _ _ hs
  · exact gbExecCBrow9_f16 _ _ hs
  · exact gbExecCBrow10_f16 _ _ hs
  · exact gbExecCBrow11_f16 _ _ hs
  · exact gbExecCBrow12_f16 _ _ hs
  · exact gbExecCBrow13_f16 _ _ hs
  · exact gbExecCBrow14_f16 _ _ hs
  · exact gbExecCBrow15_f16 _ _ hs
  · exact hs

set_option maxHeartbeats 1000000 in
theorem gbExecRow0_f16 (lo : Nat) (s : GBState) (hs : s.cpu.f % 16 = 0) :
    (gbExecRow0 lo s).cpu.f % 16 = 0 := by
  unfold gbExecRow0
  split
  all_goals
    simp only [gb_ld_r16_nnnn, gb_ld_r8_nn, gb_ld_ptr_r16_r8, gb_ld_r8_ptr_r16,
      gb_inc_r16, gb_dec_r16, gb_inc_r8, gb_dec_r8, gb_add_hl_r16, gb_add_a_r8,
      gb_adc_a_r8, gb_sub_a_r8, gb_sbc_a_r8, gb_and_a_r8, gb_xor_a_r8,
      gb_or_a_r8, gb_cp_a_r8, gb_rst_nnnn, gb_push_r16, gb_pop_r16,
      gb_call_cond_nnnn, gb_ret_cond, gb_jp_cond_nnnn, gb_jr_cond_nn,
      gb_rlc_r8, gb_rrc_r8, gb_rl_r8, gb_rr_r8, gb_sla_r8, gb_sra_r8,
      gb_swap_r8, gb_srl_r8, gb_bit_n_r8, gb_bit_n_ptr_hl, gb_res_n_r8,
      gb_res_n_ptr_hl, gb_set_n_r8, gb_set_n_ptr_hl, gb_undefined_opcode,
      addClocks, memWrite, memRead, pcInc, setPC, setSP, setF, fAnd, fOr, fUpd,
      GBState.set8, GBState.get8, GBState.set16, GBState.get16]
  all_goals
    simp [mod256_mod16, setZ_mod16, setN_mod16, setH_mod16, setC_mod16,
      lor_mod16, land_mod16, land15_mod16, ite_mod16, ite_cpu_f, daa_f16,
      shlor_even, F_ZERO, F_SUBTRACT, F_HALFCARRY, F_CARRY, hs]

set_option maxHeartbeats 1000000 in
theorem gbExecRow1_f16 (lo : Nat) (s : GBState) (hs : s.cpu.f % 16 = 0) :
    (gbExecRow1 lo s).cpu.f % 16 = 0 := by
  unfold gbExecRow1
  split
  all_goals
    simp only [gb_ld_r16_nnnn, gb_ld_r8_nn, gb_ld_ptr_r16_r8, gb_ld_r8_ptr_r16,
      gb_inc_r16, gb_dec_r16, gb_inc_r8, gb_dec_r8, gb_add_hl_r16, gb_add_a_r8,
      gb_adc_a_r8, gb_sub_a_r8, gb_sbc_a_r8, gb_and_a_r8, gb_xor_a_r8,
      gb_or_a_r8, gb_cp_a_r8, gb_rst_nnnn, gb_push_r16, gb_pop_r16,
      gb_call_cond_nnnn, gb_ret_cond, gb_jp_cond_nnnn, gb_jr_cond_nn,
      gb_rlc_r8, gb_rrc_r8, gb_rl_r8, gb_rr_r8, gb_sla_r8, gb_sra_r8,
      gb_swap_r8, gb_srl_r8, gb_bit_n_r8, gb_bit_n_ptr_hl, gb_res_n_r8,
      gb_res_n_ptr_hl, gb_set_n_r8, gb_set_n_ptr_hl, gb_undefined_opcode,
      addClocks, memWrite, memRead, pcInc, setPC, setSP, setF, fAnd, fOr, fUpd,
      GBState.set8, GBState.get8, GBState.set16, GBState.get16]
  all_goals
    simp [mod256_mod16, setZ_mod16, setN_mod16, setH_mod16, setC_mod16,
      lor_mod16, land_mod16, land15_mod16, ite_mod16, ite_cpu_f, daa_f16,
      shlor_even, F_ZERO, F_SUBTRACT, F_HALFCARRY, F_CARRY, hs]

set_option maxHeartbeats 1000000 in
theorem gbExecRow2_f16 (lo : Nat) (s : GBState) (hs : s.cpu.f % 16 = 0) :
    (gbExecRow2 lo s).cpu.f % 16 = 0 := by
  unfold gbExecRow2
  split
  all_goals
    simp only [gb_ld_r16_nnnn, gb_ld_r8_nn, gb_ld_ptr_r16_r8, gb_ld_r8_ptr_r16,
      gb_inc_r16, gb_dec_r16, gb_inc_r8, gb_dec_r8, gb_add_hl_r16, gb_add_a_r8,
      gb_adc_a_r8, gb_sub_a_r8, gb_sbc_a_r8, gb_and_a_r8, gb_xor_a_r8,
      gb_or_a_r8, gb_cp_a_r8, gb_rst_nnnn, gb_push_r16, gb_pop_r16,
      gb_call_cond_nnnn, gb_ret_cond, gb_jp_cond_nnnn, gb_jr_cond_nn,
      gb_rlc_r8, gb_rrc_r8, gb_rl_r8, gb_rr_r8, gb_sla_r8, gb_sra_r8,
      gb_swap_r8, gb_srl_r8, gb_bit_n_r8, gb_bit_n_ptr_hl, gb_res_n_r8,
      gb_res_n_ptr_hl, gb_set_n_r8, gb_set_n_ptr_hl, gb_undefined_opcode,
      addClocks, memWrite, memRead, pcInc, setPC, setSP, setF, fAnd, fOr, fUpd,
      GBState.set8, GBState.get8, GBState.set16, GBState.get16]
  all_goals
    simp [mod256_mod16, setZ_mod16, setN_mod16, setH_mod16, setC_mod16,
      lor_mod16, land_mod16, land15_mod16, ite_mod16, ite_cpu_f, daa_f16,
      shlor_even, F_ZERO, F_SUBTRACT, F_HALFCARRY, F_CARRY, hs]

set_option maxHeartbeats 1000000 in
theorem gbExecRow3_f16 (lo : Nat) (s : GBState) (hs : s.cpu.f % 16 = 0) :
    (gbExecRow3 lo s).cpu.f % 16 = 0 := by
  unfold gbExecRow3
  split
  all_goals
    simp only [gb_ld_r16_nnnn, gb_ld_r8_nn, gb_ld_ptr_r16_r8, gb_ld_r8_ptr_r16,
      gb_inc_r16, gb_dec_r16, gb_inc_r8, gb_dec_r8, gb_add_hl_r16, gb_add_a_r8,
      gb_adc_a_r8, gb_sub_a_r8, gb_sbc_a_r8, gb_and_a_r8, gb_xor_a_r8,
      gb_or_a_r8, gb_cp_a_r8, gb_rst_nnnn, gb_push_r16, gb_pop_r16,
      gb_call_cond_nnnn, gb_ret_cond, gb_jp_cond_nnnn, gb_jr_cond_nn,
      gb_rlc_r8, gb_rrc_r8, gb_rl_r8, gb_rr_r8, gb_sla_r8, gb_sra_r8,
      gb_swap_r8, gb_srl_r8, gb_bit_n_r8, gb_bit_n_ptr_hl, gb_res_n_r8,
      gb_res_n_ptr_hl, gb_set_n_r8, gb_set_n_ptr_hl, gb_undefined_opcode,
      addClocks, memWrite, memRead, pcInc, setPC, setSP, setF, fAnd, fOr, fUpd,
      GBState.set8, GBState.get8, GBState.set16, GBState.get16]
  all_goals
    simp [mod256_mod16, setZ_mod16, setN_mod16, setH_mod16, setC_mod16,
      lor_mod16, land_mod16, land15_mod16, ite_mod16, ite_cpu_f, daa_f16,
      shlor_even, F_ZERO, F_SUBTRACT, F_HALFCARRY, F_CARRY, hs]

set_option maxHeartbeats 1000000 in
theorem gbExecRow4_f16 (lo : Nat) (s : GBState) (hs : s.cpu.f % 16 = 0) :
    (gbExecRow4 lo s).cpu.f % 16 = 0 := by
  unfold gbExecRow4
  split
  all_goals
    simp only [gb_ld_r16_nnnn, gb_ld_r8_nn, gb_ld_ptr_r16_r8, gb_ld_r8_ptr_r16,
      gb_inc_r16, gb_dec_r16, gb_inc_r8, gb_dec_r8, gb_add_hl_r16, gb_add_a_r8,
      gb_adc_a_r8, gb_sub_a_r8, gb_sbc_a_r8, gb_and_a_r8, gb_xor_a_r8,
      gb_or_a_r8, gb_cp_a_r8, gb_rst_nnnn, gb_push_r16, gb_pop_r16,
      gb_call_cond_nnnn, gb_ret_cond, gb_jp_cond_nnnn, gb_jr_cond_nn,
      gb_rlc_r8, gb_rrc_r8, gb_rl_r8, gb_rr_r8, gb_sla_r8, gb_sra_r8,
      gb_swap_r8, gb_srl_r8, gb_bit_n_r8, gb_bit_n_ptr_hl, gb_res_n_r8,
      gb_res_n_ptr_hl, gb_set_n_r8, gb_set_n_ptr_hl, gb_undefined_opcode,
      addClocks, memWrite, memRead, pcInc, setPC, setSP, setF, fAnd, fOr, fUpd,
      GBState.set8, GBState.get8, GBState.set16, GBState.get16]
  all_goals
    simp [mod256_mod16, setZ_mod16, setN_mod16, setH_mod16, setC_mod16,
      lor_mod16, land_mod16, land15_mod16, ite_mod16, ite_cpu_f, daa_f16,
      shlor_even, F_ZERO, F_SUBTRACT, F_HALFCARRY, F_CARRY, hs]

set_option maxHeartbeats 1000000 in
theorem gbExecRow5_f16 (lo : Nat) (s : GBState) (hs : s.cpu.f % 16 = 0) :
    (gbExecRow5 lo s).cpu.f % 16 = 0 := by
  unfold gbExecRow5
  split
  all_goals
    simp only [gb_ld_r16_nnnn, gb_ld_r8_nn, gb_ld_ptr_r16_r8, gb_ld_r8_ptr_r16,
      gb_inc_r16, gb_dec_r16, gb_inc_r8, gb_dec_r8, gb_add_hl_r16, gb_add_a_r8,
      gb_adc_a_r8, gb_sub_a_r8, gb_sbc_a_r8, gb_and_a_r8, gb_xor_a_r8,
      gb_or_a_r8, gb_cp_a_r8, gb_rst_nnnn, gb_push_r16, gb_pop_r16,
      gb_call_cond_nnnn, gb_ret_cond, gb_jp_cond_nnnn, gb_jr_cond_nn,
      gb_rlc_r8, gb_rrc_r8, gb_rl_r8, gb_rr_r8, gb_sla_r8, gb_sra_r8,
      gb_swap_r8, gb_srl_r8, gb_bit_n_r8, gb_bit_n_ptr_hl, gb_res_n_r8,
      gb_res_n_ptr_hl, gb_set_n_r8, gb_set_n_ptr_hl, gb_undefined_opcode,
      addClocks, memWrite, memRead, pcInc, setPC, setSP, setF, fAnd, fOr, fUpd,
      GBState.set8, GBState.get8, GBState.set16, GBState.get16]
  all_goals
    simp [mod256_mod16, setZ_mod16, setN_mod16, setH_mod16, setC_mod16,
      lor_mod16, land_mod16, land15_mod16, ite_mod16, ite_cpu_f, daa_f16,
      shlor_even, F_ZERO, F_SUBTRACT, F_HALFCARRY, F_CARRY, hs]

set_option maxHeartbeats 1000000 in
theorem gbExecRow6_f16 (lo : Nat) (s : GBState) (hs : s.cpu.f % 16 = 0) :
    (gbExecRow6 lo s).cpu.f % 16 = 0 := by
  unfold gbExecRow6
  split
  all_goals
    simp only [gb_ld_r16_nnnn, gb_ld_r8_nn, gb_ld_ptr_r16_r8, gb_ld_r8_ptr_r16,
      gb_inc_r16, gb_dec_r16, gb_inc_r8, gb_dec_r8, gb_add_hl_r16, gb_add_a_r8,
      gb_adc_a_r8, gb_sub_a_r8, gb_sbc_a_r8, gb_and_a_r8, gb_xor_a_r8,
      gb_or_a_r8, gb_cp_a_r8, gb_rst_nnnn, gb_push_r16, gb_pop_r16,
      gb_call_cond_nnnn, gb_ret_cond, gb_jp_cond_nnnn, gb_jr_cond_nn,
      gb_rlc_r8, gb_rrc_r8, gb_rl_r8, gb_rr_r8, gb_sla_r8, gb_sra_r8,
      gb_swap_r8, gb_srl_r8, gb_bit_n_r8, gb_bit_n_ptr_hl, gb_res_n_r8,
      gb_res_n_ptr_hl, gb_set_n_r8, gb_set_n_ptr_hl, gb_undefined_opcode,
      addClocks, memWrite, memRead, pcInc, setPC, setSP, setF, fAnd, fOr, fUpd,
      GBState.set8, GBState.get8, GBState.set16, GBState.get16]
  all_goals
    simp [mod256_mod16, setZ_mod16, setN_mod16, setH_mod16, setC_mod16,
      lor_mod16, land_mod16, land15_mod16, ite_mod16, ite_cpu_f, daa_f16,
      shlor_even, F_ZERO, F_SUBTRACT, F_HALFCARRY, F_CARRY, hs]

set_option maxHeartbeats 1000000 in
theorem gbExecRow7_f16 (lo : Nat) (s : GBState) (hs : s.cpu.f % 16 = 0) :
    (gbExecRow7 lo s).cpu.f % 16 = 0 := by
  unfold gbExecRow7
  split
  all_goals
    simp only [gb_ld_r16_nnnn, gb_ld_r8_nn, gb_ld_ptr_r16_r8, gb_ld_r8_ptr_r16,
      gb_inc_r16, gb_dec_r16, gb_inc_r8, gb_dec_r8, gb_add_hl_r16, gb_add_a_r8,
      gb_adc_a_r8, gb_sub_a_r8, gb_sbc_a_r8, gb_and_a_r8, gb_xor_a_r8,
      gb_or_a_r8, gb_cp_a_r8, gb_rst_nnnn, gb_push_r16, gb_pop_r16,
      gb_call_cond_nnnn, gb_ret_cond, gb_jp_cond_nnnn, gb_jr_cond_nn,
      gb_rlc_r8, gb_rrc_r8, gb_rl_r8, gb_rr_r8, gb_sla_r8, gb_sra_r8,
      gb_swap_r8, gb_srl_r8, gb_bit_n_r8, gb_bit_n_ptr_hl, gb_res_n_r8,
      gb_res_n_ptr_hl, gb_set_n_r8, gb_set_n_ptr_hl, gb_undefined_opcode,
      addClocks, memWrite, memRead, pcInc, setPC, setSP, setF, fAnd, fOr, fUpd,
      GBState.set8, GBState.get8, GBState.set16, GBState.get16]
  all_goals
    simp [mod256_mod16, setZ_mod16, setN_mod16, setH_mod16, setC_mod16,
      lor_mod16, land_mod16, land15_mod16, ite_mod16, ite_cpu_f, daa_f16,
      shlor_even, F_ZERO, F_SUBTRACT, F_HALFCARRY, F_CARRY, hs]

set_option maxHeartbeats 1000000 in
theorem gbExecRow8_f16 (lo : Nat) (s : GBState) (hs : s.cpu.f % 16 = 0) :
    (gbExecRow8 lo s).cpu.f % 16 = 0 := by
  unfold gbExecRow8
  split
  all_goals
    simp only [gb_ld_r16_nnnn, gb_ld_r8_nn, gb_ld_ptr_r16_r8, gb_ld_r8_ptr_r16,
      gb_inc_r16, gb_dec_r16, gb_inc_r8, gb_dec_r8, gb_add_hl_r16, gb_add_a_r8,
      gb_adc_a_r8, gb_sub_a_r8, gb_sbc_a_r8, gb_and_a_r8, gb_xor_a_r8,
      gb_or_a_r8, gb_cp_a_r8, gb_rst_nnnn, gb_push_r16, gb_pop_r16,
      gb_call_cond_nnnn, gb_ret_cond, gb_jp_cond_nnnn, gb_jr_cond_nn,
      gb_rlc_r8, gb_rrc_r8, gb_rl_r8, gb_rr_r8, gb_sla_r8, gb_sra_r8,
      gb_swap_r8, gb_srl_r8, gb_bit_n_r8, gb_bit_n_ptr_hl, gb_res_n_r8,
      gb_res_n_ptr_hl, gb_set_n_r8, gb_set_n_ptr_hl, gb_undefined_opcode,
      addClocks, memWrite, memRead, pcInc, setPC, setSP, setF, fAnd, fOr, fUpd,
      GBState.set8, GBState.get8, GBState.set16, GBState.get16]
  all_goals
    simp [mod256_mod16, setZ_mod16, setN_mod16, setH_mod16, setC_mod16,
      lor_mod16, land_mod16, land15_mod16, ite_mod16, ite_cpu_f, daa_f16,
      shlor_even, F_ZERO, F_SUBTRACT, F_HALFCARRY, F_CARRY, hs]

set_option maxHeartbeats 1000000 in
theorem gbExecRow9_f16 (lo : Nat) (s : GBState) (hs : s.cpu.f % 16 = 0) :
    (gbExecRow9 lo s).cpu.f % 16 = 0 := by
  unfold gbExecRow9
  split
  all_goals
    simp only [gb_ld_r16_nnnn, gb_ld_r8_nn, gb_ld_ptr_r16_r8, gb_ld_r8_ptr_r16,
      gb_inc_r16, gb_dec_r16, gb_inc_r8, gb_dec_r8, gb_add_hl_r16, gb_add_a_r8,
      gb_adc_a_r8, gb_sub_a_r8, gb_sbc_a_r8, gb_and_a_r8, gb_xor_a_r8,
      gb_or_a_r8, gb_cp_a_r8, gb_rst_nnnn, gb_push_r16, gb_pop_r16,
      gb_call_cond_nnnn, gb_ret_cond, gb_jp_cond_nnnn, gb_jr_cond_nn,
      gb_rlc_r8, gb_rrc_r8, gb_rl_r8, gb_rr_r8, gb_sla_r8, gb_sra_r8,
      gb_swap_r8, gb_srl_r8, gb_bit_n_r8, gb_bit_n_ptr_hl, gb_res_n_r8,
      gb_res_n_ptr_hl, gb_set_n_r8, gb_set_n_ptr_hl, gb_undefined_opcode,
      addClocks, memWrite, memRead, pcInc, setPC, setSP, setF, fAnd, fOr, fUpd,
      GBState.set8, GBState.get8, GBState.set16, GBState.get16]
  all_goals
    simp [mod256_mod16, setZ_mod16, setN_mod16, setH_mod16, setC_mod16,
      lor_mod16, land_mod16, land15_mod16, ite_mod16, ite_cpu_f, daa_f16,
      shlor_even, F_ZERO, F_SUBTRACT, F_HALFCARRY, F_CARRY, hs]

set_option maxHeartbeats 1000000 in
theorem gbExecRow10_f16 (lo : Nat) (s : GBState) (hs : s.cpu.f % 16 = 0) :
    (gbExecRow10 lo s).cpu.f % 16 = 0 := by
  unfold gbExecRow10
  split
  all_goals
    simp only [gb_ld_r16_nnnn, gb_ld_r8_nn, gb_ld_ptr_r16_r8, gb_ld_r8_ptr_r16,
      gb_inc_r16, gb_dec_r16, gb_inc_r8, gb_dec_r8, gb_add_hl_r16, gb_add_a_r8,
      gb_adc_a_r8, gb_sub_a_r8, gb_sbc_a_r8, gb_and_a_r8, gb_xor_a_r8,
      gb_or_a_r8, gb_cp_a_r8, gb_rst_nnnn, gb_push_r16, gb_pop_r16,
      gb_call_cond_nnnn, gb_ret_cond, gb_jp_cond_nnnn, gb_jr_cond_nn,
      gb_rlc_r8, gb_rrc_r8, gb_rl_r8, gb_rr_r8, gb_sla_r8, gb_sra_r8,
      gb_swap_r8, gb_srl_r8, gb_bit_n_r8, gb_bit_n_ptr_hl, gb_res_n_r8,
      gb_res_n_ptr_hl, gb_set_n_r8, gb_set_n_ptr_hl, gb_undefined_opcode,
      addClocks, memWrite, memRead, pcInc, setPC, setSP, setF, fAnd, fOr, fUpd,
      GBState.set8, GBState.get8, GBState.set16, GBState.get16]
  all_goals
    simp [mod256_mod16, setZ_mod16, setN_mod16, setH_mod16, setC_mod16,
      lor_mod16, land_mod16, land15_mod16, ite_mod16, ite_cpu_f, daa_f16,
      shlor_even, F_ZERO, F_SUBTRACT, F_HALFCARRY, F_CARRY, hs]

set_option maxHeartbeats 1000000 in
theorem gbExecRow11_f16 (lo : Nat) (s : GBState) (hs : s.cpu.f % 16 = 0) :
    (gbExecRow11 lo s).cpu.f % 16 = 0 := by
  unfold gbExecRow11
  split
  all_goals
    simp only [gb_ld_r16_nnnn, gb_ld_r8_nn, gb_ld_ptr_r16_r8, gb_ld_r8_ptr_r16,
      gb_inc_r16, gb_dec_r16, gb_inc_r8, gb_dec_r8, gb_add_hl_r16, gb_add_a_r8,
      gb_adc_a_r8, gb_sub_a_r8, gb_sbc_a_r8, gb_and_a_r8, gb_xor_a_r8,
      gb_or_a_r8, gb_cp_a_r8, gb_rst_nnnn, gb_push_r16, gb_pop_r16,
      gb_call_cond_nnnn, gb_ret_cond, gb_jp_cond_nnnn, gb_jr_cond_nn,
      gb_rlc_r8, gb_rrc_r8, gb_rl_r8, gb_rr_r8, gb_sla_r8, gb_sra_r8,
      gb_swap_r8, gb_srl_r8, gb_bit_n_r8, gb_bit_n_ptr_hl, gb_res_n_r8,
      gb_res_n_ptr_hl, gb_set_n_r8, gb_set_n_ptr_hl, gb_undefined_opcode,
      addClocks, memWrite, memRead, pcInc, setPC, setSP, setF, fAnd, fOr, fUpd,
      GBState.set8, GBState.get8, GBState.set16, GBState.get16]
  all_goals
    simp [mod256_mod16, setZ_mod16, setN_mod16, setH_mod16, setC_mod16,
      lor_mod16, land_mod16, land15_mod16, ite_mod16, ite_cpu_f, daa_f16,
      shlor_even, F_ZERO, F_SUBTRACT, F_HALFCARRY, F_CARRY, hs]

set_option maxHeartbeats 1000000 in
theorem gbExecRow12_f16 (lo : Nat) (s : GBState) (hs : s.cpu.f % 16 = 0) :
    (gbExecRow12 lo s).cpu.f % 16 = 0 := by
  unfold gbExecRow12
  split
  all_goals
    simp only [gb_ld_r16_nnnn, gb_ld_r8_nn, gb_ld_ptr_r16_r8, gb_ld_r8_ptr_r16,
      gb_inc_r16, gb_dec_r16, gb_inc_r8, gb_dec_r8, gb_add_hl_r16, gb_add_a_r8,
      gb_adc_a_r8, gb_sub_a_r8, gb_sbc_a_r8, gb_and_a_r8, gb_xor_a_r8,
      gb_or_a_r8, gb_cp_a_r8,
      gb_rst_f, gb_push_f, gb_popBC_f, gb_popDE_f, gb_popHL_f,
      gb_call_cond_f, gb_ret_cond_f, gb_jp_cond_f, gb_jr_cond_f,
      gb_undefined_f,
      memWrite_f, addClocks_f, pcInc_f, setPC_f, setSP_f, setF_f, set16_f,
      set8A_f, set8B_f, set8C_f, set8D_f, set8E_f, set8H_f, set8L_f, set8F_f,
      fAnd_f, fOr_f, fUpd_f, ite_cpu_f]
  all_goals
    first
    | simp [mod256_mod16, setZ_mod16, setN_mod16, setH_mod16, setC_mod16,
        lor_mod16, land_mod16, land15_mod16, ite_mod16, ite_cpu_f, daa_f16,
        shlor_even, F_ZERO, F_SUBTRACT, F_HALFCARRY, F_CARRY, hs]
    | (apply execCB_f16
       simp [pcInc, addClocks, hs])

set_option maxHeartbeats 1000000 in
theorem gbExecRow13_f16 (lo : Nat) (s : GBState) (hs : s.cpu.f % 16 = 0) :
    (gbExecRow13 lo s).cpu.f % 16 = 0 := by
  unfold gbExecRow13
  split
  all_goals
    simp only [gb_ld_r16_nnnn, gb_ld_r8_nn, gb_ld_ptr_r16_r8, gb_ld_r8_ptr_r16,
      gb_inc_r16, gb_dec_r16, gb_inc_r8, gb_dec_r8, gb_add_hl_r16, gb_add_a_r8,
      gb_adc_a_r8, gb_sub_a_r8, gb_sbc_a_r8, gb_and_a_r8, gb_xor_a_r8,
      gb_or_a_r8, gb_cp_a_r8,
      gb_rst_f, gb_push_f, gb_popBC_f, gb_popDE_f, gb_popHL_f,
      gb_call_cond_f, gb_ret_cond_f, gb_jp_cond_f, gb_jr_cond_f,
      gb_undefined_f,
      memWrite_f, addClocks_f, pcInc_f, setPC_f, setSP_f, setF_f, set16_f,
      set8A_f, set8B_f, set8C_f, set8D_f, set8E_f, set8H_f, set8L_f, set8F_f,
      fAnd_f, fOr_f, fUpd_f, ite_cpu_f]
  all_goals
    simp [mod256_mod16, setZ_mod16, setN_mod16, setH_mod16, setC_mod16,
      lor_mod16, land_mod16, land15_mod16, ite_mod16, ite_cpu_f, daa_f16,
      shlor_even, F_ZERO, F_SUBTRACT, F_HALFCARRY, F_CARRY, hs]

set_option maxHeartbeats 1000000 in
theorem gbExecRow14_f16 (lo : Nat) (s : GBState) (hs : s.cpu.f % 16 = 0) :
    (gbExecRow14 lo s).cpu.f % 16 = 0 := by
  unfold gbExecRow14
  split
  all_goals
    simp only [gb_ld_r16_nnnn, gb_ld_r8_nn, gb_ld_ptr_r16_r8, gb_ld_r8_ptr_r16,
      gb_inc_r16, gb_dec_r16, gb_inc_r8, gb_dec_r8, gb_add_hl_r16, gb_add_a_r8,
      gb_adc_a_r8, gb_sub_a_r8, gb_sbc_a_r8, gb_and_a_r8, gb_xor_a_r8,
      gb_or_a_r8, gb_cp_a_r8,
      gb_rst_f, gb_push_f, gb_popBC_f, gb_popDE_f, gb_popHL_f,
      gb_call_cond_f, gb_ret_cond_f, gb_jp_cond_f, gb_jr_cond_f,
      gb_undefined_f,
      memWrite_f, addClocks_f, pcInc_f, setPC_f, setSP_f, setF_f, set16_f,
      set8A_f, set8B_f, set8C_f, set8D_f, set8E_f, set8H_f, set8L_f, set8F_f,
      fAnd_f, fOr_f, fUpd_f, ite_cpu_f]
  all_goals
    simp [mod256_mod16, setZ_mod16, setN_mod16, setH_mod16, setC_mod16,
      lor_mod16, land_mod16, land15_mod16, ite_mod16, ite_cpu_f, daa_f16,
      shlor_even, F_ZERO, F_SUBTRACT, F_HALFCARRY, F_CARRY, hs]

set_option maxHeartbeats 1000000 in
theorem gbExecRow15_f16 (lo : Nat) (s : GBState) (hs : s.cpu.f % 16 = 0) :
    (gbExecRow15 lo s).cpu.f % 16 = 0 := by
  unfold gbExecRow15
  split
  all_goals
    simp only [gb_ld_r16_nnnn, gb_ld_r8_nn, gb_ld_ptr_r16_r8, gb_ld_r8_ptr_r16,
      gb_inc_r16, gb_dec_r16, gb_inc_r8, gb_dec_r8, gb_add_hl_r16, gb_add_a_r8,
      gb_adc_a_r8, gb_sub_a_r8, gb_sbc_a_r8, gb_and_a_r8, gb_xor_a_r8,
      gb_or_a_r8, gb_cp_a_r8,
      gb_rst_f, gb_push_f, gb_popBC_f, gb_popDE_f, gb_popHL_f,
      gb_call_cond_f, gb_ret_cond_f, gb_jp_cond_f, gb_jr_cond_f,
      gb_undefined_f,
      memWrite_f, addClocks_f, pcInc_f, setPC_f, setSP_f, setF_f, set16_f,
      set8A_f, set8B_f, set8C_f, set8D_f, set8E_f, set8H_f, set8L_f, set8F_f,
      fAnd_f, fOr_f, fUpd_f, ite_cpu_f]
  all_goals
    simp [mod256_mod16, setZ_mod16, setN_mod16, setH_mod16, setC_mod16,
      lor_mod16, land_mod16, land15_mod16, ite_mod16, ite_cpu_f, daa_f16,
      shlor_even, F_ZERO, F_SUBTRACT, F_HALFCARRY, F_CARRY, hs]

set_option maxHeartbeats 1000000 in
/-- Every opcode preserves a zero low nibble of F. -/
theorem execOpcode_f16 (op : Nat) (s : GBState) (hs : s.cpu.f % 16 = 0) :
    (gbExecOpcode op s).cpu.f % 16 = 0 := by
  unfold gbExecOpcode
  split
  · exact gbExecRow0_f16 _ _ hs
  · exact gbExecRow1_f16 _ _ hs
  · exact gbExecRow2_f16 _ _ hs
  · exact gbExecRow3_f16 _ _ hs
  · exact gbExecRow4_f16 _ _ hs
  · exact gbExecRow5_f16 _ _ hs
  · exact gbExecRow6_f16 _ _ hs
  · exact gbExecRow7_f16 _ _ hs
  · exact gbExecRow8_f16 _ _ hs
  · exact gbExecRow9_f16 _ _ hs
  · exact gbExecRow10_f16 _ _ hs
  · exact gbExecRow11_f16 _ _ hs
  · exact gbExecRow12_f16 _ _ hs
  · exact gbExecRow13_f16 _ _ hs
  · exact gbExecRow14_f16 _ _ hs
  · exact gbExecRow15_f16 _ _ hs
  · exact hs

/-- The fetch-execute loop preserves a zero low nibble of F. -/
theorem cpuLoop_f16 (fuel finish : Nat) (s : GBState) (hs : s.cpu.f % 16 = 0) :
    (gbCpuLoop fuel finish s).cpu.f % 16 = 0 := by
  induction fuel generalizing s with
  | zero => exact hs
  | succ fuel ih =>
    simp only [gbCpuLoop]
    repeat' split
    all_goals
      first
      | exact ih _ (execOpcode_f16 _ _ hs)
      | exact execOpcode_f16 _ _ hs
      | exact hs

/-! ## Claim C5 -/

/-- Claim C5: in every observable CPU state the low four bits of F are
zero.  Every instruction preserves a zero low nibble of F (it writes only
the upper nibble; POP AF masks the popped flag byte with 0xF0, which is why
the 0xF1 case holds although the popped byte is arbitrary); the whole
`GB_CPUExecute` loop therefore preserves it; and every power-on AF value of
`GB_CPUInit` satisfies it. -/
theorem f_low_nibble_invariant :
    (∀ op s, s.cpu.f % 16 = 0 → (gbExecOpcode op s).cpu.f % 16 = 0)
    ∧ (∀ clocks s, s.cpu.f % 16 = 0 →
        ((GB_CPUExecute clocks s).1).cpu.f % 16 = 0)
    ∧ (∀ af ∈ gbInitialAF, af % 256 % 16 = 0) := by
  refine ⟨execOpcode_f16, fun clocks s hs => ?_, by decide⟩
  exact cpuLoop_f16 _ _ _ hs

/-- Witness for C5: the invariant applied to the POP AF instruction at a
concrete state whose stacked flag byte is 0xFF. -/
theorem f_low_nibble_invariant_witness :
    (gbExecOpcode 0xF1 popAFState).cpu.f % 16 = 0 :=
  f_low_nibble_invariant.1 0xF1 popAFState (by decide)

/-! ## Claim C1 -/

/-- Claim C1: after EI, the instruction immediately following executes
before any interrupt is dispatched, and dispatch happens only on the fetch
after that.  Concretely, from IME=0, IF=0x01, IE=0x01, EI at 0x0100
followed by DI at 0x0101 dispatches no interrupt and leaves IME=0 — both
when the scheduler grants one 8-clock window and when it grants two 4-clock
windows — and a further dispatch attempt still does nothing.  In contrast,
with NOP instead of DI, the NOP completes undisturbed (PC=0x0102, nothing
dispatched) and the interrupt is dispatched exactly on the following fetch
(PC=0x0040, one dispatch). -/
theorem ei_delay_no_dispatch :
    (let s8 := gbRunWindow 8 eiDiState
     s8.dispatches = 0 ∧ s8.ime = 0 ∧ s8.cpu.pc = 0x0102
       ∧ (GB_InterruptsExecute s8).2 = 0 ∧ (GB_InterruptsExecute s8).1.ime = 0)
    ∧ (let s44 := gbRunWindow 4 (gbRunWindow 4 eiDiState)
       s44.dispatches = 0 ∧ s44.ime = 0 ∧ s44.cpu.pc = 0x0102
         ∧ (GB_InterruptsExecute s44).2 = 0)
    ∧ (let n1 := gbRunWindow 8 eiNopState
       n1.dispatches = 0 ∧ n1.cpu.pc = 0x0102 ∧ n1.ime = 1
         ∧ (gbRunWindow 8 n1).dispatches = 1
         ∧ (gbRunWindow 8 n1).cpu.pc = 0x0040
         ∧ (gbRunWindow 8 n1).ime = 0) := by
  decide

/-! ## Claim C2 -/

/-- Counterexample to C2 as stated: in the halt-bug scenario (IME=0,
IE=0x01, IF=0x01, HALT at 0x0100, INC A at 0x0101, A=0), after one opcode
fetch following HALT the CPU is at PC=0x0101 with A=0x01, not A=0x02 — and
when A does reach 0x02 (after the second fetch of the double-fetched byte)
PC is 0x0102, so no fetch boundary satisfies PC=0x0101 ∧ A=0x02. -/
theorem halt_bug_one_fetch_counterexample :
    haltBugFetch1.cpu.a = 0x01
    ∧ ¬(haltBugFetch1.cpu.pc = 0x0101 ∧ haltBugFetch1.cpu.a = 0x02)
    ∧ ¬(haltBugFetch2.cpu.pc = 0x0101 ∧ haltBugFetch2.cpu.a = 0x02) := by
  decide

/-- Claim C2 (amended): HALT with IME=0 and pending IF&IE does not halt the
CPU and sets the one-shot halt_bug flag; the next opcode fetch does not
advance PC, so after one fetch PC=0x0101 and A=0x01, and the byte at 0x0101
is fetched twice, so after the second fetch A=0x02 (INC A executed twice)
with PC=0x0102. -/
theorem halt_bug_double_fetch :
    haltBugAfterHalt.cpuHalt = 0 ∧ haltBugAfterHalt.haltBug = 1
    ∧ haltBugAfterHalt.cpu.pc = 0x0101
    ∧ haltBugFetch1.cpu.pc = 0x0101 ∧ haltBugFetch1.cpu.a = 0x01
    ∧ haltBugFetch2.cpu.pc = 0x0102 ∧ haltBugFetch2.cpu.a = 0x02 := by
  decide

/-! ## Claim C3 -/

theorem div8_eq_shiftRight (x : Nat) : x / 8 = x >>> 3 := by
  rw [Nat.shiftRight_eq_div_pow]

theorem lor_div8 (a b : Nat) : (a ||| b) / 8 = a / 8 ||| b / 8 := by
  rw [div8_eq_shiftRight, div8_eq_shiftRight, div8_eq_shiftRight]
  apply Nat.eq_of_testBit_eq
  intro i
  simp [Nat.testBit_shiftRight, Nat.testBit_lor]

theorem lor_mod8 (a b : Nat) : (a ||| b) % 8 = (a % 8) ||| (b % 8) := by
  apply Nat.eq_of_testBit_eq
  intro i
  rw [show (8 : Nat) = 2 ^ 3 from rfl]
  simp only [Nat.testBit_mod_two_pow, Nat.testBit_lor]
  by_cases h : i < 3 <;> simp [h]

/-- The alignment `(c | 4) & ~3` of `GB_ClocksForNextEvent` in closed form:
clear the low three bits and set bit 2. -/
theorem clocksAlign (c : Nat) : ((c ||| 4) / 4) * 4 = 8 * (c / 8) + 4 := by
  have hm : (c ||| 4) % 8 = c % 8 ||| 4 := by
    rw [lor_mod8]
  have hd : (c ||| 4) / 8 = c / 8 := by
    rw [lor_div8]
    simp
  have hsplit : c ||| 4 = 8 * (c / 8) + (c % 8 ||| 4) := by
    conv_lhs => rw [← Nat.div_add_mod (c ||| 4) 8]
    rw [hm, hd]
  have h8 : c % 8 < 8 := Nat.mod_lt _ (by norm_num)
  rw [hsplit]
  set r := c % 8 with hr
  interval_cases r <;> simp <;> omega

/-- Counterexample to C3 as stated: with every subsystem distance equal to
8 the minimum is 8, already a multiple of 4, yet the computed window is 12:
the alignment is not "round up to the next multiple of 4". -/
theorem clocks_next_event_counterexample :
    GB_ClocksForNextEvent 8 8 8 8 8 = 12
    ∧ roundUpMult4 (min (min (min (min 8 8) 8) 8) 8) = 8
    ∧ GB_ClocksForNextEvent 8 8 8 8 8
        ≠ roundUpMult4 (min (min (min (min 8 8) 8) 8) 8) := by
  decide

/-- Claim C3 (amended): the scheduling window equals the minimum over the
timer, PPU, serial, DMA and sound clocks-to-next-event, aligned by
`(m | 4) & ~3`, i.e. the minimum with its low three bits cleared and bit 2
set — `8⌊m/8⌋ + 4`, a multiple of 4 that lies in (m-4, m+4], but not in
general the least multiple of 4 ≥ m. -/
theorem clocks_next_event_alignment (timer ppu serial dma sound : Nat) :
    GB_ClocksForNextEvent timer ppu serial dma sound
      = 8 * (min (min (min (min timer ppu) serial) dma) sound / 8) + 4
    ∧ GB_ClocksForNextEvent timer ppu serial dma sound % 4 = 0 := by
  simp only [GB_ClocksForNextEvent]
  have hmin : min (min (min (min (min timer ppu) serial) dma) sound) sound
      = min (min (min (min timer ppu) serial) dma) sound := by
    rw [Nat.min_assoc, Nat.min_self]
  rw [hmin, clocksAlign]
  omega


/-! ## Claim C4 -/

theorem land_lor_distrib (x a b : Nat) :
    x &&& (a ||| b) = (x &&& a) ||| (x &&& b) := by
  apply Nat.eq_of_testBit_eq
  intro i
  simp [Nat.testBit_land, Nat.testBit_lor, Bool.and_or_distrib_left]

theorem lor_eq_zero_iff (a b : Nat) : a ||| b = 0 ↔ a = 0 ∧ b = 0 := by
  constructor
  · intro h
    constructor
    · apply Nat.eq_of_testBit_eq
      intro i
      have := congrArg (fun x => Nat.testBit x i) h
      simp [Nat.testBit_lor] at this
      simp [this.1]
    · apply Nat.eq_of_testBit_eq
      intro i
      have := congrArg (fun x => Nat.testBit x i) h
      simp [Nat.testBit_lor] at this
      simp [this.2]
  · rintro ⟨h1, h2⟩
    simp [h1, h2]

/-- The condition tested by `GB_PPUCheckStatSignal` (the transcription of
ppu.c lines 246-250) is equivalent to the spec's formulation of the
combined STAT signal. -/
theorem statSignal_equiv (s : PPUState) :
    ((s.ly % 256 = s.lyc % 256 ∧ s.stat &&& IENABLE_LY_COMPARE ≠ 0)
      ∨ (s.screenmode = 0 ∧ s.stat &&& IENABLE_HBL ≠ 0)
      ∨ (s.screenmode = 2 ∧ s.stat &&& IENABLE_OAM ≠ 0)
      ∨ (s.screenmode = 1 ∧ s.stat &&& (IENABLE_VBL ||| IENABLE_OAM) ≠ 0))
    ↔ statSignalSpec s := by
  unfold statSignalSpec
  have hd : s.stat &&& (IENABLE_VBL ||| IENABLE_OAM) ≠ 0
      ↔ (s.stat &&& IENABLE_VBL ≠ 0 ∨ s.stat &&& IENABLE_OAM ≠ 0) := by
    rw [land_lor_distrib]
    rw [Ne, lor_eq_zero_iff]
    tauto
  rw [hd]
  tauto

/-- Claim C4: with the LCD on, `GB_PPUCheckStatSignal` computes the
combined STAT signal as the OR of the four enabled sources (LYC, mode 0,
mode 2, and during mode 1 the mode-1 or mode-2 enable), remembers it in
`stat_signal`, and sets IF bit 1 exactly when the signal is 1 and the
remembered previous value was 0 (a rising edge); LY and STAT are not
modified. -/
theorem stat_signal_rising_edge (s : PPUState) (hlcd : s.lcd_on ≠ 0) :
    ((GB_PPUCheckStatSignal s).stat_signal
        = if statSignalSpec s then 1 else 0)
    ∧ ((GB_PPUCheckStatSignal s).ifReg
        = if statSignalSpec s ∧ s.stat_signal = 0
          then s.ifReg ||| (1 <<< 1) else s.ifReg)
    ∧ (GB_PPUCheckStatSignal s).ly = s.ly
    ∧ (GB_PPUCheckStatSignal s).stat = s.stat := by
  unfold GB_PPUCheckStatSignal
  rw [if_neg hlcd]
  by_cases ha : statSignalSpec s
  · rw [if_pos ((statSignal_equiv s).mpr ha)]
    by_cases hz : s.stat_signal = 0
    · rw [if_pos hz]
      simp [interruptsSetStat, ha, hz]
    · rw [if_neg hz]
      simp [ha, hz]
  · rw [if_neg (fun hc => ha ((statSignal_equiv s).mp hc))]
    simp [ha]

/-- Witness for C4: the rising-edge theorem applied to the concrete
mode-0 scenario — the signal rises, so IF bit 1 (value 2) gets set. -/
theorem stat_signal_rising_edge_witness :
    (GB_PPUCheckStatSignal statScenario).stat_signal = 1
    ∧ (GB_PPUCheckStatSignal statScenario).ifReg = 2
    ∧ (GB_PPUCheckStatSignal statScenario).ly = 10 := by
  have h := stat_signal_rising_edge statScenario (by decide)
  refine ⟨?_, ?_, h.2.2.1.trans rfl⟩
  · rw [h.1]
    decide
  · rw [h.2.1]
    decide

/-! ## Claim C6 -/

theorem lor_div16 (a b : Nat) : (a ||| b) / 16 = a / 16 ||| b / 16 := by
  have h : ∀ x : Nat, x / 16 = x >>> 4 := fun x => by
    rw [Nat.shiftRight_eq_div_pow]
  rw [h, h, h]
  apply Nat.eq_of_testBit_eq
  intro i
  simp [Nat.testBit_shiftRight, Nat.testBit_lor]

theorem lor16_add (a r : Nat) (hr : r < 16) : (16 * a) ||| r = 16 * a + r := by
  have hm : ((16 * a) ||| r) % 16 = r := by
    rw [lor_mod16]
    simp [Nat.mul_mod_right, Nat.mod_eq_of_lt hr]
  have hd : ((16 * a) ||| r) / 16 = a := by
    rw [lor_div16]
    simp [Nat.mul_div_cancel_left, Nat.div_eq_of_lt hr]
  omega

/-- The DAA table index `(A << 4) | (((F >> 4) & 7) << 1)` in arithmetic
form. -/
theorem daa_index (a f : Nat) :
    (a <<< 4) ||| (((f >>> 4) &&& 7) <<< 1) = 16 * a + 2 * (f / 16 % 8) := by
  have h1 : a <<< 4 = 16 * a := by
    rw [Nat.shiftLeft_eq]
    ring
  have h2 : (f >>> 4) &&& 7 = f / 16 % 8 := by
    rw [Nat.shiftRight_eq_div_pow]
    rw [show (7 : Nat) = 2 ^ 3 - 1 from rfl, Nat.and_pow_two_sub_one_eq_mod]
  have h3 : (f / 16 % 8) <<< 1 = 2 * (f / 16 % 8) := by
    rw [Nat.shiftLeft_eq]
    ring
  rw [h1, h2, h3]
  exact lor16_add a _ (by omega)

theorem fC_eq (f : Nat) : fC f = f / 16 % 2 := by
  unfold fC
  rw [Nat.shiftRight_eq_div_pow]
  rw [show (1 : Nat) = 2 ^ 1 - 1 from rfl, Nat.and_pow_two_sub_one_eq_mod]

theorem fH_eq (f : Nat) : fH f = f / 32 % 2 := by
  unfold fH
  rw [Nat.shiftRight_eq_div_pow]
  rw [show (1 : Nat) = 2 ^ 1 - 1 from rfl, Nat.and_pow_two_sub_one_eq_mod]

theorem fN_eq (f : Nat) : fN f = f / 64 % 2 := by
  unfold fN
  rw [Nat.shiftRight_eq_div_pow]
  rw [show (1 : Nat) = 2 ^ 1 - 1 from rfl, Nat.and_pow_two_sub_one_eq_mod]

theorem fZ_eq (f : Nat) : fZ f = f / 128 % 2 := by
  unfold fZ
  rw [Nat.shiftRight_eq_div_pow]
  rw [show (1 : Nat) = 2 ^ 1 - 1 from rfl, Nat.and_pow_two_sub_one_eq_mod]

/-- Reading the flag bits of a DAA flag byte `z | n*64 | c*16` with
`z ∈ {0, 128}`, `n, c ∈ {0, 1}`. -/
theorem daa_flags_decode (z n c : Nat) (hz : z = 0 ∨ z = 128)
    (hn : n = 0 ∨ n = 1) (hc : c = 0 ∨ c = 1) :
    fZ (z ||| n * 64 ||| c * 16) = z / 128
    ∧ fN (z ||| n * 64 ||| c * 16) = n
    ∧ fH (z ||| n * 64 ||| c * 16) = 0
    ∧ (z ||| n * 64 ||| c * 16) % 16 = 0
    ∧ fC (z ||| n * 64 ||| c * 16) = c
    ∧ (z ||| n * 64 ||| c * 16) < 256 := by
  rcases hz with rfl | rfl <;> rcases hn with rfl | rfl <;>
    rcases hc with rfl | rfl <;> decide

/-- Counterexample to C6 as stated: the table is declared as
`u8 gb_daa_table[256 * 8 * 2]` (cpu.c line 57), i.e. 4096 bytes = 4 KiB,
not 2 KiB. -/
theorem daa_table_size_counterexample :
    gb_daa_table_size = 4096 ∧ gb_daa_table_size ≠ 2 * 1024 := by
  decide

set_option maxHeartbeats 1000000 in
/-- Claim C6 (amended): DAA uses the 4 KiB (not 2 KiB) table
`gb_daa_table`, indexed by `{A, N, H, C}` as `(A << 4) | (flags << 1)`; on
addition (N=0) the result adds 0x06 when the low nibble exceeds 9 or H was
set, and 0x60 when A exceeds 0x99 or C was set; on subtraction (N=1) it
subtracts the 0x06/0x60 adjustments selected by H and C alone; and the odd
table entry supplies the post-adjust flag byte: Z from the result, N
preserved, H cleared (with the whole low nibble 0), and C set on addition
iff the 0x60 adjustment condition held, C preserved on subtraction. -/
theorem daa_adjustment (s : GBState) (ha : s.cpu.a < 256) :
    (gb_daa_table_size = 4096)
    ∧ ((gbExecOpcode 0x27 s).cpu.a
        = gb_daa_table ((s.cpu.a <<< 4) ||| (((s.cpu.f >>> 4) &&& 7) <<< 1)))
    ∧ (fN s.cpu.f = 0 →
        (gbExecOpcode 0x27 s).cpu.a
          = (s.cpu.a + (if 9 < s.cpu.a % 16 ∨ fH s.cpu.f = 1 then 0x06 else 0)
              + (if 0x99 < s.cpu.a ∨ fC s.cpu.f = 1 then 0x60 else 0)) % 256)
    ∧ (fN s.cpu.f = 1 →
        (gbExecOpcode 0x27 s).cpu.a
          = (s.cpu.a + 256 - ((if fH s.cpu.f = 1 then 0x06 else 0)
              + (if fC s.cpu.f = 1 then 0x60 else 0))) % 256)
    ∧ (fZ (gbExecOpcode 0x27 s).cpu.f
        = if (gbExecOpcode 0x27 s).cpu.a = 0 then 1 else 0)
    ∧ (fN (gbExecOpcode 0x27 s).cpu.f = fN s.cpu.f)
    ∧ (fH (gbExecOpcode 0x27 s).cpu.f = 0)
    ∧ ((gbExecOpcode 0x27 s).cpu.f % 16 = 0)
    ∧ (fN s.cpu.f = 0 →
        fC (gbExecOpcode 0x27 s).cpu.f
          = if 0x99 < s.cpu.a ∨ fC s.cpu.f = 1 then 1 else 0)
    ∧ (fN s.cpu.f = 1 → fC (gbExecOpcode 0x27 s).cpu.f = fC s.cpu.f) := by
  have hstep_a : (gbExecOpcode 0x27 s).cpu.a
      = gb_daa_table ((s.cpu.a <<< 4) ||| (((s.cpu.f >>> 4) &&& 7) <<< 1)) % 256 := rfl
  have hstep_f : (gbExecOpcode 0x27 s).cpu.f
      = gb_daa_table (((s.cpu.a <<< 4) ||| (((s.cpu.f >>> 4) &&& 7) <<< 1)) + 1) % 256 := rfl
  set A := s.cpu.a with hA
  set F := s.cpu.f with hF
  have hidx : (A <<< 4) ||| (((F >>> 4) &&& 7) <<< 1) = 16 * A + 2 * (F / 16 % 8) :=
    daa_index A F
  set fl := F / 16 % 8 with hfl
  have hfl8 : fl < 8 := Nat.mod_lt _ (by norm_num)
  have e_a : (16 * A + 2 * fl) / 16 % 256 = A := by omega
  have e_c : (16 * A + 2 * fl) / 2 % 2 = fl % 2 := by omega
  have e_h : (16 * A + 2 * fl) / 4 % 2 = fl / 2 % 2 := by omega
  have e_n : (16 * A + 2 * fl) / 8 % 2 = fl / 4 % 2 := by omega
  have e_p : ¬((16 * A + 2 * fl) % 2 = 1) := by omega
  have e_a1 : (16 * A + 2 * fl + 1) / 16 % 256 = A := by omega
  have e_c1 : (16 * A + 2 * fl + 1) / 2 % 2 = fl % 2 := by omega
  have e_h1 : (16 * A + 2 * fl + 1) / 4 % 2 = fl / 2 % 2 := by omega
  have e_n1 : (16 * A + 2 * fl + 1) / 8 % 2 = fl / 4 % 2 := by omega
  have e_p1 : (16 * A + 2 * fl + 1) % 2 = 1 := by omega
  have rC : fC F = fl % 2 := by rw [fC_eq]; omega
  have rH : fH F = fl / 2 % 2 := by rw [fH_eq]; omega
  have rN : fN F = fl / 4 % 2 := by rw [fN_eq]; omega
  have tbl_even : gb_daa_table (16 * A + 2 * fl)
      = if fl / 4 % 2 = 0 then
          (A + ((if 9 < A % 16 ∨ fl / 2 % 2 = 1 then 6 else 0)
                + if 153 < A ∨ fl % 2 = 1 then 96 else 0)) % 256
        else
          (A + 256 - ((if fl / 2 % 2 = 1 then 6 else 0)
                + if fl % 2 = 1 then 96 else 0)) % 256 := by
    simp only [gb_daa_table, e_a, e_c, e_h, e_n]
    rw [if_neg e_p]
    by_cases hn : fl / 4 % 2 = 0 <;> simp [hn]
  have tbl_odd : gb_daa_table (16 * A + 2 * fl + 1)
      = (if (if fl / 4 % 2 = 0 then
              (A + ((if 9 < A % 16 ∨ fl / 2 % 2 = 1 then 6 else 0)
                    + if 153 < A ∨ fl % 2 = 1 then 96 else 0)) % 256
            else
              (A + 256 - ((if fl / 2 % 2 = 1 then 6 else 0)
                    + if fl % 2 = 1 then 96 else 0)) % 256) = 0
         then 128 else 0)
        ||| (fl / 4 % 2) * 64
        ||| (if fl / 4 % 2 = 0 then (if 153 < A ∨ fl % 2 = 1 then 1 else 0)
             else fl % 2) * 16 := by
    simp only [gb_daa_table, e_a1, e_c1, e_h1, e_n1]
    rw [if_pos e_p1]
    simp only [F_ZERO, F_SUBTRACT, F_CARRY]
    by_cases hn : fl / 4 % 2 = 0 <;> simp [hn]
  have even_lt : gb_daa_table (16 * A + 2 * fl) < 256 := by
    rw [tbl_even]
    split <;> exact Nat.mod_lt _ (by norm_num)
  have tbl_odd2 := tbl_odd
  rw [← tbl_even] at tbl_odd2
  have hz2 : (if gb_daa_table (16 * A + 2 * fl) = 0 then (128 : Nat) else 0) = 0
           ∨ (if gb_daa_table (16 * A + 2 * fl) = 0 then (128 : Nat) else 0) = 128 := by
    split <;> simp
  have hn2 : fl / 4 % 2 = 0 ∨ fl / 4 % 2 = 1 := Nat.mod_two_eq_zero_or_one _
  have hc2 : (if fl / 4 % 2 = 0 then (if 153 < A ∨ fl % 2 = 1 then 1 else 0)
              else fl % 2) = 0
           ∨ (if fl / 4 % 2 = 0 then (if 153 < A ∨ fl % 2 = 1 then 1 else 0)
              else fl % 2) = 1 := by
    split
    · split <;> simp
    · omega
  obtain ⟨dZ, dN, dH, dLow, dC, dLt⟩ := daa_flags_decode _ _ _ hz2 hn2 hc2
  have hfa : (gbExecOpcode 0x27 s).cpu.a = gb_daa_table (16 * A + 2 * fl) := by
    rw [hstep_a, hidx]
    exact Nat.mod_eq_of_lt even_lt
  have hff : (gbExecOpcode 0x27 s).cpu.f
      = (if gb_daa_table (16 * A + 2 * fl) = 0 then (128 : Nat) else 0)
        ||| (fl / 4 % 2) * 64
        ||| (if fl / 4 % 2 = 0 then (if 153 < A ∨ fl % 2 = 1 then 1 else 0)
             else fl % 2) * 16 := by
    rw [hstep_f, hidx, tbl_odd2]
    exact Nat.mod_eq_of_lt dLt
  refine ⟨rfl, ?_, ?_, ?_, ?_, ?_, ?_, ?_, ?_, ?_⟩
  · rw [hidx]
    exact hfa
  · intro h0
    rw [rN] at h0
    rw [hfa, tbl_even, if_pos h0, rH, rC, Nat.add_assoc]
  · intro h1
    rw [rN] at h1
    rw [hfa, tbl_even, if_neg (by omega), rH, rC]
  · rw [hff, dZ, hfa]
    split <;> norm_num
  · rw [hff, dN, rN]
  · rw [hff, dH]
  · rw [hff]
    exact dLow
  · intro h0
    rw [rN] at h0
    rw [hff, dC, rC, if_pos h0]
  · intro h1
    rw [rN] at h1
    rw [hff, dC, rC, if_neg (by omega)]

/-- Witness for C6: the DAA theorem applied to the post-`ADD A,B` state
A=0x7D with all flags clear — the low nibble 0xD exceeds 9, so 0x06 is
added and A becomes 0x83 with a clean flag low nibble. -/
theorem daa_adjustment_witness :
    (gbExecOpcode 0x27 daaState).cpu.a = 0x83
    ∧ (gbExecOpcode 0x27 daaState).cpu.f % 16 = 0 := by
  obtain ⟨-, -, hadd, -, -, -, -, hlow, -, -⟩ := daa_adjustment daaState (by decide)
  refine ⟨?_, hlow⟩
  rw [hadd (by decide)]
  decide


/-! ## Claim C7 -/

theorem land255 (x : Nat) : x &&& 255 = x % 256 := by
  rw [show (255 : Nat) = 2 ^ 8 - 1 from rfl, Nat.and_pow_two_sub_one_eq_mod]

/-- The u32 accumulation `sum = sum - b - 1` folded over any address list:
each step adds `0xFFFFFFFF - b` modulo 2^32. -/
theorem headerFold (rom : Nat → Nat) :
    ∀ (l : List Nat) (init : Nat), init < 0x100000000 →
      l.foldl (fun sum c => gbHeaderSumStep sum (rom c)) init
        = (init + (l.map (fun c => 0xFFFFFFFF - rom c % 256)).sum)
            % 0x100000000 := by
  intro l
  induction l with
  | nil =>
    intro init h
    simp [Nat.mod_eq_of_lt h]
  | cons c l ih =>
    intro init h
    have hb : rom c % 256 < 256 := Nat.mod_lt _ (by norm_num)
    have hstep : gbHeaderSumStep init (rom c)
        = (init + (0xFFFFFFFF - rom c % 256)) % 0x100000000 := by
      unfold gbHeaderSumStep
      omega
    have hlt : gbHeaderSumStep init (rom c) < 0x100000000 := by
      rw [hstep]
      exact Nat.mod_lt _ (by norm_num)
    calc (c :: l).foldl (fun sum c => gbHeaderSumStep sum (rom c)) init
        = l.foldl (fun sum c => gbHeaderSumStep sum (rom c))
            (gbHeaderSumStep init (rom c)) := rfl
      _ = (gbHeaderSumStep init (rom c)
            + (l.map (fun c => 0xFFFFFFFF - rom c % 256)).sum)
            % 0x100000000 := ih _ hlt
      _ = (init + ((c :: l).map (fun c => 0xFFFFFFFF - rom c % 256)).sum)
            % 0x100000000 := by
          rw [hstep]
          simp [List.sum_cons]
          omega

theorem byteSum_le (rom : Nat → Nat) (l : List Nat) :
    (l.map (fun c => rom c % 256)).sum ≤ 255 * l.length := by
  induction l with
  | nil => simp
  | cons c l ih =>
    have hb : rom c % 256 < 256 := Nat.mod_lt _ (by norm_num)
    simp only [List.map_cons, List.sum_cons, List.length_cons]
    omega

theorem mapSub (rom : Nat → Nat) (l : List Nat) :
    (l.map (fun c => 0xFFFFFFFF - rom c % 256)).sum
      = 0xFFFFFFFF * l.length - (l.map (fun c => rom c % 256)).sum := by
  induction l with
  | nil => simp
  | cons c l ih =>
    have hb : rom c % 256 < 256 := Nat.mod_lt _ (by norm_num)
    have hle := byteSum_le rom l
    simp only [List.map_cons, List.sum_cons, List.length_cons]
    omega

/-- The fold of rom.c lines 619-624 masked to a byte equals the closed
formula `(-Σ bytes[0x134..=0x14C] - 0x19) mod 256` of the claim. -/
theorem checksum_closed (rom : Nat → Nat) :
    gbHeaderChecksum rom = gbHeaderChecksumSpec rom := by
  unfold gbHeaderChecksum gbHeaderChecksumSpec
  rw [headerFold rom _ 0 (by norm_num), mapSub, land255]
  have hlen : ((List.range 0x19).map (fun k => 0x134 + k)).length = 0x19 := by
    simp
  have hle := byteSum_le rom ((List.range 0x19).map (fun k => 0x134 + k))
  rw [hlen] at hle
  unfold gbHeaderByteSum
  rw [hlen]
  have hmap : ((List.range 0x19).map (fun k => 0x134 + k)).map
        (fun c => rom c % 256)
      = (List.range 0x19).map (fun k => rom (0x134 + k) % 256) := by
    simp [List.map_map, Function.comp]
  rw [hmap] at hle ⊢
  omega

/-- Claim C7: the header checksum computed by `GB_CartridgeLoad` equals
`(-Σ bytes[0x134..=0x14C] - 0x19) mod 256`; when the load succeeds,
`checksumWarned` records exactly whether the stored checksum byte 0x14D
mismatches; and changing byte 0x14D never changes whether the load
succeeds — a mismatch is only reported, never fatal. -/
theorem header_checksum_only_warns (rom : Nat → Nat) (rom_size v : Nat) :
    gbHeaderChecksum rom = gbHeaderChecksumSpec rom
    ∧ ((GB_CartridgeLoad rom rom_size).ok = true →
        (GB_CartridgeLoad rom rom_size).checksumWarned
          = (rom 0x14D % 256 != gbHeaderChecksum rom))
    ∧ (GB_CartridgeLoad (updByte rom 0x14D v) rom_size).ok
        = (GB_CartridgeLoad rom rom_size).ok := by
  refine ⟨checksum_closed rom, ?_, ?_⟩
  · intro hok
    rcases h147 : gbCartType (rom 0x147 % 256) with _ | ⟨mc, bat, timer⟩
    · simp [GB_CartridgeLoad, h147] at hok
    · rcases h149 : gbRamBanks (rom 0x149 % 256) with _ | ram0
      · simp [GB_CartridgeLoad, h147, h149] at hok
      · rcases h148 : gbRomBanks (rom 0x148 % 256) with _ | banks
        · simp [GB_CartridgeLoad, h147, h149, h148] at hok
        · by_cases hsz : rom_size < banks * 16 * 1024
          · simp [GB_CartridgeLoad, h147, h149, h148, hsz] at hok
          · simp [GB_CartridgeLoad, h147, h149, h148, hsz]
  · have h7 : updByte rom 0x14D v 0x147 = rom 0x147 := rfl
    have h8 : updByte rom 0x14D v 0x148 = rom 0x148 := rfl
    have h9 : updByte rom 0x14D v 0x149 = rom 0x149 := rfl
    rcases h147 : gbCartType (rom 0x147 % 256) with _ | ⟨mc, bat, timer⟩
    · simp [GB_CartridgeLoad, h7, h8, h9, h147]
    · rcases h149 : gbRamBanks (rom 0x149 % 256) with _ | ram0
      · simp [GB_CartridgeLoad, h7, h8, h9, h147, h149]
      · rcases h148 : gbRomBanks (rom 0x148 % 256) with _ | banks
        · simp [GB_CartridgeLoad, h7, h8, h9, h147, h149, h148]
        · by_cases hsz : rom_size < banks * 16 * 1024 <;>
            simp [GB_CartridgeLoad, h7, h8, h9, h147, h149, h148, hsz]

/-- Witness for C7: on the all-zero ROM the checksum is 0xE7 ≠ 0, so the
load succeeds with only a warning; writing 0xE7 into byte 0x14D leaves the
outcome successful. -/
theorem header_checksum_only_warns_witness :
    gbHeaderChecksum romZero = 0xE7
    ∧ (GB_CartridgeLoad romZero 32768).ok = true
    ∧ (GB_CartridgeLoad romZero 32768).checksumWarned = true
    ∧ (GB_CartridgeLoad (updByte romZero 0x14D 0xE7) 32768).ok = true := by
  have h := header_checksum_only_warns romZero 32768 0xE7
  refine ⟨by decide, by decide, ?_, ?_⟩
  · rw [h.2.1 (by decide)]
    decide
  · rw [h.2.2]
    decide

/-! ## Claim C8 -/

/-- Claim C8: when the header decodes (known cartridge type, RAM size and
ROM size codes), `GB_CartridgeLoad` succeeds exactly when the file size is
at least `banks * 16 KiB`; a strictly larger file loads successfully with
the size warning set; a smaller file fails the load. -/
theorem cart_size_check (rom : Nat → Nat) (rom_size : Nat)
    (mc : MemController) (bat timer : Bool) (ram0 banks : Nat)
    (h1 : gbCartType (rom 0x147 % 256) = some (mc, bat, timer))
    (h2 : gbRamBanks (rom 0x149 % 256) = some ram0)
    (h3 : gbRomBanks (rom 0x148 % 256) = some banks) :
    ((GB_CartridgeLoad rom rom_size).ok = true ↔ banks * 16 * 1024 ≤ rom_size)
    ∧ (banks * 16 * 1024 < rom_size →
        (GB_CartridgeLoad rom rom_size).ok = true
        ∧ (GB_CartridgeLoad rom rom_size).sizeWarned = true)
    ∧ (rom_size < banks * 16 * 1024 →
        (GB_CartridgeLoad rom rom_size).ok = false) := by
  by_cases hsz : rom_size < banks * 16 * 1024 <;>
    simp [GB_CartridgeLoad, h1, h2, h3, hsz, bne_iff_ne] <;>
    omega

/-- Witness for C8: the all-zero header declares 2 banks = 32 KiB; a
40000-byte file loads with the size warning, a 16000-byte file fails. -/
theorem cart_size_check_witness :
    (GB_CartridgeLoad romZero 40000).ok = true
    ∧ (GB_CartridgeLoad romZero 40000).sizeWarned = true
    ∧ (GB_CartridgeLoad romZero 16000).ok = false := by
  have h := cart_size_check romZero 40000 .NONE false false 0 2
    (by decide) (by decide) (by decide)
  have h2 := cart_size_check romZero 16000 .NONE false false 0 2
    (by decide) (by decide) (by decide)
  exact ⟨(h.2.1 (by norm_num)).1, (h.2.1 (by norm_num)).2,
    h2.2.2 (by norm_num)⟩

/-! ## Claim C9 -/

theorem land511 (x : Nat) : x &&& 511 = x % 512 := by
  rw [show (511 : Nat) = 2 ^ 9 - 1 from rfl, Nat.and_pow_two_sub_one_eq_mod]

set_option maxHeartbeats 4000000 in
/-- Claim C9: for in-range stored fields, the elapsed-time advance of
`GB_RTC_Load` is exact — the resulting seconds, minutes, hours and days are
the total-seconds decomposition of stored time plus delta, a day count
past 511 is masked to 9 bits with the carry flag set, and the halt flag is
untouched.  Concretely, reloading the all-zero save with current time
T+3600 yields live time (0,0,1,0) with no carry and an unchanged latched
view, and a save at day 511 advanced one day wraps to day 0 with carry. -/
theorem rtc_reload_advance (t : RTCRegs) (delta : Nat)
    (hs : t.sec ≤ 59) (hm : t.min ≤ 59) (hh : t.hour ≤ 23) :
    ((rtcAdvance t delta).sec
        = (t.sec + 60 * t.min + 3600 * t.hour + 86400 * t.days + delta) % 60)
    ∧ ((rtcAdvance t delta).min
        = (t.sec + 60 * t.min + 3600 * t.hour + 86400 * t.days + delta)
            / 60 % 60)
    ∧ ((rtcAdvance t delta).hour
        = (t.sec + 60 * t.min + 3600 * t.hour + 86400 * t.days + delta)
            / 3600 % 24)
    ∧ ((rtcAdvance t delta).days
        = if 511 < (t.sec + 60 * t.min + 3600 * t.hour + 86400 * t.days
                    + delta) / 86400
          then (t.sec + 60 * t.min + 3600 * t.hour + 86400 * t.days + delta)
                / 86400 % 512
          else (t.sec + 60 * t.min + 3600 * t.hour + 86400 * t.days + delta)
                / 86400)
    ∧ ((rtcAdvance t delta).carry
        = if 511 < (t.sec + 60 * t.min + 3600 * t.hour + 86400 * t.days
                    + delta) / 86400
          then 1 else t.carry)
    ∧ ((rtcAdvance t delta).halt = t.halt)
    ∧ (GB_RTC_Load rtcFileT0 3600).1
        = { sec := 0, min := 0, hour := 1, days := 0, halt := 0, carry := 0 }
    ∧ (GB_RTC_Load rtcFileT0 3600).2
        = { sec := 0, min := 0, hour := 0, days := 0, halt := 0, carry := 0 }
    ∧ (GB_RTC_Load rtcFileD511 86400).1.days = 0
    ∧ (GB_RTC_Load rtcFileD511 86400).1.carry = 1 := by
  refine ⟨?_, ?_, ?_, ?_, ?_, ?_, by decide, by decide, by decide, by decide⟩
  all_goals unfold rtcAdvance
  all_goals simp only [land511]
  all_goals try (split_ifs <;> simp_all <;> omega)

/-- Witness for C9: the advance theorem applied to the zero RTC state and
a one-hour delta. -/
theorem rtc_reload_advance_witness :
    (rtcAdvance ⟨0, 0, 0, 0, 0, 0⟩ 3600).hour = 1
    ∧ (rtcAdvance ⟨0, 0, 0, 0, 0, 0⟩ 3600).sec = 0
    ∧ (rtcAdvance ⟨0, 0, 0, 0, 0, 0⟩ 3600).carry = 0 := by
  have h := rtc_reload_advance ⟨0, 0, 0, 0, 0, 0⟩ 3600
    (by decide) (by decide) (by decide)
  exact ⟨h.2.2.1.trans (by decide), h.1.trans (by decide),
    h.2.2.2.2.1.trans (by decide)⟩

/-! ## Claim C10 -/

/-- Claim C10: if the halt flag decoded from the save file is set,
`GB_RTC_Load` applies no elapsed-time advance at all: for every current
time, both returned views are exactly the decoded file contents. -/
theorem rtc_halt_no_advance (fdata : RTCFile) (current_time : Nat)
    (h : (rtcDecode fdata.sec fdata.min fdata.hour fdata.daysLow
            fdata.daysHi).halt = 1) :
    GB_RTC_Load fdata current_time
      = (rtcDecode fdata.sec fdata.min fdata.hour fdata.daysLow fdata.daysHi,
         rtcDecode fdata.lsec fdata.lmin fdata.lhour fdata.ldaysLow
           fdata.ldaysHi) := by
  unfold GB_RTC_Load
  rw [if_pos h]

/-- Witness for C10: a halted save (days_hi bit 6 set, live time 5:6:7)
reloaded with a large current time keeps its decoded fields. -/
theorem rtc_halt_no_advance_witness :
    (GB_RTC_Load rtcFileHalt 999999).1.sec = 5
    ∧ (GB_RTC_Load rtcFileHalt 999999).1.min = 6
    ∧ (GB_RTC_Load rtcFileHalt 999999).1.hour = 7
    ∧ (GB_RTC_Load rtcFileHalt 999999).1.halt = 1 := by
  have h := rtc_halt_no_advance rtcFileHalt 999999 (by decide)
  rw [h]
  decide

end GiiBii
